import Mathlib

/-!
Verification development for the mortgage overpayment simulator
(src/app.py, function run_simulation and its helpers).

The engine is embedded shallowly over ℚ: Python float arithmetic is
modelled by exact rational arithmetic (the literal 0.10 becomes 1/10,
npf.pmt becomes the annuity formula).  The per-month loop of
run_simulation is embedded as a fold of a step function over the month
indices; the two break statements are modelled by the paidOff flag and
the terminal branch of the step, which freeze the state.
-/

namespace Mortgage

/-- SimulationConfig: the `data` dictionary handed to run_simulation. -/
structure SimConfig where
  initial_mortgage : ℚ
  mortgage_term_years : ℕ
  fixed_periods : List (ℕ × ℚ)
  mortgage_rate_after_fixed : ℚ
  monthly_income : ℚ
  monthly_expenses : ℚ
  income_growth_rate : ℚ
  expense_growth_rate : ℚ
  initial_savings : ℚ
  savings_rate : ℚ
  savings_tax_rate : ℚ
  emergency_buffer : ℚ
  min_overpayment_threshold : ℚ
  total_years_to_simulate : ℕ
  deriving Repr, DecidableEq

/-- Which overpayment rule fired (the `type` string of an event dict). -/
inductive OverTag where
  | endOfFixed (idx : ℕ)
  | variableRate
  | annual (year : ℕ)
  deriving Repr, DecidableEq

/-- One entry of overpayment_events. -/
structure OverpaymentEvent where
  month : ℕ
  amount : ℚ
  tag : OverTag
  deriving Repr, DecidableEq

/-- One month of the parallel tracking lists (lines 408-416). -/
structure MonthlyRecord where
  balance : ℚ
  savings : ℚ
  cumOverpayments : ℚ
  yearsVal : ℚ
  income : ℚ
  expenses : ℚ
  overpayment : ℚ
  availableCash : ℚ
  mortgagePayment : ℚ
  deriving Repr, DecidableEq

/-- The mutable simulation variables of run_simulation. -/
structure SimState where
  balance : ℚ
  payment : ℚ
  savings : ℚ
  income : ℚ
  expenses : ℚ
  totalInterest : ℚ
  monthsToFree : Option ℕ
  yearlyLimit : ℚ
  paidOff : Bool
  madeThisYear : Bool
  currentYear : ℕ
  cumOverpayments : ℚ
  records : List MonthlyRecord
  events : List OverpaymentEvent
  deriving Repr, DecidableEq

/-- The dictionary returned by run_simulation (lines 428-444);
the parallel per-month lists are bundled into `records`. -/
structure SimResult where
  months_to_mortgage_free : Option ℕ
  total_interest_paid : ℚ
  interest_saved : ℚ
  final_savings : ℚ
  total_overpayments : ℚ
  records : List MonthlyRecord
  events : List OverpaymentEvent
  deriving Repr, DecidableEq

/-- npf.pmt(r, n, -p): the level annuity payment; degenerates to p/n at
zero rate (numpy_financial semantics). -/
def pmt (r : ℚ) (n : ℤ) (p : ℚ) : ℚ :=
  if r = 0 then p / (n : ℚ)
  else p * r * (1 + r) ^ n / ((1 + r) ^ n - 1)

/-- Lines 267-271: cumulative-sum the declared fixed periods into
(start, end, rate) triples. -/
def buildSchedule : List (ℕ × ℚ) → ℕ → List (ℕ × ℕ × ℚ)
  | [], _ => []
  | (len, r) :: rest, start => (start, start + len, r) :: buildSchedule rest (start + len)

/-- The rate lookup next((r for s, e, r in schedule if s <= month < e), svr)
of lines 352-353 and 375-376. -/
def rateLookup (sched : List (ℕ × ℕ × ℚ)) (svr : ℚ) (m : ℕ) : ℚ :=
  match sched with
  | [] => svr
  | (s, e, r) :: rest => if s ≤ m ∧ m < e then r else rateLookup rest svr m

/-- Index of the first schedule entry whose end month equals m
(the enumerate loop with break at lines 332-355). -/
def findEndIdx (sched : List (ℕ × ℕ × ℚ)) (m : ℕ) : Option ℕ :=
  match sched with
  | [] => none
  | (_, e, _) :: rest => if e = m then some 0 else (findEndIdx rest m).map (· + 1)

/-- Lines 316-321: on a year boundary, reset the yearly overpayment
allowance from the current balance and clear the used flag. -/
def yearReset (m : ℕ) (st : SimState) : SimState :=
  if m % 12 = 0 then
    { st with yearlyLimit := (1 / 10 : ℚ) * st.balance
              madeThisYear := false
              currentYear := m / 12 }
  else st

/-- Lines 323-325: annual income/expense growth, skipped at month 0. -/
def applyGrowth (cfg : SimConfig) (m : ℕ) (st : SimState) : SimState :=
  if 0 < m ∧ m % 12 = 0 then
    { st with income := st.income * (1 + cfg.income_growth_rate)
              expenses := st.expenses * (1 + cfg.expense_growth_rate) }
  else st

/-- Lines 335-347: the end-of-fixed-period lump-sum sweep (rule 1).
Moves max(0, savings - buffer) capped at the balance, logs the event,
and clears the annual-allowance used flag. -/
def rule1Sweep (cfg : SimConfig) (idx m : ℕ) (st : SimState) : SimState :=
  let lump := max 0 (st.savings - cfg.emergency_buffer)
  if 0 < lump then
    let pay := min lump st.balance
    { st with balance := st.balance - pay
              savings := st.savings - pay
              cumOverpayments := st.cumOverpayments + pay
              madeThisYear := false
              events := st.events ++ [⟨m, pay, .endOfFixed (idx + 1)⟩] }
  else st

/-- Lines 349-354: after an end-of-fixed-period boundary, re-amortize the
standard payment over the original remaining term at the rate applicable
after the boundary (only while the balance is positive). -/
def rule1Update (cfg : SimConfig) (sched : List (ℕ × ℕ × ℚ)) (m : ℕ)
    (st : SimState) : SimState :=
  if 0 < st.balance then
    { st with payment := pmt (rateLookup sched cfg.mortgage_rate_after_fixed m / 12)
                             ((cfg.mortgage_term_years * 12 : ℤ) - (m : ℤ)) st.balance }
  else st

/-- Lines 331-355: rule 1 dispatch; returns the end_of_fixed_period flag. -/
def applyRule1 (cfg : SimConfig) (sched : List (ℕ × ℕ × ℚ)) (m : ℕ)
    (st : SimState) : SimState × Bool :=
  match findEndIdx sched m with
  | none => (st, false)
  | some idx => (rule1Update cfg sched m (rule1Sweep cfg idx m st), true)

/-- Lines 357-372: variable-rate-period threshold sweep (rule 2), active
only strictly after the end of the last fixed period. -/
def rule2Sweep (cfg : SimConfig) (sched : List (ℕ × ℕ × ℚ)) (m : ℕ)
    (st : SimState) : SimState :=
  match sched.getLast? with
  | none => st
  | some (_, lastEnd, _) =>
    if lastEnd < m then
      let pot := max 0 (st.savings - cfg.emergency_buffer)
      if cfg.min_overpayment_threshold ≤ pot then
        let pay := min pot st.balance
        { st with balance := st.balance - pay
                  savings := st.savings - pay
                  cumOverpayments := st.cumOverpayments + pay
                  events := st.events ++ [⟨m, pay, .variableRate⟩] }
      else st
    else st

/-- Lines 384-400: the once-per-year annual-allowance overpayment
(rule 3), gated by the used flag, the emergency buffer and the minimum
threshold, capped by the yearly limit and the outstanding balance. -/
def rule3Annual (cfg : SimConfig) (m : ℕ) (st : SimState) : SimState :=
  if st.madeThisYear = false ∧ cfg.emergency_buffer < st.savings then
    let spare := st.savings - cfg.emergency_buffer
    if cfg.min_overpayment_threshold ≤ spare then
      let pot := min spare (min st.yearlyLimit st.balance)
      if 0 < pot then
        { st with balance := st.balance - pot
                  savings := st.savings - pot
                  cumOverpayments := st.cumOverpayments + pot
                  madeThisYear := true
                  events := st.events ++ [⟨m, pot, .annual (st.currentYear + 1)⟩] }
      else st
    else st
  else st

/-- Lines 402-405: the savings accrual; only a strictly positive net
available cash deposits (after-tax interest on the pre-deposit balance
plus the net cash). -/
def applySavings (cfg : SimConfig) (savings avail : ℚ) : ℚ :=
  if 0 < avail then
    savings + savings * (cfg.savings_rate / 12) * (1 - cfg.savings_tax_rate) + avail
  else savings

/-- One non-terminal month of the loop body (lines 307-416), in the
code's order: year reset, growth, rule 1, rule 2, scheduled payment,
rule 3, savings accrual, record append. -/
def monthBody (cfg : SimConfig) (sched : List (ℕ × ℕ × ℚ)) (m : ℕ)
    (st : SimState) : SimState :=
  let st1 := yearReset m st
  let st2 := applyGrowth cfg m st1
  let p := applyRule1 cfg sched m st2
  let st3 := p.1
  let st4 := if p.2 then st3 else rule2Sweep cfg sched m st3
  let lump := st4.cumOverpayments - st2.cumOverpayments
  let rate := rateLookup sched cfg.mortgage_rate_after_fixed m
  let interest := st4.balance * (rate / 12)
  let capital := st4.payment - interest
  let st5 := { st4 with balance := st4.balance - capital
                        totalInterest := st4.totalInterest + interest }
  let avail := st5.income - st5.expenses - st5.payment
  let st6 := rule3Annual cfg m st5
  let curOver := st6.cumOverpayments - st5.cumOverpayments
  let st7 := { st6 with savings := applySavings cfg st6.savings avail }
  { st7 with records := st7.records ++
      [{ balance := st7.balance
         savings := st7.savings
         cumOverpayments := st7.cumOverpayments
         yearsVal := (m : ℚ) / 12
         income := st7.income
         expenses := st7.expenses
         overpayment := curOver + lump
         availableCash := avail
         mortgagePayment := capital + interest }] }

/-- One iteration of the for loop (lines 303-314 plus the body): the
two break statements freeze the state via the paidOff flag / the
terminal branch that zeroes the balance and payment. -/
def simStep (cfg : SimConfig) (sched : List (ℕ × ℕ × ℚ))
    (st : SimState) (m : ℕ) : SimState :=
  if st.paidOff then st
  else if st.balance ≤ 0 then
    { st with monthsToFree := some m
              balance := 0
              payment := 0
              paidOff := true }
  else monthBody cfg sched m st

/-- Lines 273-280: the initial standard payment, amortizing the initial
principal over the full term at the first fixed rate (or the SVR). -/
def initialPayment (cfg : SimConfig) : ℚ :=
  let sched := buildSchedule cfg.fixed_periods 0
  let r := match sched with
           | [] => cfg.mortgage_rate_after_fixed
           | (_, _, r) :: _ => r
  pmt (r / 12) (cfg.mortgage_term_years * 12 : ℤ) cfg.initial_mortgage

/-- Lines 259-301: the simulation variables before the loop. -/
def initState (cfg : SimConfig) : SimState :=
  { balance := cfg.initial_mortgage
    payment := initialPayment cfg
    savings := cfg.initial_savings
    income := cfg.monthly_income
    expenses := cfg.monthly_expenses
    totalInterest := 0
    monthsToFree := none
    yearlyLimit := (1 / 10 : ℚ) * cfg.initial_mortgage
    paidOff := false
    madeThisYear := false
    currentYear := 0
    cumOverpayments := 0
    records := []
    events := [] }

/-- The state after processing months 0 .. m-1. -/
def loopIter (cfg : SimConfig) (m : ℕ) : SimState :=
  (List.range m).foldl (simStep cfg (buildSchedule cfg.fixed_periods 0)) (initState cfg)

/-- run_simulation (lines 256-444): run the loop over the horizon and
assemble the result, including the no-overpayment full-term baseline
used for the interest-saved figure (lines 419-426). -/
def run_simulation (cfg : SimConfig) : SimResult :=
  let months := cfg.total_years_to_simulate * 12
  let final := loopIter cfg months
  let full_term_rate := match cfg.fixed_periods with
                        | [] => cfg.mortgage_rate_after_fixed
                        | (_, r) :: _ => r
  let full_term_payment := pmt (full_term_rate / 12)
      (cfg.mortgage_term_years * 12 : ℤ) cfg.initial_mortgage
  let total_full_term_interest :=
      full_term_payment * ((cfg.mortgage_term_years : ℚ) * 12) - cfg.initial_mortgage
  { months_to_mortgage_free := final.monthsToFree
    total_interest_paid := final.totalInterest
    interest_saved := total_full_term_interest - final.totalInterest
    final_savings := final.savings
    total_overpayments := final.cumOverpayments
    records := final.records
    events := final.events }

/-- Whether an event was produced by the annual-allowance rule. -/
def OverTag.isAnnual : OverTag → Bool
  | .annual _ => true
  | _ => false

/-- Sum of the amounts of a list of overpayment events. -/
def sumAmounts (l : List OverpaymentEvent) : ℚ :=
  (l.map (fun e => e.amount)).sum

/-- The annual-allowance events logged during calendar year y
(months 12y .. 12y+11). -/
def annualEventsInYear (res : SimResult) (y : ℕ) : List OverpaymentEvent :=
  res.events.filter (fun e => e.tag.isAnnual && e.month / 12 == y)

/-- The schedule derived from a configuration. -/
def schedOf (cfg : SimConfig) : List (ℕ × ℕ × ℚ) :=
  buildSchedule cfg.fixed_periods 0

theorem loopIter_zero (cfg : SimConfig) : loopIter cfg 0 = initState cfg := rfl

theorem loopIter_succ (cfg : SimConfig) (m : ℕ) :
    loopIter cfg (m + 1) = simStep cfg (schedOf cfg) (loopIter cfg m) m := by
  simp [loopIter, List.range_succ, schedOf]

/-- Month-indexed invariance principle for the simulation loop. -/
theorem loopIter_invariant (cfg : SimConfig) (P : ℕ → SimState → Prop)
    (h0 : P 0 (initState cfg))
    (hs : ∀ n st, P n st → P (n + 1) (simStep cfg (schedOf cfg) st n)) :
    ∀ n, P n (loopIter cfg n) := by
  intro n
  induction n with
  | zero => exact h0
  | succ n ih => rw [loopIter_succ]; exact hs n _ ih

/-- At zero rate, the annuity payment degenerates to principal over term. -/
theorem pmt_zero (n : ℤ) (p : ℚ) : pmt 0 n p = p / (n : ℚ) := by
  simp [pmt]

/- ### Concrete configurations used as counterexamples and witnesses -/

/-- A small zero-rate mortgage: 1200 over 12 months (payment 100), one
12-month fixed period, spare savings that trigger a rule-3 overpayment
of 120 at month 0. -/
def cfgA : SimConfig :=
  { initial_mortgage := 1200
    mortgage_term_years := 1
    fixed_periods := [(12, 0)]
    mortgage_rate_after_fixed := 0
    monthly_income := 3000
    monthly_expenses := 1000
    income_growth_rate := 0
    expense_growth_rate := 0
    initial_savings := 10000
    savings_rate := 0
    savings_tax_rate := 0
    emergency_buffer := 5000
    min_overpayment_threshold := 1000
    total_years_to_simulate := 1 }

/-- A zero-rate mortgage with two fixed periods, the first ending
mid-year (month 18), so the end-of-fixed-period sweep resets the
annual-allowance flag inside calendar year 1. -/
def cfgB : SimConfig :=
  { initial_mortgage := 120000
    mortgage_term_years := 10
    fixed_periods := [(18, 0), (42, 0)]
    mortgage_rate_after_fixed := 0
    monthly_income := 3000
    monthly_expenses := 1000
    income_growth_rate := 0
    expense_growth_rate := 0
    initial_savings := 10000
    savings_rate := 0
    savings_tax_rate := 0
    emergency_buffer := 5000
    min_overpayment_threshold := 1000
    total_years_to_simulate := 2 }

/-- An invalid configuration: a negative fixed rate (-600% annual, i.e.
-50% monthly), which the spec's error taxonomy says must be rejected. -/
def cfgC : SimConfig :=
  { initial_mortgage := 100
    mortgage_term_years := 1
    fixed_periods := [(12, -6)]
    mortgage_rate_after_fixed := 0
    monthly_income := 3000
    monthly_expenses := 1000
    income_growth_rate := 0
    expense_growth_rate := 0
    initial_savings := 0
    savings_rate := 0
    savings_tax_rate := 0
    emergency_buffer := 1000000
    min_overpayment_threshold := 1000
    total_years_to_simulate := 1 }

/- ### Evaluated loop states for the concrete configurations -/

set_option maxHeartbeats 1000000 in
/-- The simulation state of cfgA after month 0. -/
theorem stateA_1 : loopIter cfgA 1 =
    { balance := 980, payment := 100, savings := 11780, income := 3000, expenses := 1000, totalInterest := 0, monthsToFree := none, yearlyLimit := 120, paidOff := false, madeThisYear := true, currentYear := 0, cumOverpayments := 120, records := [{ balance := 980, savings := 11780, cumOverpayments := 120, yearsVal := 0, income := 3000, expenses := 1000, overpayment := 120, availableCash := 1900, mortgagePayment := 100 }], events := [{ month := 0, amount := 120, tag := Mortgage.OverTag.annual 1 }] } := by
  rw [show (1:ℕ) = 0+1 from rfl, loopIter_succ, loopIter_zero]
  norm_num [simStep, monthBody, yearReset, applyGrowth, applyRule1, findEndIdx, rule1Sweep, rule1Update, rule2Sweep, rule3Annual, applySavings, rateLookup, buildSchedule, schedOf, initState, initialPayment, pmt, cfgA]

set_option maxHeartbeats 1000000 in
/-- The simulation state of cfgA after month 1. -/
theorem stateA_2 : loopIter cfgA 2 =
    { balance := 880, payment := 100, savings := 13680, income := 3000, expenses := 1000, totalInterest := 0, monthsToFree := none, yearlyLimit := 120, paidOff := false, madeThisYear := true, currentYear := 0, cumOverpayments := 120, records := [{ balance := 980, savings := 11780, cumOverpayments := 120, yearsVal := 0, income := 3000, expenses := 1000, overpayment := 120, availableCash := 1900, mortgagePayment := 100 }, { balance := 880, savings := 13680, cumOverpayments := 120, yearsVal := (1 : Rat)/12, income := 3000, expenses := 1000, overpayment := 0, availableCash := 1900, mortgagePayment := 100 }], events := [{ month := 0, amount := 120, tag := Mortgage.OverTag.annual 1 }] } := by
  rw [show (2:ℕ) = 1+1 from rfl, loopIter_succ, stateA_1]
  norm_num [simStep, monthBody, yearReset, applyGrowth, applyRule1, findEndIdx, rule1Sweep, rule1Update, rule2Sweep, rule3Annual, applySavings, rateLookup, buildSchedule, schedOf, initState, initialPayment, pmt, cfgA]

set_option maxHeartbeats 1000000 in
/-- The simulation state of cfgA after month 2. -/
theorem stateA_3 : loopIter cfgA 3 =
    { balance := 780, payment := 100, savings := 15580, income := 3000, expenses := 1000, totalInterest := 0, monthsToFree := none, yearlyLimit := 120, paidOff := false, madeThisYear := true, currentYear := 0, cumOverpayments := 120, records := [{ balance := 980, savings := 11780, cumOverpayments := 120, yearsVal := 0, income := 3000, expenses := 1000, overpayment := 120, availableCash := 1900, mortgagePayment := 100 }, { balance := 880, savings := 13680, cumOverpayments := 120, yearsVal := (1 : Rat)/12, income := 3000, expenses := 1000, overpayment := 0, availableCash := 1900, mortgagePayment := 100 }, { balance := 780, savings := 15580, cumOverpayments := 120, yearsVal := (1 : Rat)/6, income := 3000, expenses := 1000, overpayment := 0, availableCash := 1900, mortgagePayment := 100 }], events := [{ month := 0, amount := 120, tag := Mortgage.OverTag.annual 1 }] } := by
  rw [show (3:ℕ) = 2+1 from rfl, loopIter_succ, stateA_2]
  norm_num [simStep, monthBody, yearReset, applyGrowth, applyRule1, findEndIdx, rule1Sweep, rule1Update, rule2Sweep, rule3Annual, applySavings, rateLookup, buildSchedule, schedOf, initState, initialPayment, pmt, cfgA]

set_option maxHeartbeats 1000000 in
/-- The simulation state of cfgA after month 3. -/
theorem stateA_4 : loopIter cfgA 4 =
    { balance := 680, payment := 100, savings := 17480, income := 3000, expenses := 1000, totalInterest := 0, monthsToFree := none, yearlyLimit := 120, paidOff := false, madeThisYear := true, currentYear := 0, cumOverpayments := 120, records := [{ balance := 980, savings := 11780, cumOverpayments := 120, yearsVal := 0, income := 3000, expenses := 1000, overpayment := 120, availableCash := 1900, mortgagePayment := 100 }, { balance := 880, savings := 13680, cumOverpayments := 120, yearsVal := (1 : Rat)/12, income := 3000, expenses := 1000, overpayment := 0, availableCash := 1900, mortgagePayment := 100 }, { balance := 780, savings := 15580, cumOverpayments := 120, yearsVal := (1 : Rat)/6, income := 3000, expenses := 1000, overpayment := 0, availableCash := 1900, mortgagePayment := 100 }, { balance := 680, savings := 17480, cumOverpayments := 120, yearsVal := (1 : Rat)/4, income := 3000, expenses := 1000, overpayment := 0, availableCash := 1900, mortgagePayment := 100 }], events := [{ month := 0, amount := 120, tag := Mortgage.OverTag.annual 1 }] } := by
  rw [show (4:ℕ) = 3+1 from rfl, loopIter_succ, stateA_3]
  norm_num [simStep, monthBody, yearReset, applyGrowth, applyRule1, findEndIdx, rule1Sweep, rule1Update, rule2Sweep, rule3Annual, applySavings, rateLookup, buildSchedule, schedOf, initState, initialPayment, pmt, cfgA]

set_option maxHeartbeats 1000000 in
/-- The simulation state of cfgA after month 4. -/
theorem stateA_5 : loopIter cfgA 5 =
    { balance := 580, payment := 100, savings := 19380, income := 3000, expenses := 1000, totalInterest := 0, monthsToFree := none, yearlyLimit := 120, paidOff := false, madeThisYear := true, currentYear := 0, cumOverpayments := 120, records := [{ balance := 980, savings := 11780, cumOverpayments := 120, yearsVal := 0, income := 3000, expenses := 1000, overpayment := 120, availableCash := 1900, mortgagePayment := 100 }, { balance := 880, savings := 13680, cumOverpayments := 120, yearsVal := (1 : Rat)/12, income := 3000, expenses := 1000, overpayment := 0, availableCash := 1900, mortgagePayment := 100 }, { balance := 780, savings := 15580, cumOverpayments := 120, yearsVal := (1 : Rat)/6, income := 3000, expenses := 1000, overpayment := 0, availableCash := 1900, mortgagePayment := 100 }, { balance := 680, savings := 17480, cumOverpayments := 120, yearsVal := (1 : Rat)/4, income := 3000, expenses := 1000, overpayment := 0, availableCash := 1900, mortgagePayment := 100 }, { balance := 580, savings := 19380, cumOverpayments := 120, yearsVal := (1 : Rat)/3, income := 3000, expenses := 1000, overpayment := 0, availableCash := 1900, mortgagePayment := 100 }], events := [{ month := 0, amount := 120, tag := Mortgage.OverTag.annual 1 }] } := by
  rw [show (5:ℕ) = 4+1 from rfl, loopIter_succ, stateA_4]
  norm_num [simStep, monthBody, yearReset, applyGrowth, applyRule1, findEndIdx, rule1Sweep, rule1Update, rule2Sweep, rule3Annual, applySavings, rateLookup, buildSchedule, schedOf, initState, initialPayment, pmt, cfgA]

set_option maxHeartbeats 1000000 in
/-- The simulation state of cfgA after month 5. -/
theorem stateA_6 : loopIter cfgA 6 =
    { balance := 480, payment := 100, savings := 21280, income := 3000, expenses := 1000, totalInterest := 0, monthsToFree := none, yearlyLimit := 120, paidOff := false, madeThisYear := true, currentYear := 0, cumOverpayments := 120, records := [{ balance := 980, savings := 11780, cumOverpayments := 120, yearsVal := 0, income := 3000, expenses := 1000, overpayment := 120, availableCash := 1900, mortgagePayment := 100 }, { balance := 880, savings := 13680, cumOverpayments := 120, yearsVal := (1 : Rat)/12, income := 3000, expenses := 1000, overpayment := 0, availableCash := 1900, mortgagePayment := 100 }, { balance := 780, savings := 15580, cumOverpayments := 120, yearsVal := (1 : Rat)/6, income := 3000, expenses := 1000, overpayment := 0, availableCash := 1900, mortgagePayment := 100 }, { balance := 680, savings := 17480, cumOverpayments := 120, yearsVal := (1 : Rat)/4, income := 3000, expenses := 1000, overpayment := 0, availableCash := 1900, mortgagePayment := 100 }, { balance := 580, savings := 19380, cumOverpayments := 120, yearsVal := (1 : Rat)/3, income := 3000, expenses := 1000, overpayment := 0, availableCash := 1900, mortgagePayment := 100 }, { balance := 480, savings := 21280, cumOverpayments := 120, yearsVal := (5 : Rat)/12, income := 3000, expenses := 1000, overpayment := 0, availableCash := 1900, mortgagePayment := 100 }], events := [{ month := 0, amount := 120, tag := Mortgage.OverTag.annual 1 }] } := by
  rw [show (6:ℕ) = 5+1 from rfl, loopIter_succ, stateA_5]
  norm_num [simStep, monthBody, yearReset, applyGrowth, applyRule1, findEndIdx, rule1Sweep, rule1Update, rule2Sweep, rule3Annual, applySavings, rateLookup, buildSchedule, schedOf, initState, initialPayment, pmt, cfgA]

set_option maxHeartbeats 1000000 in
/-- The simulation state of cfgA after month 6. -/
theorem stateA_7 : loopIter cfgA 7 =
    { balance := 380, payment := 100, savings := 23180, income := 3000, expenses := 1000, totalInterest := 0, monthsToFree := none, yearlyLimit := 120, paidOff := false, madeThisYear := true, currentYear := 0, cumOverpayments := 120, records := [{ balance := 980, savings := 11780, cumOverpayments := 120, yearsVal := 0, income := 3000, expenses := 1000, overpayment := 120, availableCash := 1900, mortgagePayment := 100 }, { balance := 880, savings := 13680, cumOverpayments := 120, yearsVal := (1 : Rat)/12, income := 3000, expenses := 1000, overpayment := 0, availableCash := 1900, mortgagePayment := 100 }, { balance := 780, savings := 15580, cumOverpayments := 120, yearsVal := (1 : Rat)/6, income := 3000, expenses := 1000, overpayment := 0, availableCash := 1900, mortgagePayment := 100 }, { balance := 680, savings := 17480, cumOverpayments := 120, yearsVal := (1 : Rat)/4, income := 3000, expenses := 1000, overpayment := 0, availableCash := 1900, mortgagePayment := 100 }, { balance := 580, savings := 19380, cumOverpayments := 120, yearsVal := (1 : Rat)/3, income := 3000, expenses := 1000, overpayment := 0, availableCash := 1900, mortgagePayment := 100 }, { balance := 480, savings := 21280, cumOverpayments := 120, yearsVal := (5 : Rat)/12, income := 3000, expenses := 1000, overpayment := 0, availableCash := 1900, mortgagePayment := 100 }, { balance := 380, savings := 23180, cumOverpayments := 120, yearsVal := (1 : Rat)/2, income := 3000, expenses := 1000, overpayment := 0, availableCash := 1900, mortgagePayment := 100 }], events := [{ month := 0, amount := 120, tag := Mortgage.OverTag.annual 1 }] } := by
  rw [show (7:ℕ) = 6+1 from rfl, loopIter_succ, stateA_6]
  norm_num [simStep, monthBody, yearReset, applyGrowth, applyRule1, findEndIdx, rule1Sweep, rule1Update, rule2Sweep, rule3Annual, applySavings, rateLookup, buildSchedule, schedOf, initState, initialPayment, pmt, cfgA]

set_option maxHeartbeats 1000000 in
/-- The simulation state of cfgA after month 7. -/
theorem stateA_8 : loopIter cfgA 8 =
    { balance := 280, payment := 100, savings := 25080, income := 3000, expenses := 1000, totalInterest := 0, monthsToFree := none, yearlyLimit := 120, paidOff := false, madeThisYear := true, currentYear := 0, cumOverpayments := 120, records := [{ balance := 980, savings := 11780, cumOverpayments := 120, yearsVal := 0, income := 3000, expenses := 1000, overpayment := 120, availableCash := 1900, mortgagePayment := 100 }, { balance := 880, savings := 13680, cumOverpayments := 120, yearsVal := (1 : Rat)/12, income := 3000, expenses := 1000, overpayment := 0, availableCash := 1900, mortgagePayment := 100 }, { balance := 780, savings := 15580, cumOverpayments := 120, yearsVal := (1 : Rat)/6, income := 3000, expenses := 1000, overpayment := 0, availableCash := 1900, mortgagePayment := 100 }, { balance := 680, savings := 17480, cumOverpayments := 120, yearsVal := (1 : Rat)/4, income := 3000, expenses := 1000, overpayment := 0, availableCash := 1900, mortgagePayment := 100 }, { balance := 580, savings := 19380, cumOverpayments := 120, yearsVal := (1 : Rat)/3, income := 3000, expenses := 1000, overpayment := 0, availableCash := 1900, mortgagePayment := 100 }, { balance := 480, savings := 21280, cumOverpayments := 120, yearsVal := (5 : Rat)/12, income := 3000, expenses := 1000, overpayment := 0, availableCash := 1900, mortgagePayment := 100 }, { balance := 380, savings := 23180, cumOverpayments := 120, yearsVal := (1 : Rat)/2, income := 3000, expenses := 1000, overpayment := 0, availableCash := 1900, mortgagePayment := 100 }, { balance := 280, savings := 25080, cumOverpayments := 120, yearsVal := (7 : Rat)/12, income := 3000, expenses := 1000, overpayment := 0, availableCash := 1900, mortgagePayment := 100 }], events := [{ month := 0, amount := 120, tag := Mortgage.OverTag.annual 1 }] } := by
  rw [show (8:ℕ) = 7+1 from rfl, loopIter_succ, stateA_7]
  norm_num [simStep, monthBody, yearReset, applyGrowth, applyRule1, findEndIdx, rule1Sweep, rule1Update, rule2Sweep, rule3Annual, applySavings, rateLookup, buildSchedule, schedOf, initState, initialPayment, pmt, cfgA]

set_option maxHeartbeats 1000000 in
/-- The simulation state of cfgA after month 8. -/
theorem stateA_9 : loopIter cfgA 9 =
    { balance := 180, payment := 100, savings := 26980, income := 3000, expenses := 1000, totalInterest := 0, monthsToFree := none, yearlyLimit := 120, paidOff := false, madeThisYear := true, currentYear := 0, cumOverpayments := 120, records := [{ balance := 980, savings := 11780, cumOverpayments := 120, yearsVal := 0, income := 3000, expenses := 1000, overpayment := 120, availableCash := 1900, mortgagePayment := 100 }, { balance := 880, savings := 13680, cumOverpayments := 120, yearsVal := (1 : Rat)/12, income := 3000, expenses := 1000, overpayment := 0, availableCash := 1900, mortgagePayment := 100 }, { balance := 780, savings := 15580, cumOverpayments := 120, yearsVal := (1 : Rat)/6, income := 3000, expenses := 1000, overpayment := 0, availableCash := 1900, mortgagePayment := 100 }, { balance := 680, savings := 17480, cumOverpayments := 120, yearsVal := (1 : Rat)/4, income := 3000, expenses := 1000, overpayment := 0, availableCash := 1900, mortgagePayment := 100 }, { balance := 580, savings := 19380, cumOverpayments := 120, yearsVal := (1 : Rat)/3, income := 3000, expenses := 1000, overpayment := 0, availableCash := 1900, mortgagePayment := 100 }, { balance := 480, savings := 21280, cumOverpayments := 120, yearsVal := (5 : Rat)/12, income := 3000, expenses := 1000, overpayment := 0, availableCash := 1900, mortgagePayment := 100 }, { balance := 380, savings := 23180, cumOverpayments := 120, yearsVal := (1 : Rat)/2, income := 3000, expenses := 1000, overpayment := 0, availableCash := 1900, mortgagePayment := 100 }, { balance := 280, savings := 25080, cumOverpayments := 120, yearsVal := (7 : Rat)/12, income := 3000, expenses := 1000, overpayment := 0, availableCash := 1900, mortgagePayment := 100 }, { balance := 180, savings := 26980, cumOverpayments := 120, yearsVal := (2 : Rat)/3, income := 3000, expenses := 1000, overpayment := 0, availableCash := 1900, mortgagePayment := 100 }], events := [{ month := 0, amount := 120, tag := Mortgage.OverTag.annual 1 }] } := by
  rw [show (9:ℕ) = 8+1 from rfl, loopIter_succ, stateA_8]
  norm_num [simStep, monthBody, yearReset, applyGrowth, applyRule1, findEndIdx, rule1Sweep, rule1Update, rule2Sweep, rule3Annual, applySavings, rateLookup, buildSchedule, schedOf, initState, initialPayment, pmt, cfgA]

set_option maxHeartbeats 1000000 in
/-- The simulation state of cfgA after month 9. -/
theorem stateA_10 : loopIter cfgA 10 =
    { balance := 80, payment := 100, savings := 28880, income := 3000, expenses := 1000, totalInterest := 0, monthsToFree := none, yearlyLimit := 120, paidOff := false, madeThisYear := true, currentYear := 0, cumOverpayments := 120, records := [{ balance := 980, savings := 11780, cumOverpayments := 120, yearsVal := 0, income := 3000, expenses := 1000, overpayment := 120, availableCash := 1900, mortgagePayment := 100 }, { balance := 880, savings := 13680, cumOverpayments := 120, yearsVal := (1 : Rat)/12, income := 3000, expenses := 1000, overpayment := 0, availableCash := 1900, mortgagePayment := 100 }, { balance := 780, savings := 15580, cumOverpayments := 120, yearsVal := (1 : Rat)/6, income := 3000, expenses := 1000, overpayment := 0, availableCash := 1900, mortgagePayment := 100 }, { balance := 680, savings := 17480, cumOverpayments := 120, yearsVal := (1 : Rat)/4, income := 3000, expenses := 1000, overpayment := 0, availableCash := 1900, mortgagePayment := 100 }, { balance := 580, savings := 19380, cumOverpayments := 120, yearsVal := (1 : Rat)/3, income := 3000, expenses := 1000, overpayment := 0, availableCash := 1900, mortgagePayment := 100 }, { balance := 480, savings := 21280, cumOverpayments := 120, yearsVal := (5 : Rat)/12, income := 3000, expenses := 1000, overpayment := 0, availableCash := 1900, mortgagePayment := 100 }, { balance := 380, savings := 23180, cumOverpayments := 120, yearsVal := (1 : Rat)/2, income := 3000, expenses := 1000, overpayment := 0, availableCash := 1900, mortgagePayment := 100 }, { balance := 280, savings := 25080, cumOverpayments := 120, yearsVal := (7 : Rat)/12, income := 3000, expenses := 1000, overpayment := 0, availableCash := 1900, mortgagePayment := 100 }, { balance := 180, savings := 26980, cumOverpayments := 120, yearsVal := (2 : Rat)/3, income := 3000, expenses := 1000, overpayment := 0, availableCash := 1900, mortgagePayment := 100 }, { balance := 80, savings := 28880, cumOverpayments := 120, yearsVal := (3 : Rat)/4, income := 3000, expenses := 1000, overpayment := 0, availableCash := 1900, mortgagePayment := 100 }], events := [{ month := 0, amount := 120, tag := Mortgage.OverTag.annual 1 }] } := by
  rw [show (10:ℕ) = 9+1 from rfl, loopIter_succ, stateA_9]
  norm_num [simStep, monthBody, yearReset, applyGrowth, applyRule1, findEndIdx, rule1Sweep, rule1Update, rule2Sweep, rule3Annual, applySavings, rateLookup, buildSchedule, schedOf, initState, initialPayment, pmt, cfgA]

set_option maxHeartbeats 1000000 in
/-- The simulation state of cfgA after month 10. -/
theorem stateA_11 : loopIter cfgA 11 =
    { balance := -20, payment := 100, savings := 30780, income := 3000, expenses := 1000, totalInterest := 0, monthsToFree := none, yearlyLimit := 120, paidOff := false, madeThisYear := true, currentYear := 0, cumOverpayments := 120, records := [{ balance := 980, savings := 11780, cumOverpayments := 120, yearsVal := 0, income := 3000, expenses := 1000, overpayment := 120, availableCash := 1900, mortgagePayment := 100 }, { balance := 880, savings := 13680, cumOverpayments := 120, yearsVal := (1 : Rat)/12, income := 3000, expenses := 1000, overpayment := 0, availableCash := 1900, mortgagePayment := 100 }, { balance := 780, savings := 15580, cumOverpayments := 120, yearsVal := (1 : Rat)/6, income := 3000, expenses := 1000, overpayment := 0, availableCash := 1900, mortgagePayment := 100 }, { balance := 680, savings := 17480, cumOverpayments := 120, yearsVal := (1 : Rat)/4, income := 3000, expenses := 1000, overpayment := 0, availableCash := 1900, mortgagePayment := 100 }, { balance := 580, savings := 19380, cumOverpayments := 120, yearsVal := (1 : Rat)/3, income := 3000, expenses := 1000, overpayment := 0, availableCash := 1900, mortgagePayment := 100 }, { balance := 480, savings := 21280, cumOverpayments := 120, yearsVal := (5 : Rat)/12, income := 3000, expenses := 1000, overpayment := 0, availableCash := 1900, mortgagePayment := 100 }, { balance := 380, savings := 23180, cumOverpayments := 120, yearsVal := (1 : Rat)/2, income := 3000, expenses := 1000, overpayment := 0, availableCash := 1900, mortgagePayment := 100 }, { balance := 280, savings := 25080, cumOverpayments := 120, yearsVal := (7 : Rat)/12, income := 3000, expenses := 1000, overpayment := 0, availableCash := 1900, mortgagePayment := 100 }, { balance := 180, savings := 26980, cumOverpayments := 120, yearsVal := (2 : Rat)/3, income := 3000, expenses := 1000, overpayment := 0, availableCash := 1900, mortgagePayment := 100 }, { balance := 80, savings := 28880, cumOverpayments := 120, yearsVal := (3 : Rat)/4, income := 3000, expenses := 1000, overpayment := 0, availableCash := 1900, mortgagePayment := 100 }, { balance := -20, savings := 30780, cumOverpayments := 120, yearsVal := (5 : Rat)/6, income := 3000, expenses := 1000, overpayment := 0, availableCash := 1900, mortgagePayment := 100 }], events := [{ month := 0, amount := 120, tag := Mortgage.OverTag.annual 1 }] } := by
  rw [show (11:ℕ) = 10+1 from rfl, loopIter_succ, stateA_10]
  norm_num [simStep, monthBody, yearReset, applyGrowth, applyRule1, findEndIdx, rule1Sweep, rule1Update, rule2Sweep, rule3Annual, applySavings, rateLookup, buildSchedule, schedOf, initState, initialPayment, pmt, cfgA]

set_option maxHeartbeats 1000000 in
/-- The simulation state of cfgA after month 11. -/
theorem stateA_12 : loopIter cfgA 12 =
    { balance := 0, payment := 0, savings := 30780, income := 3000, expenses := 1000, totalInterest := 0, monthsToFree := some 11, yearlyLimit := 120, paidOff := true, madeThisYear := true, currentYear := 0, cumOverpayments := 120, records := [{ balance := 980, savings := 11780, cumOverpayments := 120, yearsVal := 0, income := 3000, expenses := 1000, overpayment := 120, availableCash := 1900, mortgagePayment := 100 }, { balance := 880, savings := 13680, cumOverpayments := 120, yearsVal := (1 : Rat)/12, income := 3000, expenses := 1000, overpayment := 0, availableCash := 1900, mortgagePayment := 100 }, { balance := 780, savings := 15580, cumOverpayments := 120, yearsVal := (1 : Rat)/6, income := 3000, expenses := 1000, overpayment := 0, availableCash := 1900, mortgagePayment := 100 }, { balance := 680, savings := 17480, cumOverpayments := 120, yearsVal := (1 : Rat)/4, income := 3000, expenses := 1000, overpayment := 0, availableCash := 1900, mortgagePayment := 100 }, { balance := 580, savings := 19380, cumOverpayments := 120, yearsVal := (1 : Rat)/3, income := 3000, expenses := 1000, overpayment := 0, availableCash := 1900, mortgagePayment := 100 }, { balance := 480, savings := 21280, cumOverpayments := 120, yearsVal := (5 : Rat)/12, income := 3000, expenses := 1000, overpayment := 0, availableCash := 1900, mortgagePayment := 100 }, { balance := 380, savings := 23180, cumOverpayments := 120, yearsVal := (1 : Rat)/2, income := 3000, expenses := 1000, overpayment := 0, availableCash := 1900, mortgagePayment := 100 }, { balance := 280, savings := 25080, cumOverpayments := 120, yearsVal := (7 : Rat)/12, income := 3000, expenses := 1000, overpayment := 0, availableCash := 1900, mortgagePayment := 100 }, { balance := 180, savings := 26980, cumOverpayments := 120, yearsVal := (2 : Rat)/3, income := 3000, expenses := 1000, overpayment := 0, availableCash := 1900, mortgagePayment := 100 }, { balance := 80, savings := 28880, cumOverpayments := 120, yearsVal := (3 : Rat)/4, income := 3000, expenses := 1000, overpayment := 0, availableCash := 1900, mortgagePayment := 100 }, { balance := -20, savings := 30780, cumOverpayments := 120, yearsVal := (5 : Rat)/6, income := 3000, expenses := 1000, overpayment := 0, availableCash := 1900, mortgagePayment := 100 }], events := [{ month := 0, amount := 120, tag := Mortgage.OverTag.annual 1 }] } := by
  rw [show (12:ℕ) = 11+1 from rfl, loopIter_succ, stateA_11]
  norm_num [simStep, monthBody, yearReset, applyGrowth, applyRule1, findEndIdx, rule1Sweep, rule1Update, rule2Sweep, rule3Annual, applySavings, rateLookup, buildSchedule, schedOf, initState, initialPayment, pmt, cfgA]

set_option maxHeartbeats 1000000 in
/-- The simulation state of cfgB after month 0. -/
theorem stateB_1 : loopIter cfgB 1 =
    { balance := 114000, payment := 1000, savings := 6000, income := 3000, expenses := 1000, totalInterest := 0, monthsToFree := none, yearlyLimit := 12000, paidOff := false, madeThisYear := true, currentYear := 0, cumOverpayments := 5000, records := [{ balance := 114000, savings := 6000, cumOverpayments := 5000, yearsVal := 0, income := 3000, expenses := 1000, overpayment := 5000, availableCash := 1000, mortgagePayment := 1000 }], events := [{ month := 0, amount := 5000, tag := Mortgage.OverTag.annual 1 }] } := by
  rw [show (1:ℕ) = 0+1 from rfl, loopIter_succ, loopIter_zero]
  norm_num [simStep, monthBody, yearReset, applyGrowth, applyRule1, findEndIdx, rule1Sweep, rule1Update, rule2Sweep, rule3Annual, applySavings, rateLookup, buildSchedule, schedOf, initState, initialPayment, pmt, cfgB]

set_option maxHeartbeats 1000000 in
/-- The simulation state of cfgB after month 1. -/
theorem stateB_2 : loopIter cfgB 2 =
    { balance := 113000, payment := 1000, savings := 7000, income := 3000, expenses := 1000, totalInterest := 0, monthsToFree := none, yearlyLimit := 12000, paidOff := false, madeThisYear := true, currentYear := 0, cumOverpayments := 5000, records := [{ balance := 114000, savings := 6000, cumOverpayments := 5000, yearsVal := 0, income := 3000, expenses := 1000, overpayment := 5000, availableCash := 1000, mortgagePayment := 1000 }, { balance := 113000, savings := 7000, cumOverpayments := 5000, yearsVal := (1 : Rat)/12, income := 3000, expenses := 1000, overpayment := 0, availableCash := 1000, mortgagePayment := 1000 }], events := [{ month := 0, amount := 5000, tag := Mortgage.OverTag.annual 1 }] } := by
  rw [show (2:ℕ) = 1+1 from rfl, loopIter_succ, stateB_1]
  norm_num [simStep, monthBody, yearReset, applyGrowth, applyRule1, findEndIdx, rule1Sweep, rule1Update, rule2Sweep, rule3Annual, applySavings, rateLookup, buildSchedule, schedOf, initState, initialPayment, pmt, cfgB]

set_option maxHeartbeats 1000000 in
/-- The simulation state of cfgB after month 2. -/
theorem stateB_3 : loopIter cfgB 3 =
    { balance := 112000, payment := 1000, savings := 8000, income := 3000, expenses := 1000, totalInterest := 0, monthsToFree := none, yearlyLimit := 12000, paidOff := false, madeThisYear := true, currentYear := 0, cumOverpayments := 5000, records := [{ balance := 114000, savings := 6000, cumOverpayments := 5000, yearsVal := 0, income := 3000, expenses := 1000, overpayment := 5000, availableCash := 1000, mortgagePayment := 1000 }, { balance := 113000, savings := 7000, cumOverpayments := 5000, yearsVal := (1 : Rat)/12, income := 3000, expenses := 1000, overpayment := 0, availableCash := 1000, mortgagePayment := 1000 }, { balance := 112000, savings := 8000, cumOverpayments := 5000, yearsVal := (1 : Rat)/6, income := 3000, expenses := 1000, overpayment := 0, availableCash := 1000, mortgagePayment := 1000 }], events := [{ month := 0, amount := 5000, tag := Mortgage.OverTag.annual 1 }] } := by
  rw [show (3:ℕ) = 2+1 from rfl, loopIter_succ, stateB_2]
  norm_num [simStep, monthBody, yearReset, applyGrowth, applyRule1, findEndIdx, rule1Sweep, rule1Update, rule2Sweep, rule3Annual, applySavings, rateLookup, buildSchedule, schedOf, initState, initialPayment, pmt, cfgB]

set_option maxHeartbeats 1000000 in
/-- The simulation state of cfgB after month 3. -/
theorem stateB_4 : loopIter cfgB 4 =
    { balance := 111000, payment := 1000, savings := 9000, income := 3000, expenses := 1000, totalInterest := 0, monthsToFree := none, yearlyLimit := 12000, paidOff := false, madeThisYear := true, currentYear := 0, cumOverpayments := 5000, records := [{ balance := 114000, savings := 6000, cumOverpayments := 5000, yearsVal := 0, income := 3000, expenses := 1000, overpayment := 5000, availableCash := 1000, mortgagePayment := 1000 }, { balance := 113000, savings := 7000, cumOverpayments := 5000, yearsVal := (1 : Rat)/12, income := 3000, expenses := 1000, overpayment := 0, availableCash := 1000, mortgagePayment := 1000 }, { balance := 112000, savings := 8000, cumOverpayments := 5000, yearsVal := (1 : Rat)/6, income := 3000, expenses := 1000, overpayment := 0, availableCash := 1000, mortgagePayment := 1000 }, { balance := 111000, savings := 9000, cumOverpayments := 5000, yearsVal := (1 : Rat)/4, income := 3000, expenses := 1000, overpayment := 0, availableCash := 1000, mortgagePayment := 1000 }], events := [{ month := 0, amount := 5000, tag := Mortgage.OverTag.annual 1 }] } := by
  rw [show (4:ℕ) = 3+1 from rfl, loopIter_succ, stateB_3]
  norm_num [simStep, monthBody, yearReset, applyGrowth, applyRule1, findEndIdx, rule1Sweep, rule1Update, rule2Sweep, rule3Annual, applySavings, rateLookup, buildSchedule, schedOf, initState, initialPayment, pmt, cfgB]

set_option maxHeartbeats 1000000 in
/-- The simulation state of cfgB after month 4. -/
theorem stateB_5 : loopIter cfgB 5 =
    { balance := 110000, payment := 1000, savings := 10000, income := 3000, expenses := 1000, totalInterest := 0, monthsToFree := none, yearlyLimit := 12000, paidOff := false, madeThisYear := true, currentYear := 0, cumOverpayments := 5000, records := [{ balance := 114000, savings := 6000, cumOverpayments := 5000, yearsVal := 0, income := 3000, expenses := 1000, overpayment := 5000, availableCash := 1000, mortgagePayment := 1000 }, { balance := 113000, savings := 7000, cumOverpayments := 5000, yearsVal := (1 : Rat)/12, income := 3000, expenses := 1000, overpayment := 0, availableCash := 1000, mortgagePayment := 1000 }, { balance := 112000, savings := 8000, cumOverpayments := 5000, yearsVal := (1 : Rat)/6, income := 3000, expenses := 1000, overpayment := 0, availableCash := 1000, mortgagePayment := 1000 }, { balance := 111000, savings := 9000, cumOverpayments := 5000, yearsVal := (1 : Rat)/4, income := 3000, expenses := 1000, overpayment := 0, availableCash := 1000, mortgagePayment := 1000 }, { balance := 110000, savings := 10000, cumOverpayments := 5000, yearsVal := (1 : Rat)/3, income := 3000, expenses := 1000, overpayment := 0, availableCash := 1000, mortgagePayment := 1000 }], events := [{ month := 0, amount := 5000, tag := Mortgage.OverTag.annual 1 }] } := by
  rw [show (5:ℕ) = 4+1 from rfl, loopIter_succ, stateB_4]
  norm_num [simStep, monthBody, yearReset, applyGrowth, applyRule1, findEndIdx, rule1Sweep, rule1Update, rule2Sweep, rule3Annual, applySavings, rateLookup, buildSchedule, schedOf, initState, initialPayment, pmt, cfgB]

set_option maxHeartbeats 1000000 in
/-- The simulation state of cfgB after month 5. -/
theorem stateB_6 : loopIter cfgB 6 =
    { balance := 109000, payment := 1000, savings := 11000, income := 3000, expenses := 1000, totalInterest := 0, monthsToFree := none, yearlyLimit := 12000, paidOff := false, madeThisYear := true, currentYear := 0, cumOverpayments := 5000, records := [{ balance := 114000, savings := 6000, cumOverpayments := 5000, yearsVal := 0, income := 3000, expenses := 1000, overpayment := 5000, availableCash := 1000, mortgagePayment := 1000 }, { balance := 113000, savings := 7000, cumOverpayments := 5000, yearsVal := (1 : Rat)/12, income := 3000, expenses := 1000, overpayment := 0, availableCash := 1000, mortgagePayment := 1000 }, { balance := 112000, savings := 8000, cumOverpayments := 5000, yearsVal := (1 : Rat)/6, income := 3000, expenses := 1000, overpayment := 0, availableCash := 1000, mortgagePayment := 1000 }, { balance := 111000, savings := 9000, cumOverpayments := 5000, yearsVal := (1 : Rat)/4, income := 3000, expenses := 1000, overpayment := 0, availableCash := 1000, mortgagePayment := 1000 }, { balance := 110000, savings := 10000, cumOverpayments := 5000, yearsVal := (1 : Rat)/3, income := 3000, expenses := 1000, overpayment := 0, availableCash := 1000, mortgagePayment := 1000 }, { balance := 109000, savings := 11000, cumOverpayments := 5000, yearsVal := (5 : Rat)/12, income := 3000, expenses := 1000, overpayment := 0, availableCash := 1000, mortgagePayment := 1000 }], events := [{ month := 0, amount := 5000, tag := Mortgage.OverTag.annual 1 }] } := by
  rw [show (6:ℕ) = 5+1 from rfl, loopIter_succ, stateB_5]
  norm_num [simStep, monthBody, yearReset, applyGrowth, applyRule1, findEndIdx, rule1Sweep, rule1Update, rule2Sweep, rule3Annual, applySavings, rateLookup, buildSchedule, schedOf, initState, initialPayment, pmt, cfgB]

set_option maxHeartbeats 1000000 in
/-- The simulation state of cfgB after month 6. -/
theorem stateB_7 : loopIter cfgB 7 =
    { balance := 108000, payment := 1000, savings := 12000, income := 3000, expenses := 1000, totalInterest := 0, monthsToFree := none, yearlyLimit := 12000, paidOff := false, madeThisYear := true, currentYear := 0, cumOverpayments := 5000, records := [{ balance := 114000, savings := 6000, cumOverpayments := 5000, yearsVal := 0, income := 3000, expenses := 1000, overpayment := 5000, availableCash := 1000, mortgagePayment := 1000 }, { balance := 113000, savings := 7000, cumOverpayments := 5000, yearsVal := (1 : Rat)/12, income := 3000, expenses := 1000, overpayment := 0, availableCash := 1000, mortgagePayment := 1000 }, { balance := 112000, savings := 8000, cumOverpayments := 5000, yearsVal := (1 : Rat)/6, income := 3000, expenses := 1000, overpayment := 0, availableCash := 1000, mortgagePayment := 1000 }, { balance := 111000, savings := 9000, cumOverpayments := 5000, yearsVal := (1 : Rat)/4, income := 3000, expenses := 1000, overpayment := 0, availableCash := 1000, mortgagePayment := 1000 }, { balance := 110000, savings := 10000, cumOverpayments := 5000, yearsVal := (1 : Rat)/3, income := 3000, expenses := 1000, overpayment := 0, availableCash := 1000, mortgagePayment := 1000 }, { balance := 109000, savings := 11000, cumOverpayments := 5000, yearsVal := (5 : Rat)/12, income := 3000, expenses := 1000, overpayment := 0, availableCash := 1000, mortgagePayment := 1000 }, { balance := 108000, savings := 12000, cumOverpayments := 5000, yearsVal := (1 : Rat)/2, income := 3000, expenses := 1000, overpayment := 0, availableCash := 1000, mortgagePayment := 1000 }], events := [{ month := 0, amount := 5000, tag := Mortgage.OverTag.annual 1 }] } := by
  rw [show (7:ℕ) = 6+1 from rfl, loopIter_succ, stateB_6]
  norm_num [simStep, monthBody, yearReset, applyGrowth, applyRule1, findEndIdx, rule1Sweep, rule1Update, rule2Sweep, rule3Annual, applySavings, rateLookup, buildSchedule, schedOf, initState, initialPayment, pmt, cfgB]

set_option maxHeartbeats 1000000 in
/-- The simulation state of cfgB after month 7. -/
theorem stateB_8 : loopIter cfgB 8 =
    { balance := 107000, payment := 1000, savings := 13000, income := 3000, expenses := 1000, totalInterest := 0, monthsToFree := none, yearlyLimit := 12000, paidOff := false, madeThisYear := true, currentYear := 0, cumOverpayments := 5000, records := [{ balance := 114000, savings := 6000, cumOverpayments := 5000, yearsVal := 0, income := 3000, expenses := 1000, overpayment := 5000, availableCash := 1000, mortgagePayment := 1000 }, { balance := 113000, savings := 7000, cumOverpayments := 5000, yearsVal := (1 : Rat)/12, income := 3000, expenses := 1000, overpayment := 0, availableCash := 1000, mortgagePayment := 1000 }, { balance := 112000, savings := 8000, cumOverpayments := 5000, yearsVal := (1 : Rat)/6, income := 3000, expenses := 1000, overpayment := 0, availableCash := 1000, mortgagePayment := 1000 }, { balance := 111000, savings := 9000, cumOverpayments := 5000, yearsVal := (1 : Rat)/4, income := 3000, expenses := 1000, overpayment := 0, availableCash := 1000, mortgagePayment := 1000 }, { balance := 110000, savings := 10000, cumOverpayments := 5000, yearsVal := (1 : Rat)/3, income := 3000, expenses := 1000, overpayment := 0, availableCash := 1000, mortgagePayment := 1000 }, { balance := 109000, savings := 11000, cumOverpayments := 5000, yearsVal := (5 : Rat)/12, income := 3000, expenses := 1000, overpayment := 0, availableCash := 1000, mortgagePayment := 1000 }, { balance := 108000, savings := 12000, cumOverpayments := 5000, yearsVal := (1 : Rat)/2, income := 3000, expenses := 1000, overpayment := 0, availableCash := 1000, mortgagePayment := 1000 }, { balance := 107000, savings := 13000, cumOverpayments := 5000, yearsVal := (7 : Rat)/12, income := 3000, expenses := 1000, overpayment := 0, availableCash := 1000, mortgagePayment := 1000 }], events := [{ month := 0, amount := 5000, tag := Mortgage.OverTag.annual 1 }] } := by
  rw [show (8:ℕ) = 7+1 from rfl, loopIter_succ, stateB_7]
  norm_num [simStep, monthBody, yearReset, applyGrowth, applyRule1, findEndIdx, rule1Sweep, rule1Update, rule2Sweep, rule3Annual, applySavings, rateLookup, buildSchedule, schedOf, initState, initialPayment, pmt, cfgB]

set_option maxHeartbeats 1000000 in
/-- The simulation state of cfgB after month 8. -/
theorem stateB_9 : loopIter cfgB 9 =
    { balance := 106000, payment := 1000, savings := 14000, income := 3000, expenses := 1000, totalInterest := 0, monthsToFree := none, yearlyLimit := 12000, paidOff := false, madeThisYear := true, currentYear := 0, cumOverpayments := 5000, records := [{ balance := 114000, savings := 6000, cumOverpayments := 5000, yearsVal := 0, income := 3000, expenses := 1000, overpayment := 5000, availableCash := 1000, mortgagePayment := 1000 }, { balance := 113000, savings := 7000, cumOverpayments := 5000, yearsVal := (1 : Rat)/12, income := 3000, expenses := 1000, overpayment := 0, availableCash := 1000, mortgagePayment := 1000 }, { balance := 112000, savings := 8000, cumOverpayments := 5000, yearsVal := (1 : Rat)/6, income := 3000, expenses := 1000, overpayment := 0, availableCash := 1000, mortgagePayment := 1000 }, { balance := 111000, savings := 9000, cumOverpayments := 5000, yearsVal := (1 : Rat)/4, income := 3000, expenses := 1000, overpayment := 0, availableCash := 1000, mortgagePayment := 1000 }, { balance := 110000, savings := 10000, cumOverpayments := 5000, yearsVal := (1 : Rat)/3, income := 3000, expenses := 1000, overpayment := 0, availableCash := 1000, mortgagePayment := 1000 }, { balance := 109000, savings := 11000, cumOverpayments := 5000, yearsVal := (5 : Rat)/12, income := 3000, expenses := 1000, overpayment := 0, availableCash := 1000, mortgagePayment := 1000 }, { balance := 108000, savings := 12000, cumOverpayments := 5000, yearsVal := (1 : Rat)/2, income := 3000, expenses := 1000, overpayment := 0, availableCash := 1000, mortgagePayment := 1000 }, { balance := 107000, savings := 13000, cumOverpayments := 5000, yearsVal := (7 : Rat)/12, income := 3000, expenses := 1000, overpayment := 0, availableCash := 1000, mortgagePayment := 1000 }, { balance := 106000, savings := 14000, cumOverpayments := 5000, yearsVal := (2 : Rat)/3, income := 3000, expenses := 1000, overpayment := 0, availableCash := 1000, mortgagePayment := 1000 }], events := [{ month := 0, amount := 5000, tag := Mortgage.OverTag.annual 1 }] } := by
  rw [show (9:ℕ) = 8+1 from rfl, loopIter_succ, stateB_8]
  norm_num [simStep, monthBody, yearReset, applyGrowth, applyRule1, findEndIdx, rule1Sweep, rule1Update, rule2Sweep, rule3Annual, applySavings, rateLookup, buildSchedule, schedOf, initState, initialPayment, pmt, cfgB]

set_option maxHeartbeats 1000000 in
/-- The simulation state of cfgB after month 9. -/
theorem stateB_10 : loopIter cfgB 10 =
    { balance := 105000, payment := 1000, savings := 15000, income := 3000, expenses := 1000, totalInterest := 0, monthsToFree := none, yearlyLimit := 12000, paidOff := false, madeThisYear := true, currentYear := 0, cumOverpayments := 5000, records := [{ balance := 114000, savings := 6000, cumOverpayments := 5000, yearsVal := 0, income := 3000, expenses := 1000, overpayment := 5000, availableCash := 1000, mortgagePayment := 1000 }, { balance := 113000, savings := 7000, cumOverpayments := 5000, yearsVal := (1 : Rat)/12, income := 3000, expenses := 1000, overpayment := 0, availableCash := 1000, mortgagePayment := 1000 }, { balance := 112000, savings := 8000, cumOverpayments := 5000, yearsVal := (1 : Rat)/6, income := 3000, expenses := 1000, overpayment := 0, availableCash := 1000, mortgagePayment := 1000 }, { balance := 111000, savings := 9000, cumOverpayments := 5000, yearsVal := (1 : Rat)/4, income := 3000, expenses := 1000, overpayment := 0, availableCash := 1000, mortgagePayment := 1000 }, { balance := 110000, savings := 10000, cumOverpayments := 5000, yearsVal := (1 : Rat)/3, income := 3000, expenses := 1000, overpayment := 0, availableCash := 1000, mortgagePayment := 1000 }, { balance := 109000, savings := 11000, cumOverpayments := 5000, yearsVal := (5 : Rat)/12, income := 3000, expenses := 1000, overpayment := 0, availableCash := 1000, mortgagePayment := 1000 }, { balance := 108000, savings := 12000, cumOverpayments := 5000, yearsVal := (1 : Rat)/2, income := 3000, expenses := 1000, overpayment := 0, availableCash := 1000, mortgagePayment := 1000 }, { balance := 107000, savings := 13000, cumOverpayments := 5000, yearsVal := (7 : Rat)/12, income := 3000, expenses := 1000, overpayment := 0, availableCash := 1000, mortgagePayment := 1000 }, { balance := 106000, savings := 14000, cumOverpayments := 5000, yearsVal := (2 : Rat)/3, income := 3000, expenses := 1000, overpayment := 0, availableCash := 1000, mortgagePayment := 1000 }, { balance := 105000, savings := 15000, cumOverpayments := 5000, yearsVal := (3 : Rat)/4, income := 3000, expenses := 1000, overpayment := 0, availableCash := 1000, mortgagePayment := 1000 }], events := [{ month := 0, amount := 5000, tag := Mortgage.OverTag.annual 1 }] } := by
  rw [show (10:ℕ) = 9+1 from rfl, loopIter_succ, stateB_9]
  norm_num [simStep, monthBody, yearReset, applyGrowth, applyRule1, findEndIdx, rule1Sweep, rule1Update, rule2Sweep, rule3Annual, applySavings, rateLookup, buildSchedule, schedOf, initState, initialPayment, pmt, cfgB]

set_option maxHeartbeats 1000000 in
/-- The simulation state of cfgB after month 10. -/
theorem stateB_11 : loopIter cfgB 11 =
    { balance := 104000, payment := 1000, savings := 16000, income := 3000, expenses := 1000, totalInterest := 0, monthsToFree := none, yearlyLimit := 12000, paidOff := false, madeThisYear := true, currentYear := 0, cumOverpayments := 5000, records := [{ balance := 114000, savings := 6000, cumOverpayments := 5000, yearsVal := 0, income := 3000, expenses := 1000, overpayment := 5000, availableCash := 1000, mortgagePayment := 1000 }, { balance := 113000, savings := 7000, cumOverpayments := 5000, yearsVal := (1 : Rat)/12, income := 3000, expenses := 1000, overpayment := 0, availableCash := 1000, mortgagePayment := 1000 }, { balance := 112000, savings := 8000, cumOverpayments := 5000, yearsVal := (1 : Rat)/6, income := 3000, expenses := 1000, overpayment := 0, availableCash := 1000, mortgagePayment := 1000 }, { balance := 111000, savings := 9000, cumOverpayments := 5000, yearsVal := (1 : Rat)/4, income := 3000, expenses := 1000, overpayment := 0, availableCash := 1000, mortgagePayment := 1000 }, { balance := 110000, savings := 10000, cumOverpayments := 5000, yearsVal := (1 : Rat)/3, income := 3000, expenses := 1000, overpayment := 0, availableCash := 1000, mortgagePayment := 1000 }, { balance := 109000, savings := 11000, cumOverpayments := 5000, yearsVal := (5 : Rat)/12, income := 3000, expenses := 1000, overpayment := 0, availableCash := 1000, mortgagePayment := 1000 }, { balance := 108000, savings := 12000, cumOverpayments := 5000, yearsVal := (1 : Rat)/2, income := 3000, expenses := 1000, overpayment := 0, availableCash := 1000, mortgagePayment := 1000 }, { balance := 107000, savings := 13000, cumOverpayments := 5000, yearsVal := (7 : Rat)/12, income := 3000, expenses := 1000, overpayment := 0, availableCash := 1000, mortgagePayment := 1000 }, { balance := 106000, savings := 14000, cumOverpayments := 5000, yearsVal := (2 : Rat)/3, income := 3000, expenses := 1000, overpayment := 0, availableCash := 1000, mortgagePayment := 1000 }, { balance := 105000, savings := 15000, cumOverpayments := 5000, yearsVal := (3 : Rat)/4, income := 3000, expenses := 1000, overpayment := 0, availableCash := 1000, mortgagePayment := 1000 }, { balance := 104000, savings := 16000, cumOverpayments := 5000, yearsVal := (5 : Rat)/6, income := 3000, expenses := 1000, overpayment := 0, availableCash := 1000, mortgagePayment := 1000 }], events := [{ month := 0, amount := 5000, tag := Mortgage.OverTag.annual 1 }] } := by
  rw [show (11:ℕ) = 10+1 from rfl, loopIter_succ, stateB_10]
  norm_num [simStep, monthBody, yearReset, applyGrowth, applyRule1, findEndIdx, rule1Sweep, rule1Update, rule2Sweep, rule3Annual, applySavings, rateLookup, buildSchedule, schedOf, initState, initialPayment, pmt, cfgB]

set_option maxHeartbeats 1000000 in
/-- The simulation state of cfgB after month 11. -/
theorem stateB_12 : loopIter cfgB 12 =
    { balance := 103000, payment := 1000, savings := 17000, income := 3000, expenses := 1000, totalInterest := 0, monthsToFree := none, yearlyLimit := 12000, paidOff := false, madeThisYear := true, currentYear := 0, cumOverpayments := 5000, records := [{ balance := 114000, savings := 6000, cumOverpayments := 5000, yearsVal := 0, income := 3000, expenses := 1000, overpayment := 5000, availableCash := 1000, mortgagePayment := 1000 }, { balance := 113000, savings := 7000, cumOverpayments := 5000, yearsVal := (1 : Rat)/12, income := 3000, expenses := 1000, overpayment := 0, availableCash := 1000, mortgagePayment := 1000 }, { balance := 112000, savings := 8000, cumOverpayments := 5000, yearsVal := (1 : Rat)/6, income := 3000, expenses := 1000, overpayment := 0, availableCash := 1000, mortgagePayment := 1000 }, { balance := 111000, savings := 9000, cumOverpayments := 5000, yearsVal := (1 : Rat)/4, income := 3000, expenses := 1000, overpayment := 0, availableCash := 1000, mortgagePayment := 1000 }, { balance := 110000, savings := 10000, cumOverpayments := 5000, yearsVal := (1 : Rat)/3, income := 3000, expenses := 1000, overpayment := 0, availableCash := 1000, mortgagePayment := 1000 }, { balance := 109000, savings := 11000, cumOverpayments := 5000, yearsVal := (5 : Rat)/12, income := 3000, expenses := 1000, overpayment := 0, availableCash := 1000, mortgagePayment := 1000 }, { balance := 108000, savings := 12000, cumOverpayments := 5000, yearsVal := (1 : Rat)/2, income := 3000, expenses := 1000, overpayment := 0, availableCash := 1000, mortgagePayment := 1000 }, { balance := 107000, savings := 13000, cumOverpayments := 5000, yearsVal := (7 : Rat)/12, income := 3000, expenses := 1000, overpayment := 0, availableCash := 1000, mortgagePayment := 1000 }, { balance := 106000, savings := 14000, cumOverpayments := 5000, yearsVal := (2 : Rat)/3, income := 3000, expenses := 1000, overpayment := 0, availableCash := 1000, mortgagePayment := 1000 }, { balance := 105000, savings := 15000, cumOverpayments := 5000, yearsVal := (3 : Rat)/4, income := 3000, expenses := 1000, overpayment := 0, availableCash := 1000, mortgagePayment := 1000 }, { balance := 104000, savings := 16000, cumOverpayments := 5000, yearsVal := (5 : Rat)/6, income := 3000, expenses := 1000, overpayment := 0, availableCash := 1000, mortgagePayment := 1000 }, { balance := 103000, savings := 17000, cumOverpayments := 5000, yearsVal := (11 : Rat)/12, income := 3000, expenses := 1000, overpayment := 0, availableCash := 1000, mortgagePayment := 1000 }], events := [{ month := 0, amount := 5000, tag := Mortgage.OverTag.annual 1 }] } := by
  rw [show (12:ℕ) = 11+1 from rfl, loopIter_succ, stateB_11]
  norm_num [simStep, monthBody, yearReset, applyGrowth, applyRule1, findEndIdx, rule1Sweep, rule1Update, rule2Sweep, rule3Annual, applySavings, rateLookup, buildSchedule, schedOf, initState, initialPayment, pmt, cfgB]

set_option maxHeartbeats 1000000 in
/-- The simulation state of cfgB after month 12. -/
theorem stateB_13 : loopIter cfgB 13 =
    { balance := 91700, payment := 1000, savings := 7700, income := 3000, expenses := 1000, totalInterest := 0, monthsToFree := none, yearlyLimit := 10300, paidOff := false, madeThisYear := true, currentYear := 1, cumOverpayments := 15300, records := [{ balance := 114000, savings := 6000, cumOverpayments := 5000, yearsVal := 0, income := 3000, expenses := 1000, overpayment := 5000, availableCash := 1000, mortgagePayment := 1000 }, { balance := 113000, savings := 7000, cumOverpayments := 5000, yearsVal := (1 : Rat)/12, income := 3000, expenses := 1000, overpayment := 0, availableCash := 1000, mortgagePayment := 1000 }, { balance := 112000, savings := 8000, cumOverpayments := 5000, yearsVal := (1 : Rat)/6, income := 3000, expenses := 1000, overpayment := 0, availableCash := 1000, mortgagePayment := 1000 }, { balance := 111000, savings := 9000, cumOverpayments := 5000, yearsVal := (1 : Rat)/4, income := 3000, expenses := 1000, overpayment := 0, availableCash := 1000, mortgagePayment := 1000 }, { balance := 110000, savings := 10000, cumOverpayments := 5000, yearsVal := (1 : Rat)/3, income := 3000, expenses := 1000, overpayment := 0, availableCash := 1000, mortgagePayment := 1000 }, { balance := 109000, savings := 11000, cumOverpayments := 5000, yearsVal := (5 : Rat)/12, income := 3000, expenses := 1000, overpayment := 0, availableCash := 1000, mortgagePayment := 1000 }, { balance := 108000, savings := 12000, cumOverpayments := 5000, yearsVal := (1 : Rat)/2, income := 3000, expenses := 1000, overpayment := 0, availableCash := 1000, mortgagePayment := 1000 }, { balance := 107000, savings := 13000, cumOverpayments := 5000, yearsVal := (7 : Rat)/12, income := 3000, expenses := 1000, overpayment := 0, availableCash := 1000, mortgagePayment := 1000 }, { balance := 106000, savings := 14000, cumOverpayments := 5000, yearsVal := (2 : Rat)/3, income := 3000, expenses := 1000, overpayment := 0, availableCash := 1000, mortgagePayment := 1000 }, { balance := 105000, savings := 15000, cumOverpayments := 5000, yearsVal := (3 : Rat)/4, income := 3000, expenses := 1000, overpayment := 0, availableCash := 1000, mortgagePayment := 1000 }, { balance := 104000, savings := 16000, cumOverpayments := 5000, yearsVal := (5 : Rat)/6, income := 3000, expenses := 1000, overpayment := 0, availableCash := 1000, mortgagePayment := 1000 }, { balance := 103000, savings := 17000, cumOverpayments := 5000, yearsVal := (11 : Rat)/12, income := 3000, expenses := 1000, overpayment := 0, availableCash := 1000, mortgagePayment := 1000 }, { balance := 91700, savings := 7700, cumOverpayments := 15300, yearsVal := 1, income := 3000, expenses := 1000, overpayment := 10300, availableCash := 1000, mortgagePayment := 1000 }], events := [{ month := 0, amount := 5000, tag := Mortgage.OverTag.annual 1 }, { month := 12, amount := 10300, tag := Mortgage.OverTag.annual 2 }] } := by
  rw [show (13:ℕ) = 12+1 from rfl, loopIter_succ, stateB_12]
  norm_num [simStep, monthBody, yearReset, applyGrowth, applyRule1, findEndIdx, rule1Sweep, rule1Update, rule2Sweep, rule3Annual, applySavings, rateLookup, buildSchedule, schedOf, initState, initialPayment, pmt, cfgB]

set_option maxHeartbeats 1000000 in
/-- The simulation state of cfgB after month 13. -/
theorem stateB_14 : loopIter cfgB 14 =
    { balance := 90700, payment := 1000, savings := 8700, income := 3000, expenses := 1000, totalInterest := 0, monthsToFree := none, yearlyLimit := 10300, paidOff := false, madeThisYear := true, currentYear := 1, cumOverpayments := 15300, records := [{ balance := 114000, savings := 6000, cumOverpayments := 5000, yearsVal := 0, income := 3000, expenses := 1000, overpayment := 5000, availableCash := 1000, mortgagePayment := 1000 }, { balance := 113000, savings := 7000, cumOverpayments := 5000, yearsVal := (1 : Rat)/12, income := 3000, expenses := 1000, overpayment := 0, availableCash := 1000, mortgagePayment := 1000 }, { balance := 112000, savings := 8000, cumOverpayments := 5000, yearsVal := (1 : Rat)/6, income := 3000, expenses := 1000, overpayment := 0, availableCash := 1000, mortgagePayment := 1000 }, { balance := 111000, savings := 9000, cumOverpayments := 5000, yearsVal := (1 : Rat)/4, income := 3000, expenses := 1000, overpayment := 0, availableCash := 1000, mortgagePayment := 1000 }, { balance := 110000, savings := 10000, cumOverpayments := 5000, yearsVal := (1 : Rat)/3, income := 3000, expenses := 1000, overpayment := 0, availableCash := 1000, mortgagePayment := 1000 }, { balance := 109000, savings := 11000, cumOverpayments := 5000, yearsVal := (5 : Rat)/12, income := 3000, expenses := 1000, overpayment := 0, availableCash := 1000, mortgagePayment := 1000 }, { balance := 108000, savings := 12000, cumOverpayments := 5000, yearsVal := (1 : Rat)/2, income := 3000, expenses := 1000, overpayment := 0, availableCash := 1000, mortgagePayment := 1000 }, { balance := 107000, savings := 13000, cumOverpayments := 5000, yearsVal := (7 : Rat)/12, income := 3000, expenses := 1000, overpayment := 0, availableCash := 1000, mortgagePayment := 1000 }, { balance := 106000, savings := 14000, cumOverpayments := 5000, yearsVal := (2 : Rat)/3, income := 3000, expenses := 1000, overpayment := 0, availableCash := 1000, mortgagePayment := 1000 }, { balance := 105000, savings := 15000, cumOverpayments := 5000, yearsVal := (3 : Rat)/4, income := 3000, expenses := 1000, overpayment := 0, availableCash := 1000, mortgagePayment := 1000 }, { balance := 104000, savings := 16000, cumOverpayments := 5000, yearsVal := (5 : Rat)/6, income := 3000, expenses := 1000, overpayment := 0, availableCash := 1000, mortgagePayment := 1000 }, { balance := 103000, savings := 17000, cumOverpayments := 5000, yearsVal := (11 : Rat)/12, income := 3000, expenses := 1000, overpayment := 0, availableCash := 1000, mortgagePayment := 1000 }, { balance := 91700, savings := 7700, cumOverpayments := 15300, yearsVal := 1, income := 3000, expenses := 1000, overpayment := 10300, availableCash := 1000, mortgagePayment := 1000 }, { balance := 90700, savings := 8700, cumOverpayments := 15300, yearsVal := (13 : Rat)/12, income := 3000, expenses := 1000, overpayment := 0, availableCash := 1000, mortgagePayment := 1000 }], events := [{ month := 0, amount := 5000, tag := Mortgage.OverTag.annual 1 }, { month := 12, amount := 10300, tag := Mortgage.OverTag.annual 2 }] } := by
  rw [show (14:ℕ) = 13+1 from rfl, loopIter_succ, stateB_13]
  norm_num [simStep, monthBody, yearReset, applyGrowth, applyRule1, findEndIdx, rule1Sweep, rule1Update, rule2Sweep, rule3Annual, applySavings, rateLookup, buildSchedule, schedOf, initState, initialPayment, pmt, cfgB]

set_option maxHeartbeats 1000000 in
/-- The simulation state of cfgB after month 14. -/
theorem stateB_15 : loopIter cfgB 15 =
    { balance := 89700, payment := 1000, savings := 9700, income := 3000, expenses := 1000, totalInterest := 0, monthsToFree := none, yearlyLimit := 10300, paidOff := false, madeThisYear := true, currentYear := 1, cumOverpayments := 15300, records := [{ balance := 114000, savings := 6000, cumOverpayments := 5000, yearsVal := 0, income := 3000, expenses := 1000, overpayment := 5000, availableCash := 1000, mortgagePayment := 1000 }, { balance := 113000, savings := 7000, cumOverpayments := 5000, yearsVal := (1 : Rat)/12, income := 3000, expenses := 1000, overpayment := 0, availableCash := 1000, mortgagePayment := 1000 }, { balance := 112000, savings := 8000, cumOverpayments := 5000, yearsVal := (1 : Rat)/6, income := 3000, expenses := 1000, overpayment := 0, availableCash := 1000, mortgagePayment := 1000 }, { balance := 111000, savings := 9000, cumOverpayments := 5000, yearsVal := (1 : Rat)/4, income := 3000, expenses := 1000, overpayment := 0, availableCash := 1000, mortgagePayment := 1000 }, { balance := 110000, savings := 10000, cumOverpayments := 5000, yearsVal := (1 : Rat)/3, income := 3000, expenses := 1000, overpayment := 0, availableCash := 1000, mortgagePayment := 1000 }, { balance := 109000, savings := 11000, cumOverpayments := 5000, yearsVal := (5 : Rat)/12, income := 3000, expenses := 1000, overpayment := 0, availableCash := 1000, mortgagePayment := 1000 }, { balance := 108000, savings := 12000, cumOverpayments := 5000, yearsVal := (1 : Rat)/2, income := 3000, expenses := 1000, overpayment := 0, availableCash := 1000, mortgagePayment := 1000 }, { balance := 107000, savings := 13000, cumOverpayments := 5000, yearsVal := (7 : Rat)/12, income := 3000, expenses := 1000, overpayment := 0, availableCash := 1000, mortgagePayment := 1000 }, { balance := 106000, savings := 14000, cumOverpayments := 5000, yearsVal := (2 : Rat)/3, income := 3000, expenses := 1000, overpayment := 0, availableCash := 1000, mortgagePayment := 1000 }, { balance := 105000, savings := 15000, cumOverpayments := 5000, yearsVal := (3 : Rat)/4, income := 3000, expenses := 1000, overpayment := 0, availableCash := 1000, mortgagePayment := 1000 }, { balance := 104000, savings := 16000, cumOverpayments := 5000, yearsVal := (5 : Rat)/6, income := 3000, expenses := 1000, overpayment := 0, availableCash := 1000, mortgagePayment := 1000 }, { balance := 103000, savings := 17000, cumOverpayments := 5000, yearsVal := (11 : Rat)/12, income := 3000, expenses := 1000, overpayment := 0, availableCash := 1000, mortgagePayment := 1000 }, { balance := 91700, savings := 7700, cumOverpayments := 15300, yearsVal := 1, income := 3000, expenses := 1000, overpayment := 10300, availableCash := 1000, mortgagePayment := 1000 }, { balance := 90700, savings := 8700, cumOverpayments := 15300, yearsVal := (13 : Rat)/12, income := 3000, expenses := 1000, overpayment := 0, availableCash := 1000, mortgagePayment := 1000 }, { balance := 89700, savings := 9700, cumOverpayments := 15300, yearsVal := (7 : Rat)/6, income := 3000, expenses := 1000, overpayment := 0, availableCash := 1000, mortgagePayment := 1000 }], events := [{ month := 0, amount := 5000, tag := Mortgage.OverTag.annual 1 }, { month := 12, amount := 10300, tag := Mortgage.OverTag.annual 2 }] } := by
  rw [show (15:ℕ) = 14+1 from rfl, loopIter_succ, stateB_14]
  norm_num [simStep, monthBody, yearReset, applyGrowth, applyRule1, findEndIdx, rule1Sweep, rule1Update, rule2Sweep, rule3Annual, applySavings, rateLookup, buildSchedule, schedOf, initState, initialPayment, pmt, cfgB]

set_option maxHeartbeats 1000000 in
/-- The simulation state of cfgB after month 15. -/
theorem stateB_16 : loopIter cfgB 16 =
    { balance := 88700, payment := 1000, savings := 10700, income := 3000, expenses := 1000, totalInterest := 0, monthsToFree := none, yearlyLimit := 10300, paidOff := false, madeThisYear := true, currentYear := 1, cumOverpayments := 15300, records := [{ balance := 114000, savings := 6000, cumOverpayments := 5000, yearsVal := 0, income := 3000, expenses := 1000, overpayment := 5000, availableCash := 1000, mortgagePayment := 1000 }, { balance := 113000, savings := 7000, cumOverpayments := 5000, yearsVal := (1 : Rat)/12, income := 3000, expenses := 1000, overpayment := 0, availableCash := 1000, mortgagePayment := 1000 }, { balance := 112000, savings := 8000, cumOverpayments := 5000, yearsVal := (1 : Rat)/6, income := 3000, expenses := 1000, overpayment := 0, availableCash := 1000, mortgagePayment := 1000 }, { balance := 111000, savings := 9000, cumOverpayments := 5000, yearsVal := (1 : Rat)/4, income := 3000, expenses := 1000, overpayment := 0, availableCash := 1000, mortgagePayment := 1000 }, { balance := 110000, savings := 10000, cumOverpayments := 5000, yearsVal := (1 : Rat)/3, income := 3000, expenses := 1000, overpayment := 0, availableCash := 1000, mortgagePayment := 1000 }, { balance := 109000, savings := 11000, cumOverpayments := 5000, yearsVal := (5 : Rat)/12, income := 3000, expenses := 1000, overpayment := 0, availableCash := 1000, mortgagePayment := 1000 }, { balance := 108000, savings := 12000, cumOverpayments := 5000, yearsVal := (1 : Rat)/2, income := 3000, expenses := 1000, overpayment := 0, availableCash := 1000, mortgagePayment := 1000 }, { balance := 107000, savings := 13000, cumOverpayments := 5000, yearsVal := (7 : Rat)/12, income := 3000, expenses := 1000, overpayment := 0, availableCash := 1000, mortgagePayment := 1000 }, { balance := 106000, savings := 14000, cumOverpayments := 5000, yearsVal := (2 : Rat)/3, income := 3000, expenses := 1000, overpayment := 0, availableCash := 1000, mortgagePayment := 1000 }, { balance := 105000, savings := 15000, cumOverpayments := 5000, yearsVal := (3 : Rat)/4, income := 3000, expenses := 1000, overpayment := 0, availableCash := 1000, mortgagePayment := 1000 }, { balance := 104000, savings := 16000, cumOverpayments := 5000, yearsVal := (5 : Rat)/6, income := 3000, expenses := 1000, overpayment := 0, availableCash := 1000, mortgagePayment := 1000 }, { balance := 103000, savings := 17000, cumOverpayments := 5000, yearsVal := (11 : Rat)/12, income := 3000, expenses := 1000, overpayment := 0, availableCash := 1000, mortgagePayment := 1000 }, { balance := 91700, savings := 7700, cumOverpayments := 15300, yearsVal := 1, income := 3000, expenses := 1000, overpayment := 10300, availableCash := 1000, mortgagePayment := 1000 }, { balance := 90700, savings := 8700, cumOverpayments := 15300, yearsVal := (13 : Rat)/12, income := 3000, expenses := 1000, overpayment := 0, availableCash := 1000, mortgagePayment := 1000 }, { balance := 89700, savings := 9700, cumOverpayments := 15300, yearsVal := (7 : Rat)/6, income := 3000, expenses := 1000, overpayment := 0, availableCash := 1000, mortgagePayment := 1000 }, { balance := 88700, savings := 10700, cumOverpayments := 15300, yearsVal := (5 : Rat)/4, income := 3000, expenses := 1000, overpayment := 0, availableCash := 1000, mortgagePayment := 1000 }], events := [{ month := 0, amount := 5000, tag := Mortgage.OverTag.annual 1 }, { month := 12, amount := 10300, tag := Mortgage.OverTag.annual 2 }] } := by
  rw [show (16:ℕ) = 15+1 from rfl, loopIter_succ, stateB_15]
  norm_num [simStep, monthBody, yearReset, applyGrowth, applyRule1, findEndIdx, rule1Sweep, rule1Update, rule2Sweep, rule3Annual, applySavings, rateLookup, buildSchedule, schedOf, initState, initialPayment, pmt, cfgB]

set_option maxHeartbeats 1000000 in
/-- The simulation state of cfgB after month 16. -/
theorem stateB_17 : loopIter cfgB 17 =
    { balance := 87700, payment := 1000, savings := 11700, income := 3000, expenses := 1000, totalInterest := 0, monthsToFree := none, yearlyLimit := 10300, paidOff := false, madeThisYear := true, currentYear := 1, cumOverpayments := 15300, records := [{ balance := 114000, savings := 6000, cumOverpayments := 5000, yearsVal := 0, income := 3000, expenses := 1000, overpayment := 5000, availableCash := 1000, mortgagePayment := 1000 }, { balance := 113000, savings := 7000, cumOverpayments := 5000, yearsVal := (1 : Rat)/12, income := 3000, expenses := 1000, overpayment := 0, availableCash := 1000, mortgagePayment := 1000 }, { balance := 112000, savings := 8000, cumOverpayments := 5000, yearsVal := (1 : Rat)/6, income := 3000, expenses := 1000, overpayment := 0, availableCash := 1000, mortgagePayment := 1000 }, { balance := 111000, savings := 9000, cumOverpayments := 5000, yearsVal := (1 : Rat)/4, income := 3000, expenses := 1000, overpayment := 0, availableCash := 1000, mortgagePayment := 1000 }, { balance := 110000, savings := 10000, cumOverpayments := 5000, yearsVal := (1 : Rat)/3, income := 3000, expenses := 1000, overpayment := 0, availableCash := 1000, mortgagePayment := 1000 }, { balance := 109000, savings := 11000, cumOverpayments := 5000, yearsVal := (5 : Rat)/12, income := 3000, expenses := 1000, overpayment := 0, availableCash := 1000, mortgagePayment := 1000 }, { balance := 108000, savings := 12000, cumOverpayments := 5000, yearsVal := (1 : Rat)/2, income := 3000, expenses := 1000, overpayment := 0, availableCash := 1000, mortgagePayment := 1000 }, { balance := 107000, savings := 13000, cumOverpayments := 5000, yearsVal := (7 : Rat)/12, income := 3000, expenses := 1000, overpayment := 0, availableCash := 1000, mortgagePayment := 1000 }, { balance := 106000, savings := 14000, cumOverpayments := 5000, yearsVal := (2 : Rat)/3, income := 3000, expenses := 1000, overpayment := 0, availableCash := 1000, mortgagePayment := 1000 }, { balance := 105000, savings := 15000, cumOverpayments := 5000, yearsVal := (3 : Rat)/4, income := 3000, expenses := 1000, overpayment := 0, availableCash := 1000, mortgagePayment := 1000 }, { balance := 104000, savings := 16000, cumOverpayments := 5000, yearsVal := (5 : Rat)/6, income := 3000, expenses := 1000, overpayment := 0, availableCash := 1000, mortgagePayment := 1000 }, { balance := 103000, savings := 17000, cumOverpayments := 5000, yearsVal := (11 : Rat)/12, income := 3000, expenses := 1000, overpayment := 0, availableCash := 1000, mortgagePayment := 1000 }, { balance := 91700, savings := 7700, cumOverpayments := 15300, yearsVal := 1, income := 3000, expenses := 1000, overpayment := 10300, availableCash := 1000, mortgagePayment := 1000 }, { balance := 90700, savings := 8700, cumOverpayments := 15300, yearsVal := (13 : Rat)/12, income := 3000, expenses := 1000, overpayment := 0, availableCash := 1000, mortgagePayment := 1000 }, { balance := 89700, savings := 9700, cumOverpayments := 15300, yearsVal := (7 : Rat)/6, income := 3000, expenses := 1000, overpayment := 0, availableCash := 1000, mortgagePayment := 1000 }, { balance := 88700, savings := 10700, cumOverpayments := 15300, yearsVal := (5 : Rat)/4, income := 3000, expenses := 1000, overpayment := 0, availableCash := 1000, mortgagePayment := 1000 }, { balance := 87700, savings := 11700, cumOverpayments := 15300, yearsVal := (4 : Rat)/3, income := 3000, expenses := 1000, overpayment := 0, availableCash := 1000, mortgagePayment := 1000 }], events := [{ month := 0, amount := 5000, tag := Mortgage.OverTag.annual 1 }, { month := 12, amount := 10300, tag := Mortgage.OverTag.annual 2 }] } := by
  rw [show (17:ℕ) = 16+1 from rfl, loopIter_succ, stateB_16]
  norm_num [simStep, monthBody, yearReset, applyGrowth, applyRule1, findEndIdx, rule1Sweep, rule1Update, rule2Sweep, rule3Annual, applySavings, rateLookup, buildSchedule, schedOf, initState, initialPayment, pmt, cfgB]

set_option maxHeartbeats 1000000 in
/-- The simulation state of cfgB after month 17. -/
theorem stateB_18 : loopIter cfgB 18 =
    { balance := 86700, payment := 1000, savings := 12700, income := 3000, expenses := 1000, totalInterest := 0, monthsToFree := none, yearlyLimit := 10300, paidOff := false, madeThisYear := true, currentYear := 1, cumOverpayments := 15300, records := [{ balance := 114000, savings := 6000, cumOverpayments := 5000, yearsVal := 0, income := 3000, expenses := 1000, overpayment := 5000, availableCash := 1000, mortgagePayment := 1000 }, { balance := 113000, savings := 7000, cumOverpayments := 5000, yearsVal := (1 : Rat)/12, income := 3000, expenses := 1000, overpayment := 0, availableCash := 1000, mortgagePayment := 1000 }, { balance := 112000, savings := 8000, cumOverpayments := 5000, yearsVal := (1 : Rat)/6, income := 3000, expenses := 1000, overpayment := 0, availableCash := 1000, mortgagePayment := 1000 }, { balance := 111000, savings := 9000, cumOverpayments := 5000, yearsVal := (1 : Rat)/4, income := 3000, expenses := 1000, overpayment := 0, availableCash := 1000, mortgagePayment := 1000 }, { balance := 110000, savings := 10000, cumOverpayments := 5000, yearsVal := (1 : Rat)/3, income := 3000, expenses := 1000, overpayment := 0, availableCash := 1000, mortgagePayment := 1000 }, { balance := 109000, savings := 11000, cumOverpayments := 5000, yearsVal := (5 : Rat)/12, income := 3000, expenses := 1000, overpayment := 0, availableCash := 1000, mortgagePayment := 1000 }, { balance := 108000, savings := 12000, cumOverpayments := 5000, yearsVal := (1 : Rat)/2, income := 3000, expenses := 1000, overpayment := 0, availableCash := 1000, mortgagePayment := 1000 }, { balance := 107000, savings := 13000, cumOverpayments := 5000, yearsVal := (7 : Rat)/12, income := 3000, expenses := 1000, overpayment := 0, availableCash := 1000, mortgagePayment := 1000 }, { balance := 106000, savings := 14000, cumOverpayments := 5000, yearsVal := (2 : Rat)/3, income := 3000, expenses := 1000, overpayment := 0, availableCash := 1000, mortgagePayment := 1000 }, { balance := 105000, savings := 15000, cumOverpayments := 5000, yearsVal := (3 : Rat)/4, income := 3000, expenses := 1000, overpayment := 0, availableCash := 1000, mortgagePayment := 1000 }, { balance := 104000, savings := 16000, cumOverpayments := 5000, yearsVal := (5 : Rat)/6, income := 3000, expenses := 1000, overpayment := 0, availableCash := 1000, mortgagePayment := 1000 }, { balance := 103000, savings := 17000, cumOverpayments := 5000, yearsVal := (11 : Rat)/12, income := 3000, expenses := 1000, overpayment := 0, availableCash := 1000, mortgagePayment := 1000 }, { balance := 91700, savings := 7700, cumOverpayments := 15300, yearsVal := 1, income := 3000, expenses := 1000, overpayment := 10300, availableCash := 1000, mortgagePayment := 1000 }, { balance := 90700, savings := 8700, cumOverpayments := 15300, yearsVal := (13 : Rat)/12, income := 3000, expenses := 1000, overpayment := 0, availableCash := 1000, mortgagePayment := 1000 }, { balance := 89700, savings := 9700, cumOverpayments := 15300, yearsVal := (7 : Rat)/6, income := 3000, expenses := 1000, overpayment := 0, availableCash := 1000, mortgagePayment := 1000 }, { balance := 88700, savings := 10700, cumOverpayments := 15300, yearsVal := (5 : Rat)/4, income := 3000, expenses := 1000, overpayment := 0, availableCash := 1000, mortgagePayment := 1000 }, { balance := 87700, savings := 11700, cumOverpayments := 15300, yearsVal := (4 : Rat)/3, income := 3000, expenses := 1000, overpayment := 0, availableCash := 1000, mortgagePayment := 1000 }, { balance := 86700, savings := 12700, cumOverpayments := 15300, yearsVal := (17 : Rat)/12, income := 3000, expenses := 1000, overpayment := 0, availableCash := 1000, mortgagePayment := 1000 }], events := [{ month := 0, amount := 5000, tag := Mortgage.OverTag.annual 1 }, { month := 12, amount := 10300, tag := Mortgage.OverTag.annual 2 }] } := by
  rw [show (18:ℕ) = 17+1 from rfl, loopIter_succ, stateB_17]
  norm_num [simStep, monthBody, yearReset, applyGrowth, applyRule1, findEndIdx, rule1Sweep, rule1Update, rule2Sweep, rule3Annual, applySavings, rateLookup, buildSchedule, schedOf, initState, initialPayment, pmt, cfgB]

set_option maxHeartbeats 1000000 in
/-- The simulation state of cfgB after month 18. -/
theorem stateB_19 : loopIter cfgB 19 =
    { balance := (3989500 : Rat)/51, payment := (39500 : Rat)/51, savings := (317500 : Rat)/51, income := 3000, expenses := 1000, totalInterest := 0, monthsToFree := none, yearlyLimit := 10300, paidOff := false, madeThisYear := false, currentYear := 1, cumOverpayments := 23000, records := [{ balance := 114000, savings := 6000, cumOverpayments := 5000, yearsVal := 0, income := 3000, expenses := 1000, overpayment := 5000, availableCash := 1000, mortgagePayment := 1000 }, { balance := 113000, savings := 7000, cumOverpayments := 5000, yearsVal := (1 : Rat)/12, income := 3000, expenses := 1000, overpayment := 0, availableCash := 1000, mortgagePayment := 1000 }, { balance := 112000, savings := 8000, cumOverpayments := 5000, yearsVal := (1 : Rat)/6, income := 3000, expenses := 1000, overpayment := 0, availableCash := 1000, mortgagePayment := 1000 }, { balance := 111000, savings := 9000, cumOverpayments := 5000, yearsVal := (1 : Rat)/4, income := 3000, expenses := 1000, overpayment := 0, availableCash := 1000, mortgagePayment := 1000 }, { balance := 110000, savings := 10000, cumOverpayments := 5000, yearsVal := (1 : Rat)/3, income := 3000, expenses := 1000, overpayment := 0, availableCash := 1000, mortgagePayment := 1000 }, { balance := 109000, savings := 11000, cumOverpayments := 5000, yearsVal := (5 : Rat)/12, income := 3000, expenses := 1000, overpayment := 0, availableCash := 1000, mortgagePayment := 1000 }, { balance := 108000, savings := 12000, cumOverpayments := 5000, yearsVal := (1 : Rat)/2, income := 3000, expenses := 1000, overpayment := 0, availableCash := 1000, mortgagePayment := 1000 }, { balance := 107000, savings := 13000, cumOverpayments := 5000, yearsVal := (7 : Rat)/12, income := 3000, expenses := 1000, overpayment := 0, availableCash := 1000, mortgagePayment := 1000 }, { balance := 106000, savings := 14000, cumOverpayments := 5000, yearsVal := (2 : Rat)/3, income := 3000, expenses := 1000, overpayment := 0, availableCash := 1000, mortgagePayment := 1000 }, { balance := 105000, savings := 15000, cumOverpayments := 5000, yearsVal := (3 : Rat)/4, income := 3000, expenses := 1000, overpayment := 0, availableCash := 1000, mortgagePayment := 1000 }, { balance := 104000, savings := 16000, cumOverpayments := 5000, yearsVal := (5 : Rat)/6, income := 3000, expenses := 1000, overpayment := 0, availableCash := 1000, mortgagePayment := 1000 }, { balance := 103000, savings := 17000, cumOverpayments := 5000, yearsVal := (11 : Rat)/12, income := 3000, expenses := 1000, overpayment := 0, availableCash := 1000, mortgagePayment := 1000 }, { balance := 91700, savings := 7700, cumOverpayments := 15300, yearsVal := 1, income := 3000, expenses := 1000, overpayment := 10300, availableCash := 1000, mortgagePayment := 1000 }, { balance := 90700, savings := 8700, cumOverpayments := 15300, yearsVal := (13 : Rat)/12, income := 3000, expenses := 1000, overpayment := 0, availableCash := 1000, mortgagePayment := 1000 }, { balance := 89700, savings := 9700, cumOverpayments := 15300, yearsVal := (7 : Rat)/6, income := 3000, expenses := 1000, overpayment := 0, availableCash := 1000, mortgagePayment := 1000 }, { balance := 88700, savings := 10700, cumOverpayments := 15300, yearsVal := (5 : Rat)/4, income := 3000, expenses := 1000, overpayment := 0, availableCash := 1000, mortgagePayment := 1000 }, { balance := 87700, savings := 11700, cumOverpayments := 15300, yearsVal := (4 : Rat)/3, income := 3000, expenses := 1000, overpayment := 0, availableCash := 1000, mortgagePayment := 1000 }, { balance := 86700, savings := 12700, cumOverpayments := 15300, yearsVal := (17 : Rat)/12, income := 3000, expenses := 1000, overpayment := 0, availableCash := 1000, mortgagePayment := 1000 }, { balance := (3989500 : Rat)/51, savings := (317500 : Rat)/51, cumOverpayments := 23000, yearsVal := (3 : Rat)/2, income := 3000, expenses := 1000, overpayment := 7700, availableCash := (62500 : Rat)/51, mortgagePayment := (39500 : Rat)/51 }], events := [{ month := 0, amount := 5000, tag := Mortgage.OverTag.annual 1 }, { month := 12, amount := 10300, tag := Mortgage.OverTag.annual 2 }, { month := 18, amount := 7700, tag := Mortgage.OverTag.endOfFixed 1 }] } := by
  rw [show (19:ℕ) = 18+1 from rfl, loopIter_succ, stateB_18]
  norm_num [simStep, monthBody, yearReset, applyGrowth, applyRule1, findEndIdx, rule1Sweep, rule1Update, rule2Sweep, rule3Annual, applySavings, rateLookup, buildSchedule, schedOf, initState, initialPayment, pmt, cfgB]

set_option maxHeartbeats 1000000 in
/-- The simulation state of cfgB after month 19. -/
theorem stateB_20 : loopIter cfgB 20 =
    { balance := (3887500 : Rat)/51, payment := (39500 : Rat)/51, savings := (317500 : Rat)/51, income := 3000, expenses := 1000, totalInterest := 0, monthsToFree := none, yearlyLimit := 10300, paidOff := false, madeThisYear := true, currentYear := 1, cumOverpayments := (1235500 : Rat)/51, records := [{ balance := 114000, savings := 6000, cumOverpayments := 5000, yearsVal := 0, income := 3000, expenses := 1000, overpayment := 5000, availableCash := 1000, mortgagePayment := 1000 }, { balance := 113000, savings := 7000, cumOverpayments := 5000, yearsVal := (1 : Rat)/12, income := 3000, expenses := 1000, overpayment := 0, availableCash := 1000, mortgagePayment := 1000 }, { balance := 112000, savings := 8000, cumOverpayments := 5000, yearsVal := (1 : Rat)/6, income := 3000, expenses := 1000, overpayment := 0, availableCash := 1000, mortgagePayment := 1000 }, { balance := 111000, savings := 9000, cumOverpayments := 5000, yearsVal := (1 : Rat)/4, income := 3000, expenses := 1000, overpayment := 0, availableCash := 1000, mortgagePayment := 1000 }, { balance := 110000, savings := 10000, cumOverpayments := 5000, yearsVal := (1 : Rat)/3, income := 3000, expenses := 1000, overpayment := 0, availableCash := 1000, mortgagePayment := 1000 }, { balance := 109000, savings := 11000, cumOverpayments := 5000, yearsVal := (5 : Rat)/12, income := 3000, expenses := 1000, overpayment := 0, availableCash := 1000, mortgagePayment := 1000 }, { balance := 108000, savings := 12000, cumOverpayments := 5000, yearsVal := (1 : Rat)/2, income := 3000, expenses := 1000, overpayment := 0, availableCash := 1000, mortgagePayment := 1000 }, { balance := 107000, savings := 13000, cumOverpayments := 5000, yearsVal := (7 : Rat)/12, income := 3000, expenses := 1000, overpayment := 0, availableCash := 1000, mortgagePayment := 1000 }, { balance := 106000, savings := 14000, cumOverpayments := 5000, yearsVal := (2 : Rat)/3, income := 3000, expenses := 1000, overpayment := 0, availableCash := 1000, mortgagePayment := 1000 }, { balance := 105000, savings := 15000, cumOverpayments := 5000, yearsVal := (3 : Rat)/4, income := 3000, expenses := 1000, overpayment := 0, availableCash := 1000, mortgagePayment := 1000 }, { balance := 104000, savings := 16000, cumOverpayments := 5000, yearsVal := (5 : Rat)/6, income := 3000, expenses := 1000, overpayment := 0, availableCash := 1000, mortgagePayment := 1000 }, { balance := 103000, savings := 17000, cumOverpayments := 5000, yearsVal := (11 : Rat)/12, income := 3000, expenses := 1000, overpayment := 0, availableCash := 1000, mortgagePayment := 1000 }, { balance := 91700, savings := 7700, cumOverpayments := 15300, yearsVal := 1, income := 3000, expenses := 1000, overpayment := 10300, availableCash := 1000, mortgagePayment := 1000 }, { balance := 90700, savings := 8700, cumOverpayments := 15300, yearsVal := (13 : Rat)/12, income := 3000, expenses := 1000, overpayment := 0, availableCash := 1000, mortgagePayment := 1000 }, { balance := 89700, savings := 9700, cumOverpayments := 15300, yearsVal := (7 : Rat)/6, income := 3000, expenses := 1000, overpayment := 0, availableCash := 1000, mortgagePayment := 1000 }, { balance := 88700, savings := 10700, cumOverpayments := 15300, yearsVal := (5 : Rat)/4, income := 3000, expenses := 1000, overpayment := 0, availableCash := 1000, mortgagePayment := 1000 }, { balance := 87700, savings := 11700, cumOverpayments := 15300, yearsVal := (4 : Rat)/3, income := 3000, expenses := 1000, overpayment := 0, availableCash := 1000, mortgagePayment := 1000 }, { balance := 86700, savings := 12700, cumOverpayments := 15300, yearsVal := (17 : Rat)/12, income := 3000, expenses := 1000, overpayment := 0, availableCash := 1000, mortgagePayment := 1000 }, { balance := (3989500 : Rat)/51, savings := (317500 : Rat)/51, cumOverpayments := 23000, yearsVal := (3 : Rat)/2, income := 3000, expenses := 1000, overpayment := 7700, availableCash := (62500 : Rat)/51, mortgagePayment := (39500 : Rat)/51 }, { balance := (3887500 : Rat)/51, savings := (317500 : Rat)/51, cumOverpayments := (1235500 : Rat)/51, yearsVal := (19 : Rat)/12, income := 3000, expenses := 1000, overpayment := (62500 : Rat)/51, availableCash := (62500 : Rat)/51, mortgagePayment := (39500 : Rat)/51 }], events := [{ month := 0, amount := 5000, tag := Mortgage.OverTag.annual 1 }, { month := 12, amount := 10300, tag := Mortgage.OverTag.annual 2 }, { month := 18, amount := 7700, tag := Mortgage.OverTag.endOfFixed 1 }, { month := 19, amount := (62500 : Rat)/51, tag := Mortgage.OverTag.annual 2 }] } := by
  rw [show (20:ℕ) = 19+1 from rfl, loopIter_succ, stateB_19]
  norm_num [simStep, monthBody, yearReset, applyGrowth, applyRule1, findEndIdx, rule1Sweep, rule1Update, rule2Sweep, rule3Annual, applySavings, rateLookup, buildSchedule, schedOf, initState, initialPayment, pmt, cfgB]

set_option maxHeartbeats 1000000 in
/-- The simulation state of cfgB after month 20. -/
theorem stateB_21 : loopIter cfgB 21 =
    { balance := (3848000 : Rat)/51, payment := (39500 : Rat)/51, savings := (380000 : Rat)/51, income := 3000, expenses := 1000, totalInterest := 0, monthsToFree := none, yearlyLimit := 10300, paidOff := false, madeThisYear := true, currentYear := 1, cumOverpayments := (1235500 : Rat)/51, records := [{ balance := 114000, savings := 6000, cumOverpayments := 5000, yearsVal := 0, income := 3000, expenses := 1000, overpayment := 5000, availableCash := 1000, mortgagePayment := 1000 }, { balance := 113000, savings := 7000, cumOverpayments := 5000, yearsVal := (1 : Rat)/12, income := 3000, expenses := 1000, overpayment := 0, availableCash := 1000, mortgagePayment := 1000 }, { balance := 112000, savings := 8000, cumOverpayments := 5000, yearsVal := (1 : Rat)/6, income := 3000, expenses := 1000, overpayment := 0, availableCash := 1000, mortgagePayment := 1000 }, { balance := 111000, savings := 9000, cumOverpayments := 5000, yearsVal := (1 : Rat)/4, income := 3000, expenses := 1000, overpayment := 0, availableCash := 1000, mortgagePayment := 1000 }, { balance := 110000, savings := 10000, cumOverpayments := 5000, yearsVal := (1 : Rat)/3, income := 3000, expenses := 1000, overpayment := 0, availableCash := 1000, mortgagePayment := 1000 }, { balance := 109000, savings := 11000, cumOverpayments := 5000, yearsVal := (5 : Rat)/12, income := 3000, expenses := 1000, overpayment := 0, availableCash := 1000, mortgagePayment := 1000 }, { balance := 108000, savings := 12000, cumOverpayments := 5000, yearsVal := (1 : Rat)/2, income := 3000, expenses := 1000, overpayment := 0, availableCash := 1000, mortgagePayment := 1000 }, { balance := 107000, savings := 13000, cumOverpayments := 5000, yearsVal := (7 : Rat)/12, income := 3000, expenses := 1000, overpayment := 0, availableCash := 1000, mortgagePayment := 1000 }, { balance := 106000, savings := 14000, cumOverpayments := 5000, yearsVal := (2 : Rat)/3, income := 3000, expenses := 1000, overpayment := 0, availableCash := 1000, mortgagePayment := 1000 }, { balance := 105000, savings := 15000, cumOverpayments := 5000, yearsVal := (3 : Rat)/4, income := 3000, expenses := 1000, overpayment := 0, availableCash := 1000, mortgagePayment := 1000 }, { balance := 104000, savings := 16000, cumOverpayments := 5000, yearsVal := (5 : Rat)/6, income := 3000, expenses := 1000, overpayment := 0, availableCash := 1000, mortgagePayment := 1000 }, { balance := 103000, savings := 17000, cumOverpayments := 5000, yearsVal := (11 : Rat)/12, income := 3000, expenses := 1000, overpayment := 0, availableCash := 1000, mortgagePayment := 1000 }, { balance := 91700, savings := 7700, cumOverpayments := 15300, yearsVal := 1, income := 3000, expenses := 1000, overpayment := 10300, availableCash := 1000, mortgagePayment := 1000 }, { balance := 90700, savings := 8700, cumOverpayments := 15300, yearsVal := (13 : Rat)/12, income := 3000, expenses := 1000, overpayment := 0, availableCash := 1000, mortgagePayment := 1000 }, { balance := 89700, savings := 9700, cumOverpayments := 15300, yearsVal := (7 : Rat)/6, income := 3000, expenses := 1000, overpayment := 0, availableCash := 1000, mortgagePayment := 1000 }, { balance := 88700, savings := 10700, cumOverpayments := 15300, yearsVal := (5 : Rat)/4, income := 3000, expenses := 1000, overpayment := 0, availableCash := 1000, mortgagePayment := 1000 }, { balance := 87700, savings := 11700, cumOverpayments := 15300, yearsVal := (4 : Rat)/3, income := 3000, expenses := 1000, overpayment := 0, availableCash := 1000, mortgagePayment := 1000 }, { balance := 86700, savings := 12700, cumOverpayments := 15300, yearsVal := (17 : Rat)/12, income := 3000, expenses := 1000, overpayment := 0, availableCash := 1000, mortgagePayment := 1000 }, { balance := (3989500 : Rat)/51, savings := (317500 : Rat)/51, cumOverpayments := 23000, yearsVal := (3 : Rat)/2, income := 3000, expenses := 1000, overpayment := 7700, availableCash := (62500 : Rat)/51, mortgagePayment := (39500 : Rat)/51 }, { balance := (3887500 : Rat)/51, savings := (317500 : Rat)/51, cumOverpayments := (1235500 : Rat)/51, yearsVal := (19 : Rat)/12, income := 3000, expenses := 1000, overpayment := (62500 : Rat)/51, availableCash := (62500 : Rat)/51, mortgagePayment := (39500 : Rat)/51 }, { balance := (3848000 : Rat)/51, savings := (380000 : Rat)/51, cumOverpayments := (1235500 : Rat)/51, yearsVal := (5 : Rat)/3, income := 3000, expenses := 1000, overpayment := 0, availableCash := (62500 : Rat)/51, mortgagePayment := (39500 : Rat)/51 }], events := [{ month := 0, amount := 5000, tag := Mortgage.OverTag.annual 1 }, { month := 12, amount := 10300, tag := Mortgage.OverTag.annual 2 }, { month := 18, amount := 7700, tag := Mortgage.OverTag.endOfFixed 1 }, { month := 19, amount := (62500 : Rat)/51, tag := Mortgage.OverTag.annual 2 }] } := by
  rw [show (21:ℕ) = 20+1 from rfl, loopIter_succ, stateB_20]
  norm_num [simStep, monthBody, yearReset, applyGrowth, applyRule1, findEndIdx, rule1Sweep, rule1Update, rule2Sweep, rule3Annual, applySavings, rateLookup, buildSchedule, schedOf, initState, initialPayment, pmt, cfgB]

set_option maxHeartbeats 1000000 in
/-- The simulation state of cfgB after month 21. -/
theorem stateB_22 : loopIter cfgB 22 =
    { balance := (1269500 : Rat)/17, payment := (39500 : Rat)/51, savings := (147500 : Rat)/17, income := 3000, expenses := 1000, totalInterest := 0, monthsToFree := none, yearlyLimit := 10300, paidOff := false, madeThisYear := true, currentYear := 1, cumOverpayments := (1235500 : Rat)/51, records := [{ balance := 114000, savings := 6000, cumOverpayments := 5000, yearsVal := 0, income := 3000, expenses := 1000, overpayment := 5000, availableCash := 1000, mortgagePayment := 1000 }, { balance := 113000, savings := 7000, cumOverpayments := 5000, yearsVal := (1 : Rat)/12, income := 3000, expenses := 1000, overpayment := 0, availableCash := 1000, mortgagePayment := 1000 }, { balance := 112000, savings := 8000, cumOverpayments := 5000, yearsVal := (1 : Rat)/6, income := 3000, expenses := 1000, overpayment := 0, availableCash := 1000, mortgagePayment := 1000 }, { balance := 111000, savings := 9000, cumOverpayments := 5000, yearsVal := (1 : Rat)/4, income := 3000, expenses := 1000, overpayment := 0, availableCash := 1000, mortgagePayment := 1000 }, { balance := 110000, savings := 10000, cumOverpayments := 5000, yearsVal := (1 : Rat)/3, income := 3000, expenses := 1000, overpayment := 0, availableCash := 1000, mortgagePayment := 1000 }, { balance := 109000, savings := 11000, cumOverpayments := 5000, yearsVal := (5 : Rat)/12, income := 3000, expenses := 1000, overpayment := 0, availableCash := 1000, mortgagePayment := 1000 }, { balance := 108000, savings := 12000, cumOverpayments := 5000, yearsVal := (1 : Rat)/2, income := 3000, expenses := 1000, overpayment := 0, availableCash := 1000, mortgagePayment := 1000 }, { balance := 107000, savings := 13000, cumOverpayments := 5000, yearsVal := (7 : Rat)/12, income := 3000, expenses := 1000, overpayment := 0, availableCash := 1000, mortgagePayment := 1000 }, { balance := 106000, savings := 14000, cumOverpayments := 5000, yearsVal := (2 : Rat)/3, income := 3000, expenses := 1000, overpayment := 0, availableCash := 1000, mortgagePayment := 1000 }, { balance := 105000, savings := 15000, cumOverpayments := 5000, yearsVal := (3 : Rat)/4, income := 3000, expenses := 1000, overpayment := 0, availableCash := 1000, mortgagePayment := 1000 }, { balance := 104000, savings := 16000, cumOverpayments := 5000, yearsVal := (5 : Rat)/6, income := 3000, expenses := 1000, overpayment := 0, availableCash := 1000, mortgagePayment := 1000 }, { balance := 103000, savings := 17000, cumOverpayments := 5000, yearsVal := (11 : Rat)/12, income := 3000, expenses := 1000, overpayment := 0, availableCash := 1000, mortgagePayment := 1000 }, { balance := 91700, savings := 7700, cumOverpayments := 15300, yearsVal := 1, income := 3000, expenses := 1000, overpayment := 10300, availableCash := 1000, mortgagePayment := 1000 }, { balance := 90700, savings := 8700, cumOverpayments := 15300, yearsVal := (13 : Rat)/12, income := 3000, expenses := 1000, overpayment := 0, availableCash := 1000, mortgagePayment := 1000 }, { balance := 89700, savings := 9700, cumOverpayments := 15300, yearsVal := (7 : Rat)/6, income := 3000, expenses := 1000, overpayment := 0, availableCash := 1000, mortgagePayment := 1000 }, { balance := 88700, savings := 10700, cumOverpayments := 15300, yearsVal := (5 : Rat)/4, income := 3000, expenses := 1000, overpayment := 0, availableCash := 1000, mortgagePayment := 1000 }, { balance := 87700, savings := 11700, cumOverpayments := 15300, yearsVal := (4 : Rat)/3, income := 3000, expenses := 1000, overpayment := 0, availableCash := 1000, mortgagePayment := 1000 }, { balance := 86700, savings := 12700, cumOverpayments := 15300, yearsVal := (17 : Rat)/12, income := 3000, expenses := 1000, overpayment := 0, availableCash := 1000, mortgagePayment := 1000 }, { balance := (3989500 : Rat)/51, savings := (317500 : Rat)/51, cumOverpayments := 23000, yearsVal := (3 : Rat)/2, income := 3000, expenses := 1000, overpayment := 7700, availableCash := (62500 : Rat)/51, mortgagePayment := (39500 : Rat)/51 }, { balance := (3887500 : Rat)/51, savings := (317500 : Rat)/51, cumOverpayments := (1235500 : Rat)/51, yearsVal := (19 : Rat)/12, income := 3000, expenses := 1000, overpayment := (62500 : Rat)/51, availableCash := (62500 : Rat)/51, mortgagePayment := (39500 : Rat)/51 }, { balance := (3848000 : Rat)/51, savings := (380000 : Rat)/51, cumOverpayments := (1235500 : Rat)/51, yearsVal := (5 : Rat)/3, income := 3000, expenses := 1000, overpayment := 0, availableCash := (62500 : Rat)/51, mortgagePayment := (39500 : Rat)/51 }, { balance := (1269500 : Rat)/17, savings := (147500 : Rat)/17, cumOverpayments := (1235500 : Rat)/51, yearsVal := (7 : Rat)/4, income := 3000, expenses := 1000, overpayment := 0, availableCash := (62500 : Rat)/51, mortgagePayment := (39500 : Rat)/51 }], events := [{ month := 0, amount := 5000, tag := Mortgage.OverTag.annual 1 }, { month := 12, amount := 10300, tag := Mortgage.OverTag.annual 2 }, { month := 18, amount := 7700, tag := Mortgage.OverTag.endOfFixed 1 }, { month := 19, amount := (62500 : Rat)/51, tag := Mortgage.OverTag.annual 2 }] } := by
  rw [show (22:ℕ) = 21+1 from rfl, loopIter_succ, stateB_21]
  norm_num [simStep, monthBody, yearReset, applyGrowth, applyRule1, findEndIdx, rule1Sweep, rule1Update, rule2Sweep, rule3Annual, applySavings, rateLookup, buildSchedule, schedOf, initState, initialPayment, pmt, cfgB]

set_option maxHeartbeats 1000000 in
/-- The simulation state of cfgB after month 22. -/
theorem stateB_23 : loopIter cfgB 23 =
    { balance := (3769000 : Rat)/51, payment := (39500 : Rat)/51, savings := (505000 : Rat)/51, income := 3000, expenses := 1000, totalInterest := 0, monthsToFree := none, yearlyLimit := 10300, paidOff := false, madeThisYear := true, currentYear := 1, cumOverpayments := (1235500 : Rat)/51, records := [{ balance := 114000, savings := 6000, cumOverpayments := 5000, yearsVal := 0, income := 3000, expenses := 1000, overpayment := 5000, availableCash := 1000, mortgagePayment := 1000 }, { balance := 113000, savings := 7000, cumOverpayments := 5000, yearsVal := (1 : Rat)/12, income := 3000, expenses := 1000, overpayment := 0, availableCash := 1000, mortgagePayment := 1000 }, { balance := 112000, savings := 8000, cumOverpayments := 5000, yearsVal := (1 : Rat)/6, income := 3000, expenses := 1000, overpayment := 0, availableCash := 1000, mortgagePayment := 1000 }, { balance := 111000, savings := 9000, cumOverpayments := 5000, yearsVal := (1 : Rat)/4, income := 3000, expenses := 1000, overpayment := 0, availableCash := 1000, mortgagePayment := 1000 }, { balance := 110000, savings := 10000, cumOverpayments := 5000, yearsVal := (1 : Rat)/3, income := 3000, expenses := 1000, overpayment := 0, availableCash := 1000, mortgagePayment := 1000 }, { balance := 109000, savings := 11000, cumOverpayments := 5000, yearsVal := (5 : Rat)/12, income := 3000, expenses := 1000, overpayment := 0, availableCash := 1000, mortgagePayment := 1000 }, { balance := 108000, savings := 12000, cumOverpayments := 5000, yearsVal := (1 : Rat)/2, income := 3000, expenses := 1000, overpayment := 0, availableCash := 1000, mortgagePayment := 1000 }, { balance := 107000, savings := 13000, cumOverpayments := 5000, yearsVal := (7 : Rat)/12, income := 3000, expenses := 1000, overpayment := 0, availableCash := 1000, mortgagePayment := 1000 }, { balance := 106000, savings := 14000, cumOverpayments := 5000, yearsVal := (2 : Rat)/3, income := 3000, expenses := 1000, overpayment := 0, availableCash := 1000, mortgagePayment := 1000 }, { balance := 105000, savings := 15000, cumOverpayments := 5000, yearsVal := (3 : Rat)/4, income := 3000, expenses := 1000, overpayment := 0, availableCash := 1000, mortgagePayment := 1000 }, { balance := 104000, savings := 16000, cumOverpayments := 5000, yearsVal := (5 : Rat)/6, income := 3000, expenses := 1000, overpayment := 0, availableCash := 1000, mortgagePayment := 1000 }, { balance := 103000, savings := 17000, cumOverpayments := 5000, yearsVal := (11 : Rat)/12, income := 3000, expenses := 1000, overpayment := 0, availableCash := 1000, mortgagePayment := 1000 }, { balance := 91700, savings := 7700, cumOverpayments := 15300, yearsVal := 1, income := 3000, expenses := 1000, overpayment := 10300, availableCash := 1000, mortgagePayment := 1000 }, { balance := 90700, savings := 8700, cumOverpayments := 15300, yearsVal := (13 : Rat)/12, income := 3000, expenses := 1000, overpayment := 0, availableCash := 1000, mortgagePayment := 1000 }, { balance := 89700, savings := 9700, cumOverpayments := 15300, yearsVal := (7 : Rat)/6, income := 3000, expenses := 1000, overpayment := 0, availableCash := 1000, mortgagePayment := 1000 }, { balance := 88700, savings := 10700, cumOverpayments := 15300, yearsVal := (5 : Rat)/4, income := 3000, expenses := 1000, overpayment := 0, availableCash := 1000, mortgagePayment := 1000 }, { balance := 87700, savings := 11700, cumOverpayments := 15300, yearsVal := (4 : Rat)/3, income := 3000, expenses := 1000, overpayment := 0, availableCash := 1000, mortgagePayment := 1000 }, { balance := 86700, savings := 12700, cumOverpayments := 15300, yearsVal := (17 : Rat)/12, income := 3000, expenses := 1000, overpayment := 0, availableCash := 1000, mortgagePayment := 1000 }, { balance := (3989500 : Rat)/51, savings := (317500 : Rat)/51, cumOverpayments := 23000, yearsVal := (3 : Rat)/2, income := 3000, expenses := 1000, overpayment := 7700, availableCash := (62500 : Rat)/51, mortgagePayment := (39500 : Rat)/51 }, { balance := (3887500 : Rat)/51, savings := (317500 : Rat)/51, cumOverpayments := (1235500 : Rat)/51, yearsVal := (19 : Rat)/12, income := 3000, expenses := 1000, overpayment := (62500 : Rat)/51, availableCash := (62500 : Rat)/51, mortgagePayment := (39500 : Rat)/51 }, { balance := (3848000 : Rat)/51, savings := (380000 : Rat)/51, cumOverpayments := (1235500 : Rat)/51, yearsVal := (5 : Rat)/3, income := 3000, expenses := 1000, overpayment := 0, availableCash := (62500 : Rat)/51, mortgagePayment := (39500 : Rat)/51 }, { balance := (1269500 : Rat)/17, savings := (147500 : Rat)/17, cumOverpayments := (1235500 : Rat)/51, yearsVal := (7 : Rat)/4, income := 3000, expenses := 1000, overpayment := 0, availableCash := (62500 : Rat)/51, mortgagePayment := (39500 : Rat)/51 }, { balance := (3769000 : Rat)/51, savings := (505000 : Rat)/51, cumOverpayments := (1235500 : Rat)/51, yearsVal := (11 : Rat)/6, income := 3000, expenses := 1000, overpayment := 0, availableCash := (62500 : Rat)/51, mortgagePayment := (39500 : Rat)/51 }], events := [{ month := 0, amount := 5000, tag := Mortgage.OverTag.annual 1 }, { month := 12, amount := 10300, tag := Mortgage.OverTag.annual 2 }, { month := 18, amount := 7700, tag := Mortgage.OverTag.endOfFixed 1 }, { month := 19, amount := (62500 : Rat)/51, tag := Mortgage.OverTag.annual 2 }] } := by
  rw [show (23:ℕ) = 22+1 from rfl, loopIter_succ, stateB_22]
  norm_num [simStep, monthBody, yearReset, applyGrowth, applyRule1, findEndIdx, rule1Sweep, rule1Update, rule2Sweep, rule3Annual, applySavings, rateLookup, buildSchedule, schedOf, initState, initialPayment, pmt, cfgB]

set_option maxHeartbeats 1000000 in
/-- The simulation state of cfgB after month 23. -/
theorem stateB_24 : loopIter cfgB 24 =
    { balance := (3729500 : Rat)/51, payment := (39500 : Rat)/51, savings := (567500 : Rat)/51, income := 3000, expenses := 1000, totalInterest := 0, monthsToFree := none, yearlyLimit := 10300, paidOff := false, madeThisYear := true, currentYear := 1, cumOverpayments := (1235500 : Rat)/51, records := [{ balance := 114000, savings := 6000, cumOverpayments := 5000, yearsVal := 0, income := 3000, expenses := 1000, overpayment := 5000, availableCash := 1000, mortgagePayment := 1000 }, { balance := 113000, savings := 7000, cumOverpayments := 5000, yearsVal := (1 : Rat)/12, income := 3000, expenses := 1000, overpayment := 0, availableCash := 1000, mortgagePayment := 1000 }, { balance := 112000, savings := 8000, cumOverpayments := 5000, yearsVal := (1 : Rat)/6, income := 3000, expenses := 1000, overpayment := 0, availableCash := 1000, mortgagePayment := 1000 }, { balance := 111000, savings := 9000, cumOverpayments := 5000, yearsVal := (1 : Rat)/4, income := 3000, expenses := 1000, overpayment := 0, availableCash := 1000, mortgagePayment := 1000 }, { balance := 110000, savings := 10000, cumOverpayments := 5000, yearsVal := (1 : Rat)/3, income := 3000, expenses := 1000, overpayment := 0, availableCash := 1000, mortgagePayment := 1000 }, { balance := 109000, savings := 11000, cumOverpayments := 5000, yearsVal := (5 : Rat)/12, income := 3000, expenses := 1000, overpayment := 0, availableCash := 1000, mortgagePayment := 1000 }, { balance := 108000, savings := 12000, cumOverpayments := 5000, yearsVal := (1 : Rat)/2, income := 3000, expenses := 1000, overpayment := 0, availableCash := 1000, mortgagePayment := 1000 }, { balance := 107000, savings := 13000, cumOverpayments := 5000, yearsVal := (7 : Rat)/12, income := 3000, expenses := 1000, overpayment := 0, availableCash := 1000, mortgagePayment := 1000 }, { balance := 106000, savings := 14000, cumOverpayments := 5000, yearsVal := (2 : Rat)/3, income := 3000, expenses := 1000, overpayment := 0, availableCash := 1000, mortgagePayment := 1000 }, { balance := 105000, savings := 15000, cumOverpayments := 5000, yearsVal := (3 : Rat)/4, income := 3000, expenses := 1000, overpayment := 0, availableCash := 1000, mortgagePayment := 1000 }, { balance := 104000, savings := 16000, cumOverpayments := 5000, yearsVal := (5 : Rat)/6, income := 3000, expenses := 1000, overpayment := 0, availableCash := 1000, mortgagePayment := 1000 }, { balance := 103000, savings := 17000, cumOverpayments := 5000, yearsVal := (11 : Rat)/12, income := 3000, expenses := 1000, overpayment := 0, availableCash := 1000, mortgagePayment := 1000 }, { balance := 91700, savings := 7700, cumOverpayments := 15300, yearsVal := 1, income := 3000, expenses := 1000, overpayment := 10300, availableCash := 1000, mortgagePayment := 1000 }, { balance := 90700, savings := 8700, cumOverpayments := 15300, yearsVal := (13 : Rat)/12, income := 3000, expenses := 1000, overpayment := 0, availableCash := 1000, mortgagePayment := 1000 }, { balance := 89700, savings := 9700, cumOverpayments := 15300, yearsVal := (7 : Rat)/6, income := 3000, expenses := 1000, overpayment := 0, availableCash := 1000, mortgagePayment := 1000 }, { balance := 88700, savings := 10700, cumOverpayments := 15300, yearsVal := (5 : Rat)/4, income := 3000, expenses := 1000, overpayment := 0, availableCash := 1000, mortgagePayment := 1000 }, { balance := 87700, savings := 11700, cumOverpayments := 15300, yearsVal := (4 : Rat)/3, income := 3000, expenses := 1000, overpayment := 0, availableCash := 1000, mortgagePayment := 1000 }, { balance := 86700, savings := 12700, cumOverpayments := 15300, yearsVal := (17 : Rat)/12, income := 3000, expenses := 1000, overpayment := 0, availableCash := 1000, mortgagePayment := 1000 }, { balance := (3989500 : Rat)/51, savings := (317500 : Rat)/51, cumOverpayments := 23000, yearsVal := (3 : Rat)/2, income := 3000, expenses := 1000, overpayment := 7700, availableCash := (62500 : Rat)/51, mortgagePayment := (39500 : Rat)/51 }, { balance := (3887500 : Rat)/51, savings := (317500 : Rat)/51, cumOverpayments := (1235500 : Rat)/51, yearsVal := (19 : Rat)/12, income := 3000, expenses := 1000, overpayment := (62500 : Rat)/51, availableCash := (62500 : Rat)/51, mortgagePayment := (39500 : Rat)/51 }, { balance := (3848000 : Rat)/51, savings := (380000 : Rat)/51, cumOverpayments := (1235500 : Rat)/51, yearsVal := (5 : Rat)/3, income := 3000, expenses := 1000, overpayment := 0, availableCash := (62500 : Rat)/51, mortgagePayment := (39500 : Rat)/51 }, { balance := (1269500 : Rat)/17, savings := (147500 : Rat)/17, cumOverpayments := (1235500 : Rat)/51, yearsVal := (7 : Rat)/4, income := 3000, expenses := 1000, overpayment := 0, availableCash := (62500 : Rat)/51, mortgagePayment := (39500 : Rat)/51 }, { balance := (3769000 : Rat)/51, savings := (505000 : Rat)/51, cumOverpayments := (1235500 : Rat)/51, yearsVal := (11 : Rat)/6, income := 3000, expenses := 1000, overpayment := 0, availableCash := (62500 : Rat)/51, mortgagePayment := (39500 : Rat)/51 }, { balance := (3729500 : Rat)/51, savings := (567500 : Rat)/51, cumOverpayments := (1235500 : Rat)/51, yearsVal := (23 : Rat)/12, income := 3000, expenses := 1000, overpayment := 0, availableCash := (62500 : Rat)/51, mortgagePayment := (39500 : Rat)/51 }], events := [{ month := 0, amount := 5000, tag := Mortgage.OverTag.annual 1 }, { month := 12, amount := 10300, tag := Mortgage.OverTag.annual 2 }, { month := 18, amount := 7700, tag := Mortgage.OverTag.endOfFixed 1 }, { month := 19, amount := (62500 : Rat)/51, tag := Mortgage.OverTag.annual 2 }] } := by
  rw [show (24:ℕ) = 23+1 from rfl, loopIter_succ, stateB_23]
  norm_num [simStep, monthBody, yearReset, applyGrowth, applyRule1, findEndIdx, rule1Sweep, rule1Update, rule2Sweep, rule3Annual, applySavings, rateLookup, buildSchedule, schedOf, initState, initialPayment, pmt, cfgB]

set_option maxHeartbeats 1000000 in
/-- The simulation state of cfgC after month 0. -/
theorem stateC_1 : loopIter cfgC 1 =
    { balance := (40940 : Rat)/819, payment := (10 : Rat)/819, savings := (1637990 : Rat)/819, income := 3000, expenses := 1000, totalInterest := -50, monthsToFree := none, yearlyLimit := 10, paidOff := false, madeThisYear := false, currentYear := 0, cumOverpayments := 0, records := [{ balance := (40940 : Rat)/819, savings := (1637990 : Rat)/819, cumOverpayments := 0, yearsVal := 0, income := 3000, expenses := 1000, overpayment := 0, availableCash := (1637990 : Rat)/819, mortgagePayment := (10 : Rat)/819 }], events := [] } := by
  rw [show (1:ℕ) = 0+1 from rfl, loopIter_succ, loopIter_zero]
  norm_num [simStep, monthBody, yearReset, applyGrowth, applyRule1, findEndIdx, rule1Sweep, rule1Update, rule2Sweep, rule3Annual, applySavings, rateLookup, buildSchedule, schedOf, initState, initialPayment, pmt, cfgC]

set_option maxHeartbeats 1000000 in
/-- The simulation state of cfgC after month 1. -/
theorem stateC_2 : loopIter cfgC 2 =
    { balance := (6820 : Rat)/273, payment := (10 : Rat)/819, savings := (3275980 : Rat)/819, income := 3000, expenses := 1000, totalInterest := (-61420 : Rat)/819, monthsToFree := none, yearlyLimit := 10, paidOff := false, madeThisYear := false, currentYear := 0, cumOverpayments := 0, records := [{ balance := (40940 : Rat)/819, savings := (1637990 : Rat)/819, cumOverpayments := 0, yearsVal := 0, income := 3000, expenses := 1000, overpayment := 0, availableCash := (1637990 : Rat)/819, mortgagePayment := (10 : Rat)/819 }, { balance := (6820 : Rat)/273, savings := (3275980 : Rat)/819, cumOverpayments := 0, yearsVal := (1 : Rat)/12, income := 3000, expenses := 1000, overpayment := 0, availableCash := (1637990 : Rat)/819, mortgagePayment := (10 : Rat)/819 }], events := [] } := by
  rw [show (2:ℕ) = 1+1 from rfl, loopIter_succ, stateC_1]
  norm_num [simStep, monthBody, yearReset, applyGrowth, applyRule1, findEndIdx, rule1Sweep, rule1Update, rule2Sweep, rule3Annual, applySavings, rateLookup, buildSchedule, schedOf, initState, initialPayment, pmt, cfgC]

set_option maxHeartbeats 1000000 in
/-- The simulation state of cfgC after month 2. -/
theorem stateC_3 : loopIter cfgC 3 =
    { balance := (1460 : Rat)/117, payment := (10 : Rat)/819, savings := (1637990 : Rat)/273, income := 3000, expenses := 1000, totalInterest := (-71650 : Rat)/819, monthsToFree := none, yearlyLimit := 10, paidOff := false, madeThisYear := false, currentYear := 0, cumOverpayments := 0, records := [{ balance := (40940 : Rat)/819, savings := (1637990 : Rat)/819, cumOverpayments := 0, yearsVal := 0, income := 3000, expenses := 1000, overpayment := 0, availableCash := (1637990 : Rat)/819, mortgagePayment := (10 : Rat)/819 }, { balance := (6820 : Rat)/273, savings := (3275980 : Rat)/819, cumOverpayments := 0, yearsVal := (1 : Rat)/12, income := 3000, expenses := 1000, overpayment := 0, availableCash := (1637990 : Rat)/819, mortgagePayment := (10 : Rat)/819 }, { balance := (1460 : Rat)/117, savings := (1637990 : Rat)/273, cumOverpayments := 0, yearsVal := (1 : Rat)/6, income := 3000, expenses := 1000, overpayment := 0, availableCash := (1637990 : Rat)/819, mortgagePayment := (10 : Rat)/819 }], events := [] } := by
  rw [show (3:ℕ) = 2+1 from rfl, loopIter_succ, stateC_2]
  norm_num [simStep, monthBody, yearReset, applyGrowth, applyRule1, findEndIdx, rule1Sweep, rule1Update, rule2Sweep, rule3Annual, applySavings, rateLookup, buildSchedule, schedOf, initState, initialPayment, pmt, cfgC]

set_option maxHeartbeats 1000000 in
/-- The simulation state of cfgC after month 3. -/
theorem stateC_4 : loopIter cfgC 4 =
    { balance := (1700 : Rat)/273, payment := (10 : Rat)/819, savings := (6551960 : Rat)/819, income := 3000, expenses := 1000, totalInterest := (-76760 : Rat)/819, monthsToFree := none, yearlyLimit := 10, paidOff := false, madeThisYear := false, currentYear := 0, cumOverpayments := 0, records := [{ balance := (40940 : Rat)/819, savings := (1637990 : Rat)/819, cumOverpayments := 0, yearsVal := 0, income := 3000, expenses := 1000, overpayment := 0, availableCash := (1637990 : Rat)/819, mortgagePayment := (10 : Rat)/819 }, { balance := (6820 : Rat)/273, savings := (3275980 : Rat)/819, cumOverpayments := 0, yearsVal := (1 : Rat)/12, income := 3000, expenses := 1000, overpayment := 0, availableCash := (1637990 : Rat)/819, mortgagePayment := (10 : Rat)/819 }, { balance := (1460 : Rat)/117, savings := (1637990 : Rat)/273, cumOverpayments := 0, yearsVal := (1 : Rat)/6, income := 3000, expenses := 1000, overpayment := 0, availableCash := (1637990 : Rat)/819, mortgagePayment := (10 : Rat)/819 }, { balance := (1700 : Rat)/273, savings := (6551960 : Rat)/819, cumOverpayments := 0, yearsVal := (1 : Rat)/4, income := 3000, expenses := 1000, overpayment := 0, availableCash := (1637990 : Rat)/819, mortgagePayment := (10 : Rat)/819 }], events := [] } := by
  rw [show (4:ℕ) = 3+1 from rfl, loopIter_succ, stateC_3]
  norm_num [simStep, monthBody, yearReset, applyGrowth, applyRule1, findEndIdx, rule1Sweep, rule1Update, rule2Sweep, rule3Annual, applySavings, rateLookup, buildSchedule, schedOf, initState, initialPayment, pmt, cfgC]

set_option maxHeartbeats 1000000 in
/-- The simulation state of cfgC after month 4. -/
theorem stateC_5 : loopIter cfgC 5 =
    { balance := (2540 : Rat)/819, payment := (10 : Rat)/819, savings := (8189950 : Rat)/819, income := 3000, expenses := 1000, totalInterest := (-11330 : Rat)/117, monthsToFree := none, yearlyLimit := 10, paidOff := false, madeThisYear := false, currentYear := 0, cumOverpayments := 0, records := [{ balance := (40940 : Rat)/819, savings := (1637990 : Rat)/819, cumOverpayments := 0, yearsVal := 0, income := 3000, expenses := 1000, overpayment := 0, availableCash := (1637990 : Rat)/819, mortgagePayment := (10 : Rat)/819 }, { balance := (6820 : Rat)/273, savings := (3275980 : Rat)/819, cumOverpayments := 0, yearsVal := (1 : Rat)/12, income := 3000, expenses := 1000, overpayment := 0, availableCash := (1637990 : Rat)/819, mortgagePayment := (10 : Rat)/819 }, { balance := (1460 : Rat)/117, savings := (1637990 : Rat)/273, cumOverpayments := 0, yearsVal := (1 : Rat)/6, income := 3000, expenses := 1000, overpayment := 0, availableCash := (1637990 : Rat)/819, mortgagePayment := (10 : Rat)/819 }, { balance := (1700 : Rat)/273, savings := (6551960 : Rat)/819, cumOverpayments := 0, yearsVal := (1 : Rat)/4, income := 3000, expenses := 1000, overpayment := 0, availableCash := (1637990 : Rat)/819, mortgagePayment := (10 : Rat)/819 }, { balance := (2540 : Rat)/819, savings := (8189950 : Rat)/819, cumOverpayments := 0, yearsVal := (1 : Rat)/3, income := 3000, expenses := 1000, overpayment := 0, availableCash := (1637990 : Rat)/819, mortgagePayment := (10 : Rat)/819 }], events := [] } := by
  rw [show (5:ℕ) = 4+1 from rfl, loopIter_succ, stateC_4]
  norm_num [simStep, monthBody, yearReset, applyGrowth, applyRule1, findEndIdx, rule1Sweep, rule1Update, rule2Sweep, rule3Annual, applySavings, rateLookup, buildSchedule, schedOf, initState, initialPayment, pmt, cfgC]

set_option maxHeartbeats 1000000 in
/-- The simulation state of cfgC after month 5. -/
theorem stateC_6 : loopIter cfgC 6 =
    { balance := (20 : Rat)/13, payment := (10 : Rat)/819, savings := (3275980 : Rat)/273, income := 3000, expenses := 1000, totalInterest := (-26860 : Rat)/273, monthsToFree := none, yearlyLimit := 10, paidOff := false, madeThisYear := false, currentYear := 0, cumOverpayments := 0, records := [{ balance := (40940 : Rat)/819, savings := (1637990 : Rat)/819, cumOverpayments := 0, yearsVal := 0, income := 3000, expenses := 1000, overpayment := 0, availableCash := (1637990 : Rat)/819, mortgagePayment := (10 : Rat)/819 }, { balance := (6820 : Rat)/273, savings := (3275980 : Rat)/819, cumOverpayments := 0, yearsVal := (1 : Rat)/12, income := 3000, expenses := 1000, overpayment := 0, availableCash := (1637990 : Rat)/819, mortgagePayment := (10 : Rat)/819 }, { balance := (1460 : Rat)/117, savings := (1637990 : Rat)/273, cumOverpayments := 0, yearsVal := (1 : Rat)/6, income := 3000, expenses := 1000, overpayment := 0, availableCash := (1637990 : Rat)/819, mortgagePayment := (10 : Rat)/819 }, { balance := (1700 : Rat)/273, savings := (6551960 : Rat)/819, cumOverpayments := 0, yearsVal := (1 : Rat)/4, income := 3000, expenses := 1000, overpayment := 0, availableCash := (1637990 : Rat)/819, mortgagePayment := (10 : Rat)/819 }, { balance := (2540 : Rat)/819, savings := (8189950 : Rat)/819, cumOverpayments := 0, yearsVal := (1 : Rat)/3, income := 3000, expenses := 1000, overpayment := 0, availableCash := (1637990 : Rat)/819, mortgagePayment := (10 : Rat)/819 }, { balance := (20 : Rat)/13, savings := (3275980 : Rat)/273, cumOverpayments := 0, yearsVal := (5 : Rat)/12, income := 3000, expenses := 1000, overpayment := 0, availableCash := (1637990 : Rat)/819, mortgagePayment := (10 : Rat)/819 }], events := [] } := by
  rw [show (6:ℕ) = 5+1 from rfl, loopIter_succ, stateC_5]
  norm_num [simStep, monthBody, yearReset, applyGrowth, applyRule1, findEndIdx, rule1Sweep, rule1Update, rule2Sweep, rule3Annual, applySavings, rateLookup, buildSchedule, schedOf, initState, initialPayment, pmt, cfgC]

set_option maxHeartbeats 1000000 in
/-- The simulation state of cfgC after month 6. -/
theorem stateC_7 : loopIter cfgC 7 =
    { balance := (620 : Rat)/819, payment := (10 : Rat)/819, savings := (1637990 : Rat)/117, income := 3000, expenses := 1000, totalInterest := (-27070 : Rat)/273, monthsToFree := none, yearlyLimit := 10, paidOff := false, madeThisYear := false, currentYear := 0, cumOverpayments := 0, records := [{ balance := (40940 : Rat)/819, savings := (1637990 : Rat)/819, cumOverpayments := 0, yearsVal := 0, income := 3000, expenses := 1000, overpayment := 0, availableCash := (1637990 : Rat)/819, mortgagePayment := (10 : Rat)/819 }, { balance := (6820 : Rat)/273, savings := (3275980 : Rat)/819, cumOverpayments := 0, yearsVal := (1 : Rat)/12, income := 3000, expenses := 1000, overpayment := 0, availableCash := (1637990 : Rat)/819, mortgagePayment := (10 : Rat)/819 }, { balance := (1460 : Rat)/117, savings := (1637990 : Rat)/273, cumOverpayments := 0, yearsVal := (1 : Rat)/6, income := 3000, expenses := 1000, overpayment := 0, availableCash := (1637990 : Rat)/819, mortgagePayment := (10 : Rat)/819 }, { balance := (1700 : Rat)/273, savings := (6551960 : Rat)/819, cumOverpayments := 0, yearsVal := (1 : Rat)/4, income := 3000, expenses := 1000, overpayment := 0, availableCash := (1637990 : Rat)/819, mortgagePayment := (10 : Rat)/819 }, { balance := (2540 : Rat)/819, savings := (8189950 : Rat)/819, cumOverpayments := 0, yearsVal := (1 : Rat)/3, income := 3000, expenses := 1000, overpayment := 0, availableCash := (1637990 : Rat)/819, mortgagePayment := (10 : Rat)/819 }, { balance := (20 : Rat)/13, savings := (3275980 : Rat)/273, cumOverpayments := 0, yearsVal := (5 : Rat)/12, income := 3000, expenses := 1000, overpayment := 0, availableCash := (1637990 : Rat)/819, mortgagePayment := (10 : Rat)/819 }, { balance := (620 : Rat)/819, savings := (1637990 : Rat)/117, cumOverpayments := 0, yearsVal := (1 : Rat)/2, income := 3000, expenses := 1000, overpayment := 0, availableCash := (1637990 : Rat)/819, mortgagePayment := (10 : Rat)/819 }], events := [] } := by
  rw [show (7:ℕ) = 6+1 from rfl, loopIter_succ, stateC_6]
  norm_num [simStep, monthBody, yearReset, applyGrowth, applyRule1, findEndIdx, rule1Sweep, rule1Update, rule2Sweep, rule3Annual, applySavings, rateLookup, buildSchedule, schedOf, initState, initialPayment, pmt, cfgC]

set_option maxHeartbeats 1000000 in
/-- The simulation state of cfgC after month 7. -/
theorem stateC_8 : loopIter cfgC 8 =
    { balance := (100 : Rat)/273, payment := (10 : Rat)/819, savings := (13103920 : Rat)/819, income := 3000, expenses := 1000, totalInterest := (-81520 : Rat)/819, monthsToFree := none, yearlyLimit := 10, paidOff := false, madeThisYear := false, currentYear := 0, cumOverpayments := 0, records := [{ balance := (40940 : Rat)/819, savings := (1637990 : Rat)/819, cumOverpayments := 0, yearsVal := 0, income := 3000, expenses := 1000, overpayment := 0, availableCash := (1637990 : Rat)/819, mortgagePayment := (10 : Rat)/819 }, { balance := (6820 : Rat)/273, savings := (3275980 : Rat)/819, cumOverpayments := 0, yearsVal := (1 : Rat)/12, income := 3000, expenses := 1000, overpayment := 0, availableCash := (1637990 : Rat)/819, mortgagePayment := (10 : Rat)/819 }, { balance := (1460 : Rat)/117, savings := (1637990 : Rat)/273, cumOverpayments := 0, yearsVal := (1 : Rat)/6, income := 3000, expenses := 1000, overpayment := 0, availableCash := (1637990 : Rat)/819, mortgagePayment := (10 : Rat)/819 }, { balance := (1700 : Rat)/273, savings := (6551960 : Rat)/819, cumOverpayments := 0, yearsVal := (1 : Rat)/4, income := 3000, expenses := 1000, overpayment := 0, availableCash := (1637990 : Rat)/819, mortgagePayment := (10 : Rat)/819 }, { balance := (2540 : Rat)/819, savings := (8189950 : Rat)/819, cumOverpayments := 0, yearsVal := (1 : Rat)/3, income := 3000, expenses := 1000, overpayment := 0, availableCash := (1637990 : Rat)/819, mortgagePayment := (10 : Rat)/819 }, { balance := (20 : Rat)/13, savings := (3275980 : Rat)/273, cumOverpayments := 0, yearsVal := (5 : Rat)/12, income := 3000, expenses := 1000, overpayment := 0, availableCash := (1637990 : Rat)/819, mortgagePayment := (10 : Rat)/819 }, { balance := (620 : Rat)/819, savings := (1637990 : Rat)/117, cumOverpayments := 0, yearsVal := (1 : Rat)/2, income := 3000, expenses := 1000, overpayment := 0, availableCash := (1637990 : Rat)/819, mortgagePayment := (10 : Rat)/819 }, { balance := (100 : Rat)/273, savings := (13103920 : Rat)/819, cumOverpayments := 0, yearsVal := (7 : Rat)/12, income := 3000, expenses := 1000, overpayment := 0, availableCash := (1637990 : Rat)/819, mortgagePayment := (10 : Rat)/819 }], events := [] } := by
  rw [show (8:ℕ) = 7+1 from rfl, loopIter_succ, stateC_7]
  norm_num [simStep, monthBody, yearReset, applyGrowth, applyRule1, findEndIdx, rule1Sweep, rule1Update, rule2Sweep, rule3Annual, applySavings, rateLookup, buildSchedule, schedOf, initState, initialPayment, pmt, cfgC]

set_option maxHeartbeats 1000000 in
/-- The simulation state of cfgC after month 8. -/
theorem stateC_9 : loopIter cfgC 9 =
    { balance := (20 : Rat)/117, payment := (10 : Rat)/819, savings := (1637990 : Rat)/91, income := 3000, expenses := 1000, totalInterest := (-81670 : Rat)/819, monthsToFree := none, yearlyLimit := 10, paidOff := false, madeThisYear := false, currentYear := 0, cumOverpayments := 0, records := [{ balance := (40940 : Rat)/819, savings := (1637990 : Rat)/819, cumOverpayments := 0, yearsVal := 0, income := 3000, expenses := 1000, overpayment := 0, availableCash := (1637990 : Rat)/819, mortgagePayment := (10 : Rat)/819 }, { balance := (6820 : Rat)/273, savings := (3275980 : Rat)/819, cumOverpayments := 0, yearsVal := (1 : Rat)/12, income := 3000, expenses := 1000, overpayment := 0, availableCash := (1637990 : Rat)/819, mortgagePayment := (10 : Rat)/819 }, { balance := (1460 : Rat)/117, savings := (1637990 : Rat)/273, cumOverpayments := 0, yearsVal := (1 : Rat)/6, income := 3000, expenses := 1000, overpayment := 0, availableCash := (1637990 : Rat)/819, mortgagePayment := (10 : Rat)/819 }, { balance := (1700 : Rat)/273, savings := (6551960 : Rat)/819, cumOverpayments := 0, yearsVal := (1 : Rat)/4, income := 3000, expenses := 1000, overpayment := 0, availableCash := (1637990 : Rat)/819, mortgagePayment := (10 : Rat)/819 }, { balance := (2540 : Rat)/819, savings := (8189950 : Rat)/819, cumOverpayments := 0, yearsVal := (1 : Rat)/3, income := 3000, expenses := 1000, overpayment := 0, availableCash := (1637990 : Rat)/819, mortgagePayment := (10 : Rat)/819 }, { balance := (20 : Rat)/13, savings := (3275980 : Rat)/273, cumOverpayments := 0, yearsVal := (5 : Rat)/12, income := 3000, expenses := 1000, overpayment := 0, availableCash := (1637990 : Rat)/819, mortgagePayment := (10 : Rat)/819 }, { balance := (620 : Rat)/819, savings := (1637990 : Rat)/117, cumOverpayments := 0, yearsVal := (1 : Rat)/2, income := 3000, expenses := 1000, overpayment := 0, availableCash := (1637990 : Rat)/819, mortgagePayment := (10 : Rat)/819 }, { balance := (100 : Rat)/273, savings := (13103920 : Rat)/819, cumOverpayments := 0, yearsVal := (7 : Rat)/12, income := 3000, expenses := 1000, overpayment := 0, availableCash := (1637990 : Rat)/819, mortgagePayment := (10 : Rat)/819 }, { balance := (20 : Rat)/117, savings := (1637990 : Rat)/91, cumOverpayments := 0, yearsVal := (2 : Rat)/3, income := 3000, expenses := 1000, overpayment := 0, availableCash := (1637990 : Rat)/819, mortgagePayment := (10 : Rat)/819 }], events := [] } := by
  rw [show (9:ℕ) = 8+1 from rfl, loopIter_succ, stateC_8]
  norm_num [simStep, monthBody, yearReset, applyGrowth, applyRule1, findEndIdx, rule1Sweep, rule1Update, rule2Sweep, rule3Annual, applySavings, rateLookup, buildSchedule, schedOf, initState, initialPayment, pmt, cfgC]

set_option maxHeartbeats 1000000 in
/-- The simulation state of cfgC after month 9. -/
theorem stateC_10 : loopIter cfgC 10 =
    { balance := (20 : Rat)/273, payment := (10 : Rat)/819, savings := (16379900 : Rat)/819, income := 3000, expenses := 1000, totalInterest := (-81740 : Rat)/819, monthsToFree := none, yearlyLimit := 10, paidOff := false, madeThisYear := false, currentYear := 0, cumOverpayments := 0, records := [{ balance := (40940 : Rat)/819, savings := (1637990 : Rat)/819, cumOverpayments := 0, yearsVal := 0, income := 3000, expenses := 1000, overpayment := 0, availableCash := (1637990 : Rat)/819, mortgagePayment := (10 : Rat)/819 }, { balance := (6820 : Rat)/273, savings := (3275980 : Rat)/819, cumOverpayments := 0, yearsVal := (1 : Rat)/12, income := 3000, expenses := 1000, overpayment := 0, availableCash := (1637990 : Rat)/819, mortgagePayment := (10 : Rat)/819 }, { balance := (1460 : Rat)/117, savings := (1637990 : Rat)/273, cumOverpayments := 0, yearsVal := (1 : Rat)/6, income := 3000, expenses := 1000, overpayment := 0, availableCash := (1637990 : Rat)/819, mortgagePayment := (10 : Rat)/819 }, { balance := (1700 : Rat)/273, savings := (6551960 : Rat)/819, cumOverpayments := 0, yearsVal := (1 : Rat)/4, income := 3000, expenses := 1000, overpayment := 0, availableCash := (1637990 : Rat)/819, mortgagePayment := (10 : Rat)/819 }, { balance := (2540 : Rat)/819, savings := (8189950 : Rat)/819, cumOverpayments := 0, yearsVal := (1 : Rat)/3, income := 3000, expenses := 1000, overpayment := 0, availableCash := (1637990 : Rat)/819, mortgagePayment := (10 : Rat)/819 }, { balance := (20 : Rat)/13, savings := (3275980 : Rat)/273, cumOverpayments := 0, yearsVal := (5 : Rat)/12, income := 3000, expenses := 1000, overpayment := 0, availableCash := (1637990 : Rat)/819, mortgagePayment := (10 : Rat)/819 }, { balance := (620 : Rat)/819, savings := (1637990 : Rat)/117, cumOverpayments := 0, yearsVal := (1 : Rat)/2, income := 3000, expenses := 1000, overpayment := 0, availableCash := (1637990 : Rat)/819, mortgagePayment := (10 : Rat)/819 }, { balance := (100 : Rat)/273, savings := (13103920 : Rat)/819, cumOverpayments := 0, yearsVal := (7 : Rat)/12, income := 3000, expenses := 1000, overpayment := 0, availableCash := (1637990 : Rat)/819, mortgagePayment := (10 : Rat)/819 }, { balance := (20 : Rat)/117, savings := (1637990 : Rat)/91, cumOverpayments := 0, yearsVal := (2 : Rat)/3, income := 3000, expenses := 1000, overpayment := 0, availableCash := (1637990 : Rat)/819, mortgagePayment := (10 : Rat)/819 }, { balance := (20 : Rat)/273, savings := (16379900 : Rat)/819, cumOverpayments := 0, yearsVal := (3 : Rat)/4, income := 3000, expenses := 1000, overpayment := 0, availableCash := (1637990 : Rat)/819, mortgagePayment := (10 : Rat)/819 }], events := [] } := by
  rw [show (10:ℕ) = 9+1 from rfl, loopIter_succ, stateC_9]
  norm_num [simStep, monthBody, yearReset, applyGrowth, applyRule1, findEndIdx, rule1Sweep, rule1Update, rule2Sweep, rule3Annual, applySavings, rateLookup, buildSchedule, schedOf, initState, initialPayment, pmt, cfgC]

set_option maxHeartbeats 1000000 in
/-- The simulation state of cfgC after month 10. -/
theorem stateC_11 : loopIter cfgC 11 =
    { balance := (20 : Rat)/819, payment := (10 : Rat)/819, savings := (18017890 : Rat)/819, income := 3000, expenses := 1000, totalInterest := (-6290 : Rat)/63, monthsToFree := none, yearlyLimit := 10, paidOff := false, madeThisYear := false, currentYear := 0, cumOverpayments := 0, records := [{ balance := (40940 : Rat)/819, savings := (1637990 : Rat)/819, cumOverpayments := 0, yearsVal := 0, income := 3000, expenses := 1000, overpayment := 0, availableCash := (1637990 : Rat)/819, mortgagePayment := (10 : Rat)/819 }, { balance := (6820 : Rat)/273, savings := (3275980 : Rat)/819, cumOverpayments := 0, yearsVal := (1 : Rat)/12, income := 3000, expenses := 1000, overpayment := 0, availableCash := (1637990 : Rat)/819, mortgagePayment := (10 : Rat)/819 }, { balance := (1460 : Rat)/117, savings := (1637990 : Rat)/273, cumOverpayments := 0, yearsVal := (1 : Rat)/6, income := 3000, expenses := 1000, overpayment := 0, availableCash := (1637990 : Rat)/819, mortgagePayment := (10 : Rat)/819 }, { balance := (1700 : Rat)/273, savings := (6551960 : Rat)/819, cumOverpayments := 0, yearsVal := (1 : Rat)/4, income := 3000, expenses := 1000, overpayment := 0, availableCash := (1637990 : Rat)/819, mortgagePayment := (10 : Rat)/819 }, { balance := (2540 : Rat)/819, savings := (8189950 : Rat)/819, cumOverpayments := 0, yearsVal := (1 : Rat)/3, income := 3000, expenses := 1000, overpayment := 0, availableCash := (1637990 : Rat)/819, mortgagePayment := (10 : Rat)/819 }, { balance := (20 : Rat)/13, savings := (3275980 : Rat)/273, cumOverpayments := 0, yearsVal := (5 : Rat)/12, income := 3000, expenses := 1000, overpayment := 0, availableCash := (1637990 : Rat)/819, mortgagePayment := (10 : Rat)/819 }, { balance := (620 : Rat)/819, savings := (1637990 : Rat)/117, cumOverpayments := 0, yearsVal := (1 : Rat)/2, income := 3000, expenses := 1000, overpayment := 0, availableCash := (1637990 : Rat)/819, mortgagePayment := (10 : Rat)/819 }, { balance := (100 : Rat)/273, savings := (13103920 : Rat)/819, cumOverpayments := 0, yearsVal := (7 : Rat)/12, income := 3000, expenses := 1000, overpayment := 0, availableCash := (1637990 : Rat)/819, mortgagePayment := (10 : Rat)/819 }, { balance := (20 : Rat)/117, savings := (1637990 : Rat)/91, cumOverpayments := 0, yearsVal := (2 : Rat)/3, income := 3000, expenses := 1000, overpayment := 0, availableCash := (1637990 : Rat)/819, mortgagePayment := (10 : Rat)/819 }, { balance := (20 : Rat)/273, savings := (16379900 : Rat)/819, cumOverpayments := 0, yearsVal := (3 : Rat)/4, income := 3000, expenses := 1000, overpayment := 0, availableCash := (1637990 : Rat)/819, mortgagePayment := (10 : Rat)/819 }, { balance := (20 : Rat)/819, savings := (18017890 : Rat)/819, cumOverpayments := 0, yearsVal := (5 : Rat)/6, income := 3000, expenses := 1000, overpayment := 0, availableCash := (1637990 : Rat)/819, mortgagePayment := (10 : Rat)/819 }], events := [] } := by
  rw [show (11:ℕ) = 10+1 from rfl, loopIter_succ, stateC_10]
  norm_num [simStep, monthBody, yearReset, applyGrowth, applyRule1, findEndIdx, rule1Sweep, rule1Update, rule2Sweep, rule3Annual, applySavings, rateLookup, buildSchedule, schedOf, initState, initialPayment, pmt, cfgC]

set_option maxHeartbeats 1000000 in
/-- The simulation state of cfgC after month 11. -/
theorem stateC_12 : loopIter cfgC 12 =
    { balance := 0, payment := (10 : Rat)/819, savings := (6551960 : Rat)/273, income := 3000, expenses := 1000, totalInterest := (-27260 : Rat)/273, monthsToFree := none, yearlyLimit := 10, paidOff := false, madeThisYear := false, currentYear := 0, cumOverpayments := 0, records := [{ balance := (40940 : Rat)/819, savings := (1637990 : Rat)/819, cumOverpayments := 0, yearsVal := 0, income := 3000, expenses := 1000, overpayment := 0, availableCash := (1637990 : Rat)/819, mortgagePayment := (10 : Rat)/819 }, { balance := (6820 : Rat)/273, savings := (3275980 : Rat)/819, cumOverpayments := 0, yearsVal := (1 : Rat)/12, income := 3000, expenses := 1000, overpayment := 0, availableCash := (1637990 : Rat)/819, mortgagePayment := (10 : Rat)/819 }, { balance := (1460 : Rat)/117, savings := (1637990 : Rat)/273, cumOverpayments := 0, yearsVal := (1 : Rat)/6, income := 3000, expenses := 1000, overpayment := 0, availableCash := (1637990 : Rat)/819, mortgagePayment := (10 : Rat)/819 }, { balance := (1700 : Rat)/273, savings := (6551960 : Rat)/819, cumOverpayments := 0, yearsVal := (1 : Rat)/4, income := 3000, expenses := 1000, overpayment := 0, availableCash := (1637990 : Rat)/819, mortgagePayment := (10 : Rat)/819 }, { balance := (2540 : Rat)/819, savings := (8189950 : Rat)/819, cumOverpayments := 0, yearsVal := (1 : Rat)/3, income := 3000, expenses := 1000, overpayment := 0, availableCash := (1637990 : Rat)/819, mortgagePayment := (10 : Rat)/819 }, { balance := (20 : Rat)/13, savings := (3275980 : Rat)/273, cumOverpayments := 0, yearsVal := (5 : Rat)/12, income := 3000, expenses := 1000, overpayment := 0, availableCash := (1637990 : Rat)/819, mortgagePayment := (10 : Rat)/819 }, { balance := (620 : Rat)/819, savings := (1637990 : Rat)/117, cumOverpayments := 0, yearsVal := (1 : Rat)/2, income := 3000, expenses := 1000, overpayment := 0, availableCash := (1637990 : Rat)/819, mortgagePayment := (10 : Rat)/819 }, { balance := (100 : Rat)/273, savings := (13103920 : Rat)/819, cumOverpayments := 0, yearsVal := (7 : Rat)/12, income := 3000, expenses := 1000, overpayment := 0, availableCash := (1637990 : Rat)/819, mortgagePayment := (10 : Rat)/819 }, { balance := (20 : Rat)/117, savings := (1637990 : Rat)/91, cumOverpayments := 0, yearsVal := (2 : Rat)/3, income := 3000, expenses := 1000, overpayment := 0, availableCash := (1637990 : Rat)/819, mortgagePayment := (10 : Rat)/819 }, { balance := (20 : Rat)/273, savings := (16379900 : Rat)/819, cumOverpayments := 0, yearsVal := (3 : Rat)/4, income := 3000, expenses := 1000, overpayment := 0, availableCash := (1637990 : Rat)/819, mortgagePayment := (10 : Rat)/819 }, { balance := (20 : Rat)/819, savings := (18017890 : Rat)/819, cumOverpayments := 0, yearsVal := (5 : Rat)/6, income := 3000, expenses := 1000, overpayment := 0, availableCash := (1637990 : Rat)/819, mortgagePayment := (10 : Rat)/819 }, { balance := 0, savings := (6551960 : Rat)/273, cumOverpayments := 0, yearsVal := (11 : Rat)/12, income := 3000, expenses := 1000, overpayment := 0, availableCash := (1637990 : Rat)/819, mortgagePayment := (10 : Rat)/819 }], events := [] } := by
  rw [show (12:ℕ) = 11+1 from rfl, loopIter_succ, stateC_11]
  norm_num [simStep, monthBody, yearReset, applyGrowth, applyRule1, findEndIdx, rule1Sweep, rule1Update, rule2Sweep, rule3Annual, applySavings, rateLookup, buildSchedule, schedOf, initState, initialPayment, pmt, cfgC]

/- ### Fields left untouched by each sub-step -/

@[simp] theorem yearReset_balance (m : ℕ) (st : SimState) :
    (yearReset m st).balance = st.balance := by
  simp only [yearReset]
  repeat' split
  all_goals rfl

@[simp] theorem yearReset_payment (m : ℕ) (st : SimState) :
    (yearReset m st).payment = st.payment := by
  simp only [yearReset]
  repeat' split
  all_goals rfl

@[simp] theorem yearReset_savings (m : ℕ) (st : SimState) :
    (yearReset m st).savings = st.savings := by
  simp only [yearReset]
  repeat' split
  all_goals rfl

@[simp] theorem yearReset_income (m : ℕ) (st : SimState) :
    (yearReset m st).income = st.income := by
  simp only [yearReset]
  repeat' split
  all_goals rfl

@[simp] theorem yearReset_expenses (m : ℕ) (st : SimState) :
    (yearReset m st).expenses = st.expenses := by
  simp only [yearReset]
  repeat' split
  all_goals rfl

@[simp] theorem yearReset_totalInterest (m : ℕ) (st : SimState) :
    (yearReset m st).totalInterest = st.totalInterest := by
  simp only [yearReset]
  repeat' split
  all_goals rfl

@[simp] theorem yearReset_monthsToFree (m : ℕ) (st : SimState) :
    (yearReset m st).monthsToFree = st.monthsToFree := by
  simp only [yearReset]
  repeat' split
  all_goals rfl

@[simp] theorem yearReset_paidOff (m : ℕ) (st : SimState) :
    (yearReset m st).paidOff = st.paidOff := by
  simp only [yearReset]
  repeat' split
  all_goals rfl

@[simp] theorem yearReset_cumOverpayments (m : ℕ) (st : SimState) :
    (yearReset m st).cumOverpayments = st.cumOverpayments := by
  simp only [yearReset]
  repeat' split
  all_goals rfl

@[simp] theorem yearReset_records (m : ℕ) (st : SimState) :
    (yearReset m st).records = st.records := by
  simp only [yearReset]
  repeat' split
  all_goals rfl

@[simp] theorem yearReset_events (m : ℕ) (st : SimState) :
    (yearReset m st).events = st.events := by
  simp only [yearReset]
  repeat' split
  all_goals rfl

@[simp] theorem applyGrowth_balance (cfg : SimConfig) (m : ℕ) (st : SimState) :
    (applyGrowth cfg m st).balance = st.balance := by
  simp only [applyGrowth]
  repeat' split
  all_goals rfl

@[simp] theorem applyGrowth_payment (cfg : SimConfig) (m : ℕ) (st : SimState) :
    (applyGrowth cfg m st).payment = st.payment := by
  simp only [applyGrowth]
  repeat' split
  all_goals rfl

@[simp] theorem applyGrowth_savings (cfg : SimConfig) (m : ℕ) (st : SimState) :
    (applyGrowth cfg m st).savings = st.savings := by
  simp only [applyGrowth]
  repeat' split
  all_goals rfl

@[simp] theorem applyGrowth_totalInterest (cfg : SimConfig) (m : ℕ) (st : SimState) :
    (applyGrowth cfg m st).totalInterest = st.totalInterest := by
  simp only [applyGrowth]
  repeat' split
  all_goals rfl

@[simp] theorem applyGrowth_monthsToFree (cfg : SimConfig) (m : ℕ) (st : SimState) :
    (applyGrowth cfg m st).monthsToFree = st.monthsToFree := by
  simp only [applyGrowth]
  repeat' split
  all_goals rfl

@[simp] theorem applyGrowth_yearlyLimit (cfg : SimConfig) (m : ℕ) (st : SimState) :
    (applyGrowth cfg m st).yearlyLimit = st.yearlyLimit := by
  simp only [applyGrowth]
  repeat' split
  all_goals rfl

@[simp] theorem applyGrowth_paidOff (cfg : SimConfig) (m : ℕ) (st : SimState) :
    (applyGrowth cfg m st).paidOff = st.paidOff := by
  simp only [applyGrowth]
  repeat' split
  all_goals rfl

@[simp] theorem applyGrowth_madeThisYear (cfg : SimConfig) (m : ℕ) (st : SimState) :
    (applyGrowth cfg m st).madeThisYear = st.madeThisYear := by
  simp only [applyGrowth]
  repeat' split
  all_goals rfl

@[simp] theorem applyGrowth_currentYear (cfg : SimConfig) (m : ℕ) (st : SimState) :
    (applyGrowth cfg m st).currentYear = st.currentYear := by
  simp only [applyGrowth]
  repeat' split
  all_goals rfl

@[simp] theorem applyGrowth_cumOverpayments (cfg : SimConfig) (m : ℕ) (st : SimState) :
    (applyGrowth cfg m st).cumOverpayments = st.cumOverpayments := by
  simp only [applyGrowth]
  repeat' split
  all_goals rfl

@[simp] theorem applyGrowth_records (cfg : SimConfig) (m : ℕ) (st : SimState) :
    (applyGrowth cfg m st).records = st.records := by
  simp only [applyGrowth]
  repeat' split
  all_goals rfl

@[simp] theorem applyGrowth_events (cfg : SimConfig) (m : ℕ) (st : SimState) :
    (applyGrowth cfg m st).events = st.events := by
  simp only [applyGrowth]
  repeat' split
  all_goals rfl

@[simp] theorem rule1Sweep_payment (cfg : SimConfig) (idx m : ℕ) (st : SimState) :
    (rule1Sweep cfg idx m st).payment = st.payment := by
  simp only [rule1Sweep]
  repeat' split
  all_goals rfl

@[simp] theorem rule1Sweep_income (cfg : SimConfig) (idx m : ℕ) (st : SimState) :
    (rule1Sweep cfg idx m st).income = st.income := by
  simp only [rule1Sweep]
  repeat' split
  all_goals rfl

@[simp] theorem rule1Sweep_expenses (cfg : SimConfig) (idx m : ℕ) (st : SimState) :
    (rule1Sweep cfg idx m st).expenses = st.expenses := by
  simp only [rule1Sweep]
  repeat' split
  all_goals rfl

@[simp] theorem rule1Sweep_totalInterest (cfg : SimConfig) (idx m : ℕ) (st : SimState) :
    (rule1Sweep cfg idx m st).totalInterest = st.totalInterest := by
  simp only [rule1Sweep]
  repeat' split
  all_goals rfl

@[simp] theorem rule1Sweep_monthsToFree (cfg : SimConfig) (idx m : ℕ) (st : SimState) :
    (rule1Sweep cfg idx m st).monthsToFree = st.monthsToFree := by
  simp only [rule1Sweep]
  repeat' split
  all_goals rfl

@[simp] theorem rule1Sweep_yearlyLimit (cfg : SimConfig) (idx m : ℕ) (st : SimState) :
    (rule1Sweep cfg idx m st).yearlyLimit = st.yearlyLimit := by
  simp only [rule1Sweep]
  repeat' split
  all_goals rfl

@[simp] theorem rule1Sweep_paidOff (cfg : SimConfig) (idx m : ℕ) (st : SimState) :
    (rule1Sweep cfg idx m st).paidOff = st.paidOff := by
  simp only [rule1Sweep]
  repeat' split
  all_goals rfl

@[simp] theorem rule1Sweep_currentYear (cfg : SimConfig) (idx m : ℕ) (st : SimState) :
    (rule1Sweep cfg idx m st).currentYear = st.currentYear := by
  simp only [rule1Sweep]
  repeat' split
  all_goals rfl

@[simp] theorem rule1Sweep_records (cfg : SimConfig) (idx m : ℕ) (st : SimState) :
    (rule1Sweep cfg idx m st).records = st.records := by
  simp only [rule1Sweep]
  repeat' split
  all_goals rfl

@[simp] theorem rule1Update_balance (cfg : SimConfig) (sched : List (ℕ × ℕ × ℚ)) (m : ℕ) (st : SimState) :
    (rule1Update cfg sched m st).balance = st.balance := by
  simp only [rule1Update]
  repeat' split
  all_goals rfl

@[simp] theorem rule1Update_savings (cfg : SimConfig) (sched : List (ℕ × ℕ × ℚ)) (m : ℕ) (st : SimState) :
    (rule1Update cfg sched m st).savings = st.savings := by
  simp only [rule1Update]
  repeat' split
  all_goals rfl

@[simp] theorem rule1Update_income (cfg : SimConfig) (sched : List (ℕ × ℕ × ℚ)) (m : ℕ) (st : SimState) :
    (rule1Update cfg sched m st).income = st.income := by
  simp only [rule1Update]
  repeat' split
  all_goals rfl

@[simp] theorem rule1Update_expenses (cfg : SimConfig) (sched : List (ℕ × ℕ × ℚ)) (m : ℕ) (st : SimState) :
    (rule1Update cfg sched m st).expenses = st.expenses := by
  simp only [rule1Update]
  repeat' split
  all_goals rfl

@[simp] theorem rule1Update_totalInterest (cfg : SimConfig) (sched : List (ℕ × ℕ × ℚ)) (m : ℕ) (st : SimState) :
    (rule1Update cfg sched m st).totalInterest = st.totalInterest := by
  simp only [rule1Update]
  repeat' split
  all_goals rfl

@[simp] theorem rule1Update_monthsToFree (cfg : SimConfig) (sched : List (ℕ × ℕ × ℚ)) (m : ℕ) (st : SimState) :
    (rule1Update cfg sched m st).monthsToFree = st.monthsToFree := by
  simp only [rule1Update]
  repeat' split
  all_goals rfl

@[simp] theorem rule1Update_yearlyLimit (cfg : SimConfig) (sched : List (ℕ × ℕ × ℚ)) (m : ℕ) (st : SimState) :
    (rule1Update cfg sched m st).yearlyLimit = st.yearlyLimit := by
  simp only [rule1Update]
  repeat' split
  all_goals rfl

@[simp] theorem rule1Update_paidOff (cfg : SimConfig) (sched : List (ℕ × ℕ × ℚ)) (m : ℕ) (st : SimState) :
    (rule1Update cfg sched m st).paidOff = st.paidOff := by
  simp only [rule1Update]
  repeat' split
  all_goals rfl

@[simp] theorem rule1Update_madeThisYear (cfg : SimConfig) (sched : List (ℕ × ℕ × ℚ)) (m : ℕ) (st : SimState) :
    (rule1Update cfg sched m st).madeThisYear = st.madeThisYear := by
  simp only [rule1Update]
  repeat' split
  all_goals rfl

@[simp] theorem rule1Update_currentYear (cfg : SimConfig) (sched : List (ℕ × ℕ × ℚ)) (m : ℕ) (st : SimState) :
    (rule1Update cfg sched m st).currentYear = st.currentYear := by
  simp only [rule1Update]
  repeat' split
  all_goals rfl

@[simp] theorem rule1Update_cumOverpayments (cfg : SimConfig) (sched : List (ℕ × ℕ × ℚ)) (m : ℕ) (st : SimState) :
    (rule1Update cfg sched m st).cumOverpayments = st.cumOverpayments := by
  simp only [rule1Update]
  repeat' split
  all_goals rfl

@[simp] theorem rule1Update_records (cfg : SimConfig) (sched : List (ℕ × ℕ × ℚ)) (m : ℕ) (st : SimState) :
    (rule1Update cfg sched m st).records = st.records := by
  simp only [rule1Update]
  repeat' split
  all_goals rfl

@[simp] theorem rule1Update_events (cfg : SimConfig) (sched : List (ℕ × ℕ × ℚ)) (m : ℕ) (st : SimState) :
    (rule1Update cfg sched m st).events = st.events := by
  simp only [rule1Update]
  repeat' split
  all_goals rfl

@[simp] theorem rule2Sweep_payment (cfg : SimConfig) (sched : List (ℕ × ℕ × ℚ)) (m : ℕ) (st : SimState) :
    (rule2Sweep cfg sched m st).payment = st.payment := by
  simp only [rule2Sweep]
  repeat' split
  all_goals rfl

@[simp] theorem rule2Sweep_income (cfg : SimConfig) (sched : List (ℕ × ℕ × ℚ)) (m : ℕ) (st : SimState) :
    (rule2Sweep cfg sched m st).income = st.income := by
  simp only [rule2Sweep]
  repeat' split
  all_goals rfl

@[simp] theorem rule2Sweep_expenses (cfg : SimConfig) (sched : List (ℕ × ℕ × ℚ)) (m : ℕ) (st : SimState) :
    (rule2Sweep cfg sched m st).expenses = st.expenses := by
  simp only [rule2Sweep]
  repeat' split
  all_goals rfl

@[simp] theorem rule2Sweep_totalInterest (cfg : SimConfig) (sched : List (ℕ × ℕ × ℚ)) (m : ℕ) (st : SimState) :
    (rule2Sweep cfg sched m st).totalInterest = st.totalInterest := by
  simp only [rule2Sweep]
  repeat' split
  all_goals rfl

@[simp] theorem rule2Sweep_monthsToFree (cfg : SimConfig) (sched : List (ℕ × ℕ × ℚ)) (m : ℕ) (st : SimState) :
    (rule2Sweep cfg sched m st).monthsToFree = st.monthsToFree := by
  simp only [rule2Sweep]
  repeat' split
  all_goals rfl

@[simp] theorem rule2Sweep_yearlyLimit (cfg : SimConfig) (sched : List (ℕ × ℕ × ℚ)) (m : ℕ) (st : SimState) :
    (rule2Sweep cfg sched m st).yearlyLimit = st.yearlyLimit := by
  simp only [rule2Sweep]
  repeat' split
  all_goals rfl

@[simp] theorem rule2Sweep_paidOff (cfg : SimConfig) (sched : List (ℕ × ℕ × ℚ)) (m : ℕ) (st : SimState) :
    (rule2Sweep cfg sched m st).paidOff = st.paidOff := by
  simp only [rule2Sweep]
  repeat' split
  all_goals rfl

@[simp] theorem rule2Sweep_madeThisYear (cfg : SimConfig) (sched : List (ℕ × ℕ × ℚ)) (m : ℕ) (st : SimState) :
    (rule2Sweep cfg sched m st).madeThisYear = st.madeThisYear := by
  simp only [rule2Sweep]
  repeat' split
  all_goals rfl

@[simp] theorem rule2Sweep_currentYear (cfg : SimConfig) (sched : List (ℕ × ℕ × ℚ)) (m : ℕ) (st : SimState) :
    (rule2Sweep cfg sched m st).currentYear = st.currentYear := by
  simp only [rule2Sweep]
  repeat' split
  all_goals rfl

@[simp] theorem rule2Sweep_records (cfg : SimConfig) (sched : List (ℕ × ℕ × ℚ)) (m : ℕ) (st : SimState) :
    (rule2Sweep cfg sched m st).records = st.records := by
  simp only [rule2Sweep]
  repeat' split
  all_goals rfl

@[simp] theorem rule3Annual_payment (cfg : SimConfig) (m : ℕ) (st : SimState) :
    (rule3Annual cfg m st).payment = st.payment := by
  simp only [rule3Annual]
  repeat' split
  all_goals rfl

@[simp] theorem rule3Annual_income (cfg : SimConfig) (m : ℕ) (st : SimState) :
    (rule3Annual cfg m st).income = st.income := by
  simp only [rule3Annual]
  repeat' split
  all_goals rfl

@[simp] theorem rule3Annual_expenses (cfg : SimConfig) (m : ℕ) (st : SimState) :
    (rule3Annual cfg m st).expenses = st.expenses := by
  simp only [rule3Annual]
  repeat' split
  all_goals rfl

@[simp] theorem rule3Annual_totalInterest (cfg : SimConfig) (m : ℕ) (st : SimState) :
    (rule3Annual cfg m st).totalInterest = st.totalInterest := by
  simp only [rule3Annual]
  repeat' split
  all_goals rfl

@[simp] theorem rule3Annual_monthsToFree (cfg : SimConfig) (m : ℕ) (st : SimState) :
    (rule3Annual cfg m st).monthsToFree = st.monthsToFree := by
  simp only [rule3Annual]
  repeat' split
  all_goals rfl

@[simp] theorem rule3Annual_yearlyLimit (cfg : SimConfig) (m : ℕ) (st : SimState) :
    (rule3Annual cfg m st).yearlyLimit = st.yearlyLimit := by
  simp only [rule3Annual]
  repeat' split
  all_goals rfl

@[simp] theorem rule3Annual_paidOff (cfg : SimConfig) (m : ℕ) (st : SimState) :
    (rule3Annual cfg m st).paidOff = st.paidOff := by
  simp only [rule3Annual]
  repeat' split
  all_goals rfl

@[simp] theorem rule3Annual_currentYear (cfg : SimConfig) (m : ℕ) (st : SimState) :
    (rule3Annual cfg m st).currentYear = st.currentYear := by
  simp only [rule3Annual]
  repeat' split
  all_goals rfl

@[simp] theorem rule3Annual_records (cfg : SimConfig) (m : ℕ) (st : SimState) :
    (rule3Annual cfg m st).records = st.records := by
  simp only [rule3Annual]
  repeat' split
  all_goals rfl

/- ### Fire/no-fire case descriptions of the three rules -/

/-- Rule 1 either leaves the state unchanged or performs the described sweep. -/
theorem rule1Sweep_eq_or (cfg : SimConfig) (idx m : ℕ) (st : SimState) :
    rule1Sweep cfg idx m st = st ∨
    (cfg.emergency_buffer < st.savings ∧
      rule1Sweep cfg idx m st =
        { st with
          balance := st.balance - min (st.savings - cfg.emergency_buffer) st.balance
          savings := st.savings - min (st.savings - cfg.emergency_buffer) st.balance
          cumOverpayments := st.cumOverpayments +
            min (st.savings - cfg.emergency_buffer) st.balance
          madeThisYear := false
          events := st.events ++
            [⟨m, min (st.savings - cfg.emergency_buffer) st.balance,
              .endOfFixed (idx + 1)⟩] }) := by
  by_cases h : (0 : ℚ) < max 0 (st.savings - cfg.emergency_buffer)
  · have hpos : (0 : ℚ) < st.savings - cfg.emergency_buffer := by
      rcases lt_max_iff.mp h with h' | h'
      · exact absurd h' (lt_irrefl 0)
      · exact h'
    right
    refine ⟨by linarith, ?_⟩
    simp only [rule1Sweep, max_eq_right hpos.le, if_pos hpos]
  · left
    simp only [rule1Sweep, if_neg h]

/-- Rule 2 either leaves the state unchanged or performs the described sweep. -/
theorem rule2Sweep_eq_or (cfg : SimConfig) (sched : List (ℕ × ℕ × ℚ)) (m : ℕ)
    (st : SimState) :
    rule2Sweep cfg sched m st = st ∨
    (cfg.min_overpayment_threshold ≤ max 0 (st.savings - cfg.emergency_buffer) ∧
      rule2Sweep cfg sched m st =
        { st with
          balance := st.balance -
            min (max 0 (st.savings - cfg.emergency_buffer)) st.balance
          savings := st.savings -
            min (max 0 (st.savings - cfg.emergency_buffer)) st.balance
          cumOverpayments := st.cumOverpayments +
            min (max 0 (st.savings - cfg.emergency_buffer)) st.balance
          events := st.events ++
            [⟨m, min (max 0 (st.savings - cfg.emergency_buffer)) st.balance,
              .variableRate⟩] }) := by
  unfold rule2Sweep
  cases h : sched.getLast? with
  | none => exact Or.inl rfl
  | some p =>
    obtain ⟨s0, lastEnd, r0⟩ := p
    by_cases hm : lastEnd < m
    · by_cases hth : cfg.min_overpayment_threshold ≤ max 0 (st.savings - cfg.emergency_buffer)
      · right
        exact ⟨hth, by simp only [if_pos hm, if_pos hth]⟩
      · left
        simp only [if_pos hm, if_neg hth]
    · left
      simp only [if_neg hm]

/-- Rule 3 either leaves the state unchanged or performs the described
annual overpayment. -/
theorem rule3Annual_eq_or (cfg : SimConfig) (m : ℕ) (st : SimState) :
    rule3Annual cfg m st = st ∨
    (st.madeThisYear = false ∧ cfg.emergency_buffer < st.savings ∧
      cfg.min_overpayment_threshold ≤ st.savings - cfg.emergency_buffer ∧
      0 < min (st.savings - cfg.emergency_buffer) (min st.yearlyLimit st.balance) ∧
      rule3Annual cfg m st =
        { st with
          balance := st.balance -
            min (st.savings - cfg.emergency_buffer) (min st.yearlyLimit st.balance)
          savings := st.savings -
            min (st.savings - cfg.emergency_buffer) (min st.yearlyLimit st.balance)
          cumOverpayments := st.cumOverpayments +
            min (st.savings - cfg.emergency_buffer) (min st.yearlyLimit st.balance)
          madeThisYear := true
          events := st.events ++
            [⟨m, min (st.savings - cfg.emergency_buffer) (min st.yearlyLimit st.balance),
              .annual (st.currentYear + 1)⟩] }) := by
  unfold rule3Annual
  by_cases hg : st.madeThisYear = false ∧ cfg.emergency_buffer < st.savings
  · by_cases hth : cfg.min_overpayment_threshold ≤ st.savings - cfg.emergency_buffer
    · by_cases hpot : (0 : ℚ) <
        min (st.savings - cfg.emergency_buffer) (min st.yearlyLimit st.balance)
      · right
        exact ⟨hg.1, hg.2, hth, hpot, by simp only [if_pos hg, if_pos hth, if_pos hpot]⟩
      · left
        simp only [if_pos hg, if_pos hth, if_neg hpot]
    · left
      simp only [if_pos hg, if_neg hth]
  · left
    simp only [if_neg hg]

/-- Rule 1 dispatch when no fixed period ends at this month. -/
theorem applyRule1_none (cfg : SimConfig) (sched : List (ℕ × ℕ × ℚ)) (m : ℕ)
    (st : SimState) (h : findEndIdx sched m = none) :
    applyRule1 cfg sched m st = (st, false) := by
  simp [applyRule1, h]

/-- Rule 1 dispatch when the fixed period of index idx ends at this month. -/
theorem applyRule1_some (cfg : SimConfig) (sched : List (ℕ × ℕ × ℚ)) (m : ℕ)
    (st : SimState) (idx : ℕ) (h : findEndIdx sched m = some idx) :
    applyRule1 cfg sched m st =
      (rule1Update cfg sched m (rule1Sweep cfg idx m st), true) := by
  simp [applyRule1, h]

/- ### Savings lower-bound lemmas -/

/-- Arithmetic helper: sweeping max 0 (a - b) from a leaves min a b. -/
theorem sub_max_zero_sub (a b : ℚ) : a - max 0 (a - b) = min a b := by
  rcases le_total a b with h | h
  · rw [max_eq_left (by linarith), min_eq_left h]; ring
  · rw [max_eq_right (by linarith), min_eq_right h]; ring

/-- Rule 1 never takes savings below min(savings, emergency buffer). -/
theorem rule1Sweep_savings_ge (cfg : SimConfig) (idx m : ℕ) (st : SimState) :
    min st.savings cfg.emergency_buffer ≤ (rule1Sweep cfg idx m st).savings := by
  rcases rule1Sweep_eq_or cfg idx m st with h | ⟨hs, h⟩
  · rw [h]; exact min_le_left _ _
  · rw [h]
    have h1 : min (st.savings - cfg.emergency_buffer) st.balance ≤
        st.savings - cfg.emergency_buffer := min_le_left _ _
    have h2 : cfg.emergency_buffer ≤
        st.savings - min (st.savings - cfg.emergency_buffer) st.balance := by linarith
    exact le_trans (min_le_right _ _) h2

/-- Rule 2 never takes savings below min(savings, emergency buffer). -/
theorem rule2Sweep_savings_ge (cfg : SimConfig) (sched : List (ℕ × ℕ × ℚ)) (m : ℕ)
    (st : SimState) :
    min st.savings cfg.emergency_buffer ≤ (rule2Sweep cfg sched m st).savings := by
  rcases rule2Sweep_eq_or cfg sched m st with h | ⟨hth, h⟩
  · rw [h]; exact min_le_left _ _
  · rw [h]
    have h1 : min (max 0 (st.savings - cfg.emergency_buffer)) st.balance ≤
        max 0 (st.savings - cfg.emergency_buffer) := min_le_left _ _
    have h2 : st.savings - max 0 (st.savings - cfg.emergency_buffer) =
        min st.savings cfg.emergency_buffer := sub_max_zero_sub _ _
    have h3 : min st.savings cfg.emergency_buffer ≤
        st.savings - min (max 0 (st.savings - cfg.emergency_buffer)) st.balance := by
      rw [← h2]; linarith
    exact h3

/-- Rule 3 never takes savings below min(savings, emergency buffer). -/
theorem rule3Annual_savings_ge (cfg : SimConfig) (m : ℕ) (st : SimState) :
    min st.savings cfg.emergency_buffer ≤ (rule3Annual cfg m st).savings := by
  rcases rule3Annual_eq_or cfg m st with h | ⟨_, _, _, _, h⟩
  · rw [h]; exact min_le_left _ _
  · rw [h]
    have h1 : min (st.savings - cfg.emergency_buffer) (min st.yearlyLimit st.balance) ≤
        st.savings - cfg.emergency_buffer := min_le_left _ _
    have h2 : cfg.emergency_buffer ≤ st.savings -
        min (st.savings - cfg.emergency_buffer) (min st.yearlyLimit st.balance) := by
      linarith
    exact le_trans (min_le_right _ _) h2

/-- Rule 1 dispatch never takes savings below min(savings, buffer). -/
theorem applyRule1_savings_ge (cfg : SimConfig) (sched : List (ℕ × ℕ × ℚ)) (m : ℕ)
    (st : SimState) :
    min st.savings cfg.emergency_buffer ≤ (applyRule1 cfg sched m st).1.savings := by
  cases hfi : findEndIdx sched m with
  | none => rw [applyRule1_none cfg sched m st hfi]; exact min_le_left _ _
  | some idx =>
    rw [applyRule1_some cfg sched m st idx hfi]
    simpa using rule1Sweep_savings_ge cfg idx m st

/-- The accrual step preserves nonnegative savings when the savings rate is
nonnegative and the tax rate is at most 1. -/
theorem applySavings_nonneg (cfg : SimConfig) (hr : 0 ≤ cfg.savings_rate)
    (ht : cfg.savings_tax_rate ≤ 1) (s a : ℚ) (hs : 0 ≤ s) :
    0 ≤ applySavings cfg s a := by
  unfold applySavings
  split
  · have h1 : 0 ≤ s * (cfg.savings_rate / 12) * (1 - cfg.savings_tax_rate) := by
      apply mul_nonneg (mul_nonneg hs (by linarith)) (by linarith)
    linarith
  · exact hs

/-- The loop body keeps savings (current and recorded) nonnegative. -/
theorem monthBody_savings_inv (cfg : SimConfig) (sched : List (ℕ × ℕ × ℚ)) (m : ℕ)
    (st : SimState) (hb : 0 ≤ cfg.emergency_buffer)
    (hr : 0 ≤ cfg.savings_rate) (ht : cfg.savings_tax_rate ≤ 1)
    (hs : 0 ≤ st.savings) (hrec : ∀ r ∈ st.records, 0 ≤ r.savings) :
    0 ≤ (monthBody cfg sched m st).savings ∧
    ∀ r ∈ (monthBody cfg sched m st).records, 0 ≤ r.savings := by
  have hmin : 0 ≤ min st.savings cfg.emergency_buffer := le_min hs hb
  simp only [monthBody]
  set st2 := applyGrowth cfg m (yearReset m st) with hst2
  have h2s : st2.savings = st.savings := by rw [hst2]; simp
  have h2r : st2.records = st.records := by rw [hst2]; simp
  set p := applyRule1 cfg sched m st2 with hp
  have h3s : 0 ≤ p.1.savings := by
    rw [hp]
    refine le_trans ?_ (applyRule1_savings_ge cfg sched m st2)
    rw [h2s]; exact hmin
  have h3r : p.1.records = st.records := by
    rw [hp]
    cases hfi : findEndIdx sched m with
    | none => rw [applyRule1_none cfg sched m st2 hfi]; exact h2r
    | some idx =>
      rw [applyRule1_some cfg sched m st2 idx hfi]
      simp [h2r]
  set st4 := if p.2 then p.1 else rule2Sweep cfg sched m p.1 with hst4
  have h4s : 0 ≤ st4.savings := by
    rw [hst4]
    cases hq : p.2
    · simp only [Bool.false_eq_true, if_false]
      refine le_trans ?_ (rule2Sweep_savings_ge cfg sched m p.1)
      exact le_min h3s hb
    · simpa using h3s
  have h4r : st4.records = st.records := by
    rw [hst4]
    cases hq : p.2
    · simp only [Bool.false_eq_true, if_false]
      simp [h3r]
    · simpa using h3r
  constructor
  · exact applySavings_nonneg cfg hr ht _ _
      (le_trans (le_min h4s hb) (rule3Annual_savings_ge cfg m _))
  · intro r hrmem
    simp only [rule3Annual_records, h4r, List.mem_append, List.mem_singleton] at hrmem
    rcases hrmem with hrmem | hrmem
    · exact hrec r hrmem
    · subst hrmem
      exact applySavings_nonneg cfg hr ht _ _
        (le_trans (le_min h4s hb) (rule3Annual_savings_ge cfg m _))


/-- If the end-of-fixed-period sweep fires, savings stay at or above the
emergency buffer. -/
theorem rule1Sweep_fired (cfg : SimConfig) (idx m : ℕ) (st : SimState)
    (h : (rule1Sweep cfg idx m st).events ≠ st.events) :
    cfg.emergency_buffer ≤ (rule1Sweep cfg idx m st).savings := by
  rcases rule1Sweep_eq_or cfg idx m st with heq | ⟨hs, heq⟩
  · exact absurd (by rw [heq]) h
  · rw [heq]
    have h1 : min (st.savings - cfg.emergency_buffer) st.balance ≤
        st.savings - cfg.emergency_buffer := min_le_left _ _
    show cfg.emergency_buffer ≤
        st.savings - min (st.savings - cfg.emergency_buffer) st.balance
    linarith

/-- If the variable-period sweep fires (with a positive threshold),
savings stay at or above the emergency buffer. -/
theorem rule2Sweep_fired (cfg : SimConfig) (sched : List (ℕ × ℕ × ℚ)) (m : ℕ)
    (st : SimState) (hth : 0 < cfg.min_overpayment_threshold)
    (h : (rule2Sweep cfg sched m st).events ≠ st.events) :
    cfg.emergency_buffer ≤ (rule2Sweep cfg sched m st).savings := by
  rcases rule2Sweep_eq_or cfg sched m st with heq | ⟨hth2, heq⟩
  · exact absurd (by rw [heq]) h
  · rw [heq]
    have hpos : (0 : ℚ) < max 0 (st.savings - cfg.emergency_buffer) :=
      lt_of_lt_of_le hth hth2
    have hx : (0 : ℚ) < st.savings - cfg.emergency_buffer := by
      rcases lt_max_iff.mp hpos with h' | h'
      · exact absurd h' (lt_irrefl 0)
      · exact h'
    have hmax : max 0 (st.savings - cfg.emergency_buffer) =
        st.savings - cfg.emergency_buffer := max_eq_right hx.le
    have h1 : min (max 0 (st.savings - cfg.emergency_buffer)) st.balance ≤
        max 0 (st.savings - cfg.emergency_buffer) := min_le_left _ _
    show cfg.emergency_buffer ≤
        st.savings - min (max 0 (st.savings - cfg.emergency_buffer)) st.balance
    rw [hmax] at h1 ⊢
    linarith

/-- If the annual-allowance overpayment fires, savings stay at or above
the emergency buffer. -/
theorem rule3Annual_fired (cfg : SimConfig) (m : ℕ) (st : SimState)
    (h : (rule3Annual cfg m st).events ≠ st.events) :
    cfg.emergency_buffer ≤ (rule3Annual cfg m st).savings := by
  rcases rule3Annual_eq_or cfg m st with heq | ⟨_, _, _, _, heq⟩
  · exact absurd (by rw [heq]) h
  · rw [heq]
    have h1 : min (st.savings - cfg.emergency_buffer)
        (min st.yearlyLimit st.balance) ≤ st.savings - cfg.emergency_buffer :=
      min_le_left _ _
    show cfg.emergency_buffer ≤ st.savings -
        min (st.savings - cfg.emergency_buffer) (min st.yearlyLimit st.balance)
    linarith


/- ### Event amount lemmas -/

/-- An event actually appended by rule 1 is positive and capped by the
balance immediately before the sweep. -/
theorem rule1Sweep_event_bounds (cfg : SimConfig) (idx m : ℕ) (st : SimState)
    (e : OverpaymentEvent) (hb : 0 < st.balance)
    (h : (rule1Sweep cfg idx m st).events = st.events ++ [e]) :
    0 < e.amount ∧ e.amount ≤ st.balance := by
  rcases rule1Sweep_eq_or cfg idx m st with heq | ⟨hs, heq⟩
  · rw [heq] at h
    exact absurd h (by simp)
  · rw [heq] at h
    simp only [List.append_cancel_left_eq, List.cons.injEq, and_true] at h
    rw [← h]
    exact ⟨lt_min (by linarith) hb, min_le_right _ _⟩

/-- An event actually appended by rule 2 (with a positive threshold) is
positive and capped by the balance immediately before the sweep. -/
theorem rule2Sweep_event_bounds (cfg : SimConfig) (sched : List (ℕ × ℕ × ℚ))
    (m : ℕ) (st : SimState) (e : OverpaymentEvent)
    (hth : 0 < cfg.min_overpayment_threshold) (hb : 0 < st.balance)
    (h : (rule2Sweep cfg sched m st).events = st.events ++ [e]) :
    0 < e.amount ∧ e.amount ≤ st.balance := by
  rcases rule2Sweep_eq_or cfg sched m st with heq | ⟨hth2, heq⟩
  · rw [heq] at h
    exact absurd h (by simp)
  · rw [heq] at h
    simp only [List.append_cancel_left_eq, List.cons.injEq, and_true] at h
    rw [← h]
    exact ⟨lt_min (lt_of_lt_of_le hth hth2) hb, min_le_right _ _⟩

/-- An event actually appended by rule 3 is positive and capped by the
balance immediately before the overpayment. -/
theorem rule3Annual_event_bounds (cfg : SimConfig) (m : ℕ) (st : SimState)
    (e : OverpaymentEvent)
    (h : (rule3Annual cfg m st).events = st.events ++ [e]) :
    0 < e.amount ∧ e.amount ≤ st.balance := by
  rcases rule3Annual_eq_or cfg m st with heq | ⟨_, _, _, hpot, heq⟩
  · rw [heq] at h
    exact absurd h (by simp)
  · rw [heq] at h
    simp only [List.append_cancel_left_eq, List.cons.injEq, and_true] at h
    rw [← h]
    exact ⟨hpot, le_trans (min_le_right _ _) (min_le_right _ _)⟩

/-- The loop body preserves positivity of all logged event amounts,
provided the balance is positive at its entry and the threshold is
positive. -/
theorem monthBody_events_pos (cfg : SimConfig) (sched : List (ℕ × ℕ × ℚ)) (m : ℕ)
    (st : SimState) (hth : 0 < cfg.min_overpayment_threshold)
    (hb : 0 < st.balance) (hev : ∀ e ∈ st.events, 0 < e.amount) :
    ∀ e ∈ (monthBody cfg sched m st).events, 0 < e.amount := by
  simp only [monthBody]
  set st2 := applyGrowth cfg m (yearReset m st) with hst2
  have h2b : st2.balance = st.balance := by rw [hst2]; simp
  have h2e : st2.events = st.events := by rw [hst2]; simp
  set p := applyRule1 cfg sched m st2 with hp
  have h3 : ∀ e ∈ p.1.events, 0 < e.amount := by
    rw [hp]
    cases hfi : findEndIdx sched m with
    | none =>
      rw [applyRule1_none cfg sched m st2 hfi]
      intro e he
      exact hev e (h2e ▸ he)
    | some idx =>
      rw [applyRule1_some cfg sched m st2 idx hfi]
      intro e he
      simp only [rule1Update_events] at he
      rcases rule1Sweep_eq_or cfg idx m st2 with heq | ⟨hs, heq⟩
      · rw [heq] at he
        exact hev e (h2e ▸ he)
      · rw [heq] at he
        simp only [List.mem_append, List.mem_singleton] at he
        rcases he with he | he
        · exact hev e (h2e ▸ he)
        · subst he
          exact lt_min (by linarith) (h2b ▸ hb)
  have h3b : p.2 = false → p.1.balance = st.balance := by
    intro hq
    rw [hp]
    cases hfi : findEndIdx sched m with
    | none => rw [applyRule1_none cfg sched m st2 hfi]; exact h2b
    | some idx =>
      rw [hp, applyRule1_some cfg sched m st2 idx hfi] at hq
      simp at hq
  set st4 := if p.2 then p.1 else rule2Sweep cfg sched m p.1 with hst4
  have h4 : ∀ e ∈ st4.events, 0 < e.amount := by
    rw [hst4]
    cases hq : p.2
    · simp only [Bool.false_eq_true, if_false]
      intro e he
      rcases rule2Sweep_eq_or cfg sched m p.1 with heq | ⟨hth2, heq⟩
      · rw [heq] at he
        exact h3 e he
      · rw [heq] at he
        simp only [List.mem_append, List.mem_singleton] at he
        rcases he with he | he
        · exact h3 e he
        · subst he
          refine lt_min (lt_of_lt_of_le hth hth2) ?_
          rw [h3b hq]
          exact hb
    · simp only [if_true]
      exact h3
  set st5 : SimState :=
    { st4 with
      balance := st4.balance -
        (st4.payment - st4.balance * (rateLookup sched cfg.mortgage_rate_after_fixed m / 12))
      totalInterest := st4.totalInterest +
        st4.balance * (rateLookup sched cfg.mortgage_rate_after_fixed m / 12) } with hst5
  intro e he
  have he' : e ∈ (rule3Annual cfg m st5).events := he
  rcases rule3Annual_eq_or cfg m st5 with heq | ⟨_, _, _, hpot, heq⟩
  · rw [heq] at he'
    exact h4 e he'
  · rw [heq] at he'
    simp only [List.mem_append, List.mem_singleton] at he'
    rcases he' with he' | he'
    · exact h4 e he'
    · subst he'
      exact hpot

/- ### Zero-rate lemmas -/

/-- When every declared fixed rate and the SVR are zero, the rate lookup
returns zero at every month. -/
theorem rateLookup_eq_zero (l : List (ℕ × ℚ)) (s : ℕ) (svr : ℚ)
    (hfz : ∀ q ∈ l, q.2 = 0) (hsz : svr = 0) (m : ℕ) :
    rateLookup (buildSchedule l s) svr m = 0 := by
  induction l generalizing s with
  | nil => simpa [buildSchedule, rateLookup]
  | cons q rest ih =>
    obtain ⟨len, r⟩ := q
    simp only [buildSchedule, rateLookup]
    split
    · exact hfz (len, r) (by simp)
    · exact ih (s + len) (fun q hq => hfz q (List.mem_cons_of_mem _ hq))

/-- At zero applicable rate, the loop body adds no interest. -/
theorem monthBody_totalInterest_zero (cfg : SimConfig) (sched : List (ℕ × ℕ × ℚ))
    (m : ℕ) (st : SimState)
    (hrate : rateLookup sched cfg.mortgage_rate_after_fixed m = 0)
    (hti : st.totalInterest = 0) :
    (monthBody cfg sched m st).totalInterest = 0 := by
  simp only [monthBody]
  set st2 := applyGrowth cfg m (yearReset m st) with hst2
  have h2t : st2.totalInterest = st.totalInterest := by rw [hst2]; simp
  set p := applyRule1 cfg sched m st2 with hp
  have h3t : p.1.totalInterest = st.totalInterest := by
    rw [hp]
    cases hfi : findEndIdx sched m with
    | none => rw [applyRule1_none cfg sched m st2 hfi]; exact h2t
    | some idx =>
      rw [applyRule1_some cfg sched m st2 idx hfi]
      simp [h2t]
  set st4 := if p.2 then p.1 else rule2Sweep cfg sched m p.1 with hst4
  have h4t : st4.totalInterest = st.totalInterest := by
    rw [hst4]
    cases hq : p.2
    · simp only [Bool.false_eq_true, if_false]
      simp [h3t]
    · simpa using h3t
  simp only [rule3Annual_totalInterest]
  rw [hrate, h4t, hti]
  ring


/- ### Payment recomputation lemmas -/

/-- In a month where no fixed period ends, the loop body leaves the
standard monthly payment untouched. -/
theorem monthBody_payment_frame (cfg : SimConfig) (sched : List (ℕ × ℕ × ℚ))
    (m : ℕ) (st : SimState) (h : findEndIdx sched m = none) :
    (monthBody cfg sched m st).payment = st.payment := by
  simp only [monthBody]
  rw [applyRule1_none cfg sched m (applyGrowth cfg m (yearReset m st)) h]
  simp

/-- In a month where fixed period idx ends and the post-sweep balance is
positive, the loop body re-amortizes the payment over the original
remaining term at the post-boundary rate from the post-sweep balance. -/
theorem monthBody_payment_update (cfg : SimConfig) (sched : List (ℕ × ℕ × ℚ))
    (m : ℕ) (st : SimState) (idx : ℕ) (h : findEndIdx sched m = some idx)
    (hb2 : 0 < (rule1Sweep cfg idx m (applyGrowth cfg m (yearReset m st))).balance) :
    (monthBody cfg sched m st).payment =
      pmt (rateLookup sched cfg.mortgage_rate_after_fixed m / 12)
          ((cfg.mortgage_term_years * 12 : ℤ) - (m : ℤ))
          (rule1Sweep cfg idx m (applyGrowth cfg m (yearReset m st))).balance := by
  simp only [monthBody]
  rw [applyRule1_some cfg sched m (applyGrowth cfg m (yearReset m st)) idx h]
  simp [rule1Update, if_pos hb2]


/- ### Record bookkeeping lemmas -/

/-- applyRule1 never touches the records list. -/
theorem applyRule1_fst_records (cfg : SimConfig) (sched : List (ℕ × ℕ × ℚ))
    (m : ℕ) (st : SimState) : (applyRule1 cfg sched m st).1.records = st.records := by
  cases hfi : findEndIdx sched m with
  | none => rw [applyRule1_none cfg sched m st hfi]
  | some idx => rw [applyRule1_some cfg sched m st idx hfi]; simp

/-- The loop body appends exactly one record. -/
theorem monthBody_records_len (cfg : SimConfig) (sched : List (ℕ × ℕ × ℚ))
    (m : ℕ) (st : SimState) :
    (monthBody cfg sched m st).records.length = st.records.length + 1 := by
  simp only [monthBody]
  set st2 := applyGrowth cfg m (yearReset m st) with hst2
  have h2r : st2.records = st.records := by rw [hst2]; simp
  set p := applyRule1 cfg sched m st2 with hp
  have h3r : p.1.records = st.records := by rw [hp, applyRule1_fst_records]; exact h2r
  set st4 := if p.2 then p.1 else rule2Sweep cfg sched m p.1 with hst4
  have h4r : st4.records = st.records := by
    rw [hst4]
    cases hq : p.2
    · simp only [Bool.false_eq_true, if_false]
      simp [h3r]
    · simpa using h3r
  simp [h4r]

/-- The loop body preserves the already-written records. -/
theorem monthBody_records_keep (cfg : SimConfig) (sched : List (ℕ × ℕ × ℚ))
    (m : ℕ) (st : SimState) (j : ℕ) (hj : j < st.records.length) :
    (monthBody cfg sched m st).records[j]? = st.records[j]? := by
  simp only [monthBody]
  set st2 := applyGrowth cfg m (yearReset m st) with hst2
  have h2r : st2.records = st.records := by rw [hst2]; simp
  set p := applyRule1 cfg sched m st2 with hp
  have h3r : p.1.records = st.records := by rw [hp, applyRule1_fst_records]; exact h2r
  set st4 := if p.2 then p.1 else rule2Sweep cfg sched m p.1 with hst4
  have h4r : st4.records = st.records := by
    rw [hst4]
    cases hq : p.2
    · simp only [Bool.false_eq_true, if_false]
      simp [h3r]
    · simpa using h3r
  simp only [rule3Annual_records, h4r]
  exact List.getElem?_append_left hj

/-- The record appended by the loop body carries the end-of-month
balance, savings and cumulative overpayments. -/
theorem monthBody_records_last (cfg : SimConfig) (sched : List (ℕ × ℕ × ℚ))
    (m : ℕ) (st : SimState) (r : MonthlyRecord)
    (hr : (monthBody cfg sched m st).records.getLast? = some r) :
    r.balance = (monthBody cfg sched m st).balance ∧
    r.savings = (monthBody cfg sched m st).savings ∧
    r.cumOverpayments = (monthBody cfg sched m st).cumOverpayments := by
  simp only [monthBody] at hr ⊢
  rw [List.getLast?_concat] at hr
  have := hr.symm
  injection this with h0
  subst h0
  exact ⟨rfl, rfl, rfl⟩

/- ### Yearly limit and event provenance lemmas -/

/-- applyRule1 never touches the yearly allowance limit. -/
theorem applyRule1_fst_yearlyLimit (cfg : SimConfig) (sched : List (ℕ × ℕ × ℚ))
    (m : ℕ) (st : SimState) :
    (applyRule1 cfg sched m st).1.yearlyLimit = st.yearlyLimit := by
  cases hfi : findEndIdx sched m with
  | none => rw [applyRule1_none cfg sched m st hfi]
  | some idx => rw [applyRule1_some cfg sched m st idx hfi]; simp

/-- applyRule1 never touches the paid-off flag. -/
theorem applyRule1_fst_paidOff (cfg : SimConfig) (sched : List (ℕ × ℕ × ℚ))
    (m : ℕ) (st : SimState) :
    (applyRule1 cfg sched m st).1.paidOff = st.paidOff := by
  cases hfi : findEndIdx sched m with
  | none => rw [applyRule1_none cfg sched m st hfi]
  | some idx => rw [applyRule1_some cfg sched m st idx hfi]; simp

/-- The loop body carries the yearly limit set by the year reset. -/
theorem monthBody_yearlyLimit (cfg : SimConfig) (sched : List (ℕ × ℕ × ℚ))
    (m : ℕ) (st : SimState) :
    (monthBody cfg sched m st).yearlyLimit = (yearReset m st).yearlyLimit := by
  simp only [monthBody]
  set st2 := applyGrowth cfg m (yearReset m st) with hst2
  have h2 : st2.yearlyLimit = (yearReset m st).yearlyLimit := by rw [hst2]; simp
  set p := applyRule1 cfg sched m st2 with hp
  have h3 : p.1.yearlyLimit = (yearReset m st).yearlyLimit := by
    rw [hp, applyRule1_fst_yearlyLimit]; exact h2
  set st4 := if p.2 then p.1 else rule2Sweep cfg sched m p.1 with hst4
  have h4 : st4.yearlyLimit = (yearReset m st).yearlyLimit := by
    rw [hst4]
    cases hq : p.2
    · simp only [Bool.false_eq_true, if_false]
      simp [h3]
    · simpa using h3
  simp [h4]

/-- The loop body never changes the paid-off flag. -/
theorem monthBody_paidOff (cfg : SimConfig) (sched : List (ℕ × ℕ × ℚ))
    (m : ℕ) (st : SimState) :
    (monthBody cfg sched m st).paidOff = st.paidOff := by
  simp only [monthBody]
  set st2 := applyGrowth cfg m (yearReset m st) with hst2
  have h2 : st2.paidOff = st.paidOff := by rw [hst2]; simp
  set p := applyRule1 cfg sched m st2 with hp
  have h3 : p.1.paidOff = st.paidOff := by
    rw [hp, applyRule1_fst_paidOff]; exact h2
  set st4 := if p.2 then p.1 else rule2Sweep cfg sched m p.1 with hst4
  have h4 : st4.paidOff = st.paidOff := by
    rw [hst4]
    cases hq : p.2
    · simp only [Bool.false_eq_true, if_false]
      simp [h3]
    · simpa using h3
  simp [h4]

/-- Every event present after a loop body was either already logged, or
was logged this month; and a new annual-allowance event is bounded by
the yearly limit in force this month. -/
theorem monthBody_events_mem (cfg : SimConfig) (sched : List (ℕ × ℕ × ℚ))
    (m : ℕ) (st : SimState) :
    ∀ e ∈ (monthBody cfg sched m st).events,
      e ∈ st.events ∨
      (e.month = m ∧ (e.tag.isAnnual = true →
        e.amount ≤ (yearReset m st).yearlyLimit)) := by
  simp only [monthBody]
  set st2 := applyGrowth cfg m (yearReset m st) with hst2
  have h2e : st2.events = st.events := by rw [hst2]; simp
  have h2l : st2.yearlyLimit = (yearReset m st).yearlyLimit := by rw [hst2]; simp
  set p := applyRule1 cfg sched m st2 with hp
  have h3 : ∀ e ∈ p.1.events, e ∈ st.events ∨
      (e.month = m ∧ e.tag.isAnnual = false) := by
    rw [hp]
    cases hfi : findEndIdx sched m with
    | none =>
      rw [applyRule1_none cfg sched m st2 hfi]
      intro e he
      exact Or.inl (h2e ▸ he)
    | some idx =>
      rw [applyRule1_some cfg sched m st2 idx hfi]
      intro e he
      simp only [rule1Update_events] at he
      rcases rule1Sweep_eq_or cfg idx m st2 with heq | ⟨_, heq⟩
      · rw [heq] at he
        exact Or.inl (h2e ▸ he)
      · rw [heq] at he
        simp only [List.mem_append, List.mem_singleton] at he
        rcases he with he | he
        · exact Or.inl (h2e ▸ he)
        · subst he
          exact Or.inr ⟨rfl, rfl⟩
  have h3l : p.1.yearlyLimit = (yearReset m st).yearlyLimit := by
    rw [hp, applyRule1_fst_yearlyLimit]; exact h2l
  set st4 := if p.2 then p.1 else rule2Sweep cfg sched m p.1 with hst4
  have h4 : ∀ e ∈ st4.events, e ∈ st.events ∨
      (e.month = m ∧ e.tag.isAnnual = false) := by
    rw [hst4]
    cases hq : p.2
    · simp only [Bool.false_eq_true, if_false]
      intro e he
      rcases rule2Sweep_eq_or cfg sched m p.1 with heq | ⟨_, heq⟩
      · rw [heq] at he
        exact h3 e he
      · rw [heq] at he
        simp only [List.mem_append, List.mem_singleton] at he
        rcases he with he | he
        · exact h3 e he
        · subst he
          exact Or.inr ⟨rfl, rfl⟩
    · simp only [if_true]
      exact h3
  have h4l : st4.yearlyLimit = (yearReset m st).yearlyLimit := by
    rw [hst4]
    cases hq : p.2
    · simp only [Bool.false_eq_true, if_false]
      simp [h3l]
    · simpa using h3l
  set st5 : SimState :=
    { st4 with
      balance := st4.balance -
        (st4.payment - st4.balance * (rateLookup sched cfg.mortgage_rate_after_fixed m / 12))
      totalInterest := st4.totalInterest +
        st4.balance * (rateLookup sched cfg.mortgage_rate_after_fixed m / 12) } with hst5
  intro e he
  have he' : e ∈ (rule3Annual cfg m st5).events := he
  rcases rule3Annual_eq_or cfg m st5 with heq | ⟨_, _, _, _, heq⟩
  · rw [heq] at he'
    rcases h4 e he' with h | ⟨hm, hf⟩
    · exact Or.inl h
    · refine Or.inr ⟨hm, fun hc => ?_⟩
      rw [hf] at hc
      exact absurd hc (by simp)
  · rw [heq] at he'
    simp only [List.mem_append, List.mem_singleton] at he'
    rcases he' with he' | he'
    · rcases h4 e he' with h | ⟨hm, hf⟩
      · exact Or.inl h
      · refine Or.inr ⟨hm, fun hc => ?_⟩
        rw [hf] at hc
        exact absurd hc (by simp)
    · subst he'
      refine Or.inr ⟨rfl, fun _ => ?_⟩
      have hle : min (st5.savings - cfg.emergency_buffer)
          (min st5.yearlyLimit st5.balance) ≤ st5.yearlyLimit :=
        le_trans (min_le_right _ _) (min_le_left _ _)
      have h5l : st5.yearlyLimit = (yearReset m st).yearlyLimit := h4l
      rw [← h5l]
      exact hle

/- ### Cumulative overpayment bookkeeping lemmas -/

theorem sumAmounts_append (a b : List OverpaymentEvent) :
    sumAmounts (a ++ b) = sumAmounts a + sumAmounts b := by
  simp [sumAmounts]

theorem sumAmounts_nil : sumAmounts [] = 0 := rfl

/-- The loop body appends some batch of events, all stamped with the
current month, and adds exactly their total to cumulative overpayments. -/
theorem monthBody_cum_events (cfg : SimConfig) (sched : List (ℕ × ℕ × ℚ))
    (m : ℕ) (st : SimState) :
    ∃ news, (monthBody cfg sched m st).events = st.events ++ news ∧
      (∀ e ∈ news, e.month = m) ∧
      (monthBody cfg sched m st).cumOverpayments =
        st.cumOverpayments + sumAmounts news := by
  simp only [monthBody]
  set st2 := applyGrowth cfg m (yearReset m st) with hst2
  have h2e : st2.events = st.events := by rw [hst2]; simp
  have h2c : st2.cumOverpayments = st.cumOverpayments := by rw [hst2]; simp
  set p := applyRule1 cfg sched m st2 with hp
  have h1 : ∃ news1, p.1.events = st.events ++ news1 ∧
      (∀ e ∈ news1, e.month = m) ∧
      p.1.cumOverpayments = st.cumOverpayments + sumAmounts news1 := by
    rw [hp]
    cases hfi : findEndIdx sched m with
    | none =>
      rw [applyRule1_none cfg sched m st2 hfi]
      exact ⟨[], by simp [h2e], by simp, by simp [h2c, sumAmounts_nil]⟩
    | some idx =>
      rw [applyRule1_some cfg sched m st2 idx hfi]
      rcases rule1Sweep_eq_or cfg idx m st2 with heq | ⟨_, heq⟩
      · exact ⟨[], by simp [heq, h2e], by simp, by simp [heq, h2c, sumAmounts_nil]⟩
      · refine ⟨[⟨m, min (st2.savings - cfg.emergency_buffer) st2.balance,
          .endOfFixed (idx + 1)⟩], ?_, ?_, ?_⟩
        · simp only [rule1Update_events, heq, h2e]
        · intro e he
          simp only [List.mem_singleton] at he
          rw [he]
        · simp only [rule1Update_cumOverpayments, heq]
          simp [h2c, sumAmounts]
  obtain ⟨news1, h1e, h1m, h1c⟩ := h1
  set st4 := if p.2 then p.1 else rule2Sweep cfg sched m p.1 with hst4
  have h4 : ∃ news2, st4.events = st.events ++ news2 ∧
      (∀ e ∈ news2, e.month = m) ∧
      st4.cumOverpayments = st.cumOverpayments + sumAmounts news2 := by
    rw [hst4]
    cases hq : p.2
    · simp only [Bool.false_eq_true, if_false]
      rcases rule2Sweep_eq_or cfg sched m p.1 with heq | ⟨_, heq⟩
      · exact ⟨news1, by rw [heq]; exact h1e, h1m, by rw [heq]; exact h1c⟩
      · refine ⟨news1 ++ [⟨m, min (max 0 (p.1.savings - cfg.emergency_buffer)) p.1.balance,
          .variableRate⟩], ?_, ?_, ?_⟩
        · rw [heq]
          simp only []
          rw [h1e, List.append_assoc]
        · intro e he
          simp only [List.mem_append, List.mem_singleton] at he
          rcases he with he | he
          · exact h1m e he
          · rw [he]
        · rw [heq]
          simp only []
          rw [h1c, sumAmounts_append]
          simp [sumAmounts]
          ring
    · simp only [if_true]
      exact ⟨news1, h1e, h1m, h1c⟩
  obtain ⟨news2, h4e, h4m, h4c⟩ := h4
  set st5 : SimState :=
    { st4 with
      balance := st4.balance -
        (st4.payment - st4.balance * (rateLookup sched cfg.mortgage_rate_after_fixed m / 12))
      totalInterest := st4.totalInterest +
        st4.balance * (rateLookup sched cfg.mortgage_rate_after_fixed m / 12) } with hst5
  have h5e : st5.events = st.events ++ news2 := h4e
  have h5c : st5.cumOverpayments = st.cumOverpayments + sumAmounts news2 := h4c
  rcases rule3Annual_eq_or cfg m st5 with heq | ⟨_, _, _, _, heq⟩
  · refine ⟨news2, ?_, h4m, ?_⟩
    · show (rule3Annual cfg m st5).events = st.events ++ news2
      rw [heq]
      exact h5e
    · show (rule3Annual cfg m st5).cumOverpayments = st.cumOverpayments + sumAmounts news2
      rw [heq]
      exact h5c
  · refine ⟨news2 ++ [⟨m, min (st5.savings - cfg.emergency_buffer)
      (min st5.yearlyLimit st5.balance), .annual (st5.currentYear + 1)⟩], ?_, ?_, ?_⟩
    · show (rule3Annual cfg m st5).events = _
      rw [heq]
      simp only []
      rw [h5e, List.append_assoc]
    · intro e he
      simp only [List.mem_append, List.mem_singleton] at he
      rcases he with he | he
      · exact h4m e he
      · rw [he]
    · show (rule3Annual cfg m st5).cumOverpayments = _
      rw [heq]
      simp only []
      rw [h5c, sumAmounts_append]
      simp [sumAmounts]
      ring

/- ### Claims -/

/-- C8: the simulation is deterministic — identical SimulationConfig
inputs produce identical SimulationResult values (the engine is a pure
function of its configuration). -/
theorem claim_C8_deterministic (c1 c2 : SimConfig) (h : c1 = c2) :
    run_simulation c1 = run_simulation c2 := by rw [h]

theorem claim_C8_deterministic_witness :
    run_simulation cfgA = run_simulation cfgA :=
  claim_C8_deterministic cfgA cfgA rfl

/-- C9: when net available cash (income - expenses - regular payment) is
not strictly positive, the savings accrual step leaves the savings
balance completely unchanged — no deficit is drawn down and no savings
interest is credited that month. -/
theorem claim_C9_accrual_frame (cfg : SimConfig) (savings avail : ℚ)
    (h : avail ≤ 0) : applySavings cfg savings avail = savings := by
  simp [applySavings, not_lt.mpr h]

theorem claim_C9_accrual_frame_witness :
    (-1 : ℚ) ≤ 0 ∧ applySavings cfgA 5 (-1) = 5 :=
  ⟨by norm_num, claim_C9_accrual_frame cfgA 5 (-1) (by norm_num)⟩

/-- C4: under the spec's configuration invariants (nonnegative initial
savings, emergency floor and savings rate, tax rate at most 1), the
engine never makes the savings balance negative, and whenever a rule-1,
rule-2 or rule-3 overpayment actually fires (appends an event), the
resulting savings balance is still at or above the emergency floor. -/
theorem claim_C4_savings_floor (cfg : SimConfig)
    (h0 : 0 ≤ cfg.initial_savings) (hb : 0 ≤ cfg.emergency_buffer)
    (hr : 0 ≤ cfg.savings_rate) (ht : cfg.savings_tax_rate ≤ 1) :
    (∀ r ∈ (run_simulation cfg).records, 0 ≤ r.savings) ∧
    0 ≤ (run_simulation cfg).final_savings ∧
    (∀ st idx m, (rule1Sweep cfg idx m st).events ≠ st.events →
      cfg.emergency_buffer ≤ (rule1Sweep cfg idx m st).savings) ∧
    (∀ st sched m, 0 < cfg.min_overpayment_threshold →
      (rule2Sweep cfg sched m st).events ≠ st.events →
      cfg.emergency_buffer ≤ (rule2Sweep cfg sched m st).savings) ∧
    (∀ st m, (rule3Annual cfg m st).events ≠ st.events →
      cfg.emergency_buffer ≤ (rule3Annual cfg m st).savings) := by
  have key : ∀ n, 0 ≤ (loopIter cfg n).savings ∧
      ∀ r ∈ (loopIter cfg n).records, 0 ≤ r.savings := by
    apply loopIter_invariant cfg
      (fun _ st => 0 ≤ st.savings ∧ ∀ r ∈ st.records, 0 ≤ r.savings)
    · exact ⟨h0, by simp [initState]⟩
    · intro n st hst
      obtain ⟨h1, h2⟩ := hst
      unfold simStep
      split
      · exact ⟨h1, h2⟩
      · split
        · exact ⟨h1, h2⟩
        · exact monthBody_savings_inv cfg _ n st hb hr ht h1 h2
  refine ⟨?_, ?_, ?_, ?_, ?_⟩
  · intro r hrmem
    have := (key (cfg.total_years_to_simulate * 12)).2
    simp only [run_simulation] at hrmem
    exact this r hrmem
  · exact (key (cfg.total_years_to_simulate * 12)).1
  · intro st idx m h
    exact rule1Sweep_fired cfg idx m st h
  · intro st sched m hth h
    exact rule2Sweep_fired cfg sched m st hth h
  · intro st m h
    exact rule3Annual_fired cfg m st h

theorem claim_C4_savings_floor_witness :
    (∀ r ∈ (run_simulation cfgA).records, 0 ≤ r.savings) ∧
    0 ≤ (run_simulation cfgA).final_savings ∧
    (∀ st idx m, (rule1Sweep cfgA idx m st).events ≠ st.events →
      cfgA.emergency_buffer ≤ (rule1Sweep cfgA idx m st).savings) ∧
    (∀ st sched m, 0 < cfgA.min_overpayment_threshold →
      (rule2Sweep cfgA sched m st).events ≠ st.events →
      cfgA.emergency_buffer ≤ (rule2Sweep cfgA sched m st).savings) ∧
    (∀ st m, (rule3Annual cfgA m st).events ≠ st.events →
      cfgA.emergency_buffer ≤ (rule3Annual cfgA m st).savings) :=
  claim_C4_savings_floor cfgA (by norm_num [cfgA]) (by norm_num [cfgA])
    (by norm_num [cfgA]) (by norm_num [cfgA])


/-- C5: with a positive minimum threshold, every overpayment event of a
run has a positive amount, and each of the three rules only ever appends
an event whose amount is positive and at most the outstanding balance
immediately before that overpayment is applied. -/
theorem claim_C5_event_amounts (cfg : SimConfig)
    (hth : 0 < cfg.min_overpayment_threshold) :
    (∀ e ∈ (run_simulation cfg).events, 0 < e.amount) ∧
    (∀ st idx m e, 0 < st.balance →
      (rule1Sweep cfg idx m st).events = st.events ++ [e] →
      0 < e.amount ∧ e.amount ≤ st.balance) ∧
    (∀ st sched m e, 0 < st.balance →
      (rule2Sweep cfg sched m st).events = st.events ++ [e] →
      0 < e.amount ∧ e.amount ≤ st.balance) ∧
    (∀ st m e, (rule3Annual cfg m st).events = st.events ++ [e] →
      0 < e.amount ∧ e.amount ≤ st.balance) := by
  have key : ∀ n, ∀ e ∈ (loopIter cfg n).events, 0 < e.amount := by
    apply loopIter_invariant cfg (fun _ st => ∀ e ∈ st.events, 0 < e.amount)
    · simp [initState]
    · intro n st hst
      unfold simStep
      split
      · exact hst
      · split
        · exact hst
        · next hb =>
          exact monthBody_events_pos cfg _ n st hth (not_le.mp hb) hst
  refine ⟨?_, ?_, ?_, ?_⟩
  · intro e he
    simp only [run_simulation] at he
    exact key (cfg.total_years_to_simulate * 12) e he
  · intro st idx m e hb h
    exact rule1Sweep_event_bounds cfg idx m st e hb h
  · intro st sched m e hb h
    exact rule2Sweep_event_bounds cfg sched m st e hth hb h
  · intro st m e h
    exact rule3Annual_event_bounds cfg m st e h

theorem claim_C5_event_amounts_witness :
    (∀ e ∈ (run_simulation cfgA).events, 0 < e.amount) ∧
    (∀ st idx m e, 0 < st.balance →
      (rule1Sweep cfgA idx m st).events = st.events ++ [e] →
      0 < e.amount ∧ e.amount ≤ st.balance) ∧
    (∀ st sched m e, 0 < st.balance →
      (rule2Sweep cfgA sched m st).events = st.events ++ [e] →
      0 < e.amount ∧ e.amount ≤ st.balance) ∧
    (∀ st m e, (rule3Annual cfgA m st).events = st.events ++ [e] →
      0 < e.amount ∧ e.amount ≤ st.balance) :=
  claim_C5_event_amounts cfgA (by norm_num [cfgA])

/-- C7: with all rates zero, the run accumulates no interest, the
initial payment is exactly principal over the term in months, and every
payment computation degenerates to principal over remaining months. -/
theorem claim_C7_zero_rates (cfg : SimConfig)
    (hfz : ∀ q ∈ cfg.fixed_periods, q.2 = 0)
    (hsz : cfg.mortgage_rate_after_fixed = 0) :
    (run_simulation cfg).total_interest_paid = 0 ∧
    initialPayment cfg = cfg.initial_mortgage / ((cfg.mortgage_term_years : ℚ) * 12) ∧
    (∀ (n : ℤ) (p : ℚ), pmt 0 n p = p / (n : ℚ)) := by
  refine ⟨?_, ?_, fun n p => pmt_zero n p⟩
  · have key : ∀ n, (loopIter cfg n).totalInterest = 0 := by
      apply loopIter_invariant cfg (fun _ st => st.totalInterest = 0)
      · rfl
      · intro n st hst
        unfold simStep
        split
        · exact hst
        · split
          · exact hst
          · exact monthBody_totalInterest_zero cfg _ n st
              (rateLookup_eq_zero cfg.fixed_periods 0 cfg.mortgage_rate_after_fixed hfz hsz n)
              hst
    simp only [run_simulation]
    exact key (cfg.total_years_to_simulate * 12)
  · unfold initialPayment
    cases hl : cfg.fixed_periods with
    | nil =>
      simp only [hl, buildSchedule, hsz]
      rw [show (0 : ℚ) / 12 = 0 by norm_num, pmt_zero]
      push_cast
      ring
    | cons q rest =>
      obtain ⟨len, r⟩ := q
      have hr : r = 0 := hfz (len, r) (by simp [hl])
      simp only [hl, buildSchedule, hr]
      rw [show (0 : ℚ) / 12 = 0 by norm_num, pmt_zero]
      push_cast
      ring

theorem claim_C7_zero_rates_witness :
    (run_simulation cfgA).total_interest_paid = 0 ∧
    initialPayment cfgA = cfgA.initial_mortgage / ((cfgA.mortgage_term_years : ℚ) * 12) ∧
    (∀ (n : ℤ) (p : ℚ), pmt 0 n p = p / (n : ℚ)) :=
  claim_C7_zero_rates cfgA (by norm_num [cfgA]) (by norm_num [cfgA])

/-- C3 (amended): the standard payment is recomputed only at
end-of-fixed-period months. If no fixed period ends at month m, the
payment carried into month m+1 is unchanged - in particular rule-2 and
rule-3 overpayments do not trigger re-amortization; if one ends and the
post-sweep balance is positive, the payment is re-amortized over the
original remaining term at the post-boundary rate. -/
theorem claim_C3_payment_recompute (cfg : SimConfig) (m : ℕ)
    (hpo : (loopIter cfg m).paidOff = false)
    (hb : 0 < (loopIter cfg m).balance) :
    (findEndIdx (schedOf cfg) m = none →
      (loopIter cfg (m + 1)).payment = (loopIter cfg m).payment) ∧
    (∀ idx, findEndIdx (schedOf cfg) m = some idx →
      0 < (rule1Sweep cfg idx m (applyGrowth cfg m (yearReset m (loopIter cfg m)))).balance →
      (loopIter cfg (m + 1)).payment =
        pmt (rateLookup (schedOf cfg) cfg.mortgage_rate_after_fixed m / 12)
            ((cfg.mortgage_term_years * 12 : ℤ) - (m : ℤ))
            (rule1Sweep cfg idx m
              (applyGrowth cfg m (yearReset m (loopIter cfg m)))).balance) := by
  have hstep : loopIter cfg (m + 1) =
      monthBody cfg (schedOf cfg) m (loopIter cfg m) := by
    rw [loopIter_succ]
    unfold simStep
    rw [if_neg (by rw [hpo]; exact Bool.false_ne_true),
        if_neg (not_le.mpr hb)]
  constructor
  · intro h
    rw [hstep]
    exact monthBody_payment_frame cfg (schedOf cfg) m (loopIter cfg m) h
  · intro idx h hb2
    rw [hstep]
    exact monthBody_payment_update cfg (schedOf cfg) m (loopIter cfg m) idx h hb2

theorem claim_C3_payment_recompute_witness :
    (loopIter cfgA 1).payment = (loopIter cfgA 0).payment ∧
    (loopIter cfgB 19).payment =
      pmt (rateLookup (schedOf cfgB) cfgB.mortgage_rate_after_fixed 18 / 12)
          ((cfgB.mortgage_term_years * 12 : ℤ) - (18 : ℤ))
          (rule1Sweep cfgB 0 18
            (applyGrowth cfgB 18 (yearReset 18 (loopIter cfgB 18)))).balance := by
  constructor
  · exact (claim_C3_payment_recompute cfgA 0 (by rw [loopIter_zero]; rfl)
      (by rw [loopIter_zero]; norm_num [initState, cfgA])).1 rfl
  · exact (claim_C3_payment_recompute cfgB 18
      (by rw [stateB_18]) (by rw [stateB_18]; norm_num)).2 0 rfl
      (by rw [stateB_18]; norm_num [rule1Sweep, applyGrowth, yearReset, cfgB])

/-- C3 (counterexample to the claim as stated): in cfgA a rule-3
overpayment of 120 is logged at month 0 (the only event of the run) and
reduces the balance to 980, but the payment in force at month 1 is still
the original 100, which is not the re-amortization of 980 over the
remaining term (980/11, or 980/12 counting month 0 itself). -/
theorem claim_C3_cex :
    (run_simulation cfgA).events = [⟨0, 120, .annual 1⟩] ∧
    (loopIter cfgA 1).balance = 980 ∧
    (loopIter cfgA 1).payment = 100 ∧
    pmt 0 11 980 ≠ 100 ∧ pmt 0 12 980 ≠ 100 := by
  have h12 : cfgA.total_years_to_simulate * 12 = 12 := by norm_num [cfgA]
  refine ⟨by simp only [run_simulation, h12, stateA_12], by simp [stateA_1],
    by simp [stateA_1], by rw [pmt_zero]; norm_num, by rw [pmt_zero]; norm_num⟩


/-- C1 (amended): a recorded mortgage balance can be negative only in
the final record of the run: every monthly record that is followed by a
later record has a nonnegative balance (once the regular payment
overshoots, the loop stops at the top of the next month, so the
overshoot month is always the last record). -/
theorem claim_C1_balance_nonneg_nonfinal (cfg : SimConfig) (i : ℕ)
    (r r' : MonthlyRecord)
    (h : (run_simulation cfg).records[i]? = some r)
    (h' : (run_simulation cfg).records[i + 1]? = some r') :
    0 ≤ r.balance := by
  have key : ∀ n,
      (∀ j s, (loopIter cfg n).records[j]? = some s →
        j + 1 < (loopIter cfg n).records.length → 0 ≤ s.balance) ∧
      (∀ s, (loopIter cfg n).records.getLast? = some s →
        (loopIter cfg n).paidOff = false → s.balance = (loopIter cfg n).balance) := by
    apply loopIter_invariant cfg (fun _ st =>
      (∀ j s, st.records[j]? = some s → j + 1 < st.records.length → 0 ≤ s.balance) ∧
      (∀ s, st.records.getLast? = some s → st.paidOff = false → s.balance = st.balance))
    · constructor
      · intro j s hs _
        simp [initState] at hs
      · intro s hs
        simp [initState] at hs
    · intro n st hst
      obtain ⟨hnf, hlast⟩ := hst
      unfold simStep
      split
      · exact ⟨hnf, hlast⟩
      · next hpo =>
        split
        · refine ⟨hnf, ?_⟩
          intro s hs hfalse
          simp at hfalse
        · next hbal =>
          have hb : 0 < st.balance := not_le.mp hbal
          have hpo' : st.paidOff = false := by
            revert hpo
            cases st.paidOff <;> simp
          constructor
          · intro j s hs hlt
            rw [monthBody_records_len] at hlt
            have hjlen : j < st.records.length := by omega
            rw [monthBody_records_keep cfg (schedOf cfg) n st j hjlen] at hs
            by_cases hj2 : j + 1 < st.records.length
            · exact hnf j s hs hj2
            · have hjeq : j + 1 = st.records.length := by omega
              have hgl : st.records.getLast? = some s := by
                rw [List.getLast?_eq_getElem?]
                have hix : st.records.length - 1 = j := by omega
                rw [hix]
                exact hs
              rw [hlast s hgl hpo']
              exact hb.le
          · intro s hs _
            exact (monthBody_records_last cfg (schedOf cfg) n st s hs).1
  have hlen : i + 1 < (run_simulation cfg).records.length := by
    have := (List.getElem?_eq_some.mp h').1
    omega
  simp only [run_simulation] at h hlen
  exact (key (cfg.total_years_to_simulate * 12)).1 i r h hlen

theorem claim_C1_balance_nonneg_nonfinal_witness :
    (run_simulation cfgA).records[0]? = some
      { balance := 980, savings := 11780, cumOverpayments := 120, yearsVal := 0,
        income := 3000, expenses := 1000, overpayment := 120,
        availableCash := 1900, mortgagePayment := 100 } ∧
    (0 : ℚ) ≤ 980 := by
  have h12 : cfgA.total_years_to_simulate * 12 = 12 := by norm_num [cfgA]
  have h0 : (run_simulation cfgA).records[0]? = some
      { balance := 980, savings := 11780, cumOverpayments := 120, yearsVal := 0,
        income := 3000, expenses := 1000, overpayment := 120,
        availableCash := 1900, mortgagePayment := 100 } := by
    simp only [run_simulation, h12, stateA_12]
    rfl
  have hr' : (run_simulation cfgA).records[0 + 1]? = some
      { balance := 880, savings := 13680, cumOverpayments := 120,
        yearsVal := (1 : Rat)/12, income := 3000, expenses := 1000,
        overpayment := 0, availableCash := 1900, mortgagePayment := 100 } := by
    simp only [run_simulation, h12, stateA_12]
    rfl
  have hbal := claim_C1_balance_nonneg_nonfinal cfgA 0 _ _ h0 hr'
  exact ⟨h0, by norm_num⟩

/-- C1 (counterexample to the claim as stated): in cfgA the regular
payment step of month 10 drives the balance to -20, which is recorded;
so not every recorded mortgage balance is nonnegative. -/
theorem claim_C1_cex :
    ¬ (∀ r ∈ (run_simulation cfgA).records, 0 ≤ r.balance) := by
  have h12 : cfgA.total_years_to_simulate * 12 = 12 := by norm_num [cfgA]
  simp only [run_simulation, h12, stateA_12]
  decide


/-- C6 (amended): run_simulation performs no configuration validation.
An invalid configuration - here cfgC, whose only fixed period has the
negative rate -6 - is simulated normally over the entire horizon: twelve
monthly records are emitted and the run completes with no rejection (the
only input checking in the repository lives in the UI widgets, outside
the engine). -/
theorem claim_C6_no_validation :
    (∃ q ∈ cfgC.fixed_periods, q.2 < 0) ∧
    (run_simulation cfgC).records.length = 12 ∧
    (run_simulation cfgC).months_to_mortgage_free = none := by
  have h12 : cfgC.total_years_to_simulate * 12 = 12 := by norm_num [cfgC]
  refine ⟨⟨(12, -6), by simp [cfgC], by norm_num⟩, ?_, ?_⟩
  · simp only [run_simulation, h12, stateC_12]
    simp
  · simp only [run_simulation, h12, stateC_12]

/-- C6 (counterexample to the claim as stated): cfgC has a negative
fixed rate, yet the engine emits monthly records instead of rejecting
the configuration before the simulation starts. -/
theorem claim_C6_cex :
    (∃ q ∈ cfgC.fixed_periods, q.2 < 0) ∧
    (run_simulation cfgC).records ≠ [] := by
  have h12 : cfgC.total_years_to_simulate * 12 = 12 := by norm_num [cfgC]
  constructor
  · exact ⟨(12, -6), by simp [cfgC], by norm_num⟩
  · simp only [run_simulation, h12, stateC_12]
    simp


/-- C2 (amended): every single annual-allowance overpayment is bounded
by 10% of the mortgage balance at the start of the first month of its
calendar year (the value loopIter cfg (12 * (month / 12)) gives the state
at the top of that month). The cumulative yearly total can nevertheless
exceed this limit, because an end-of-fixed-period sweep resets the
once-per-year flag, letting rule 3 fire twice in one calendar year. -/
theorem claim_C2_annual_cap (cfg : SimConfig) (e : OverpaymentEvent)
    (he : e ∈ (run_simulation cfg).events) (ha : e.tag.isAnnual = true) :
    e.amount ≤ (1 / 10 : ℚ) * (loopIter cfg (12 * (e.month / 12))).balance := by
  suffices key : ∀ n,
      (∀ e ∈ (loopIter cfg n).events, e.tag.isAnnual = true →
        e.amount ≤ (1 / 10 : ℚ) * (loopIter cfg (12 * (e.month / 12))).balance) ∧
      ((loopIter cfg n).paidOff = false → n % 12 ≠ 0 →
        (loopIter cfg n).yearlyLimit =
          (1 / 10 : ℚ) * (loopIter cfg (12 * (n / 12))).balance) by
    simp only [run_simulation] at he
    exact (key (cfg.total_years_to_simulate * 12)).1 e he ha
  intro n
  induction n with
  | zero =>
    constructor
    · intro e he _
      rw [loopIter_zero] at he
      simp [initState] at he
    · intro _ h0
      simp at h0
  | succ n ih =>
    obtain ⟨ihA, ihB⟩ := ih
    rw [loopIter_succ]
    set st := loopIter cfg n with hstdef
    unfold simStep
    by_cases hpo : st.paidOff = true
    · rw [if_pos hpo]
      refine ⟨ihA, ?_⟩
      intro hpo' _
      simp [hpo'] at hpo
    · rw [if_neg hpo]
      have hpo' : st.paidOff = false := by
        revert hpo
        cases st.paidOff <;> simp
      by_cases hbal : st.balance ≤ 0
      · rw [if_pos hbal]
        constructor
        · intro e he' ha'
          exact ihA e he' ha'
        · intro hfalse _
          simp at hfalse
      · rw [if_neg hbal]
        constructor
        · intro e he' ha'
          rcases monthBody_events_mem cfg (schedOf cfg) n st e he' with h | ⟨hm, hb⟩
          · exact ihA e h ha'
          · have hbound := hb ha'
            have hyl : (yearReset n st).yearlyLimit =
                (1 / 10 : ℚ) * (loopIter cfg (12 * (n / 12))).balance := by
              unfold yearReset
              by_cases h12 : n % 12 = 0
              · rw [if_pos h12]
                have h1 : 12 * (n / 12) = n := by omega
                rw [h1, ← hstdef]
              · rw [if_neg h12]
                exact ihB hpo' h12
            rw [hm]
            exact le_trans hbound (le_of_eq hyl)
        · intro _ h12s
          rw [monthBody_yearlyLimit]
          unfold yearReset
          by_cases h12 : n % 12 = 0
          · rw [if_pos h12]
            have h1 : 12 * ((n + 1) / 12) = n := by omega
            rw [h1, ← hstdef]
          · rw [if_neg h12]
            have h2 : (n + 1) / 12 = n / 12 := by omega
            rw [h2]
            exact ihB hpo' h12

theorem claim_C2_annual_cap_witness :
    (⟨0, 120, .annual 1⟩ : OverpaymentEvent) ∈ (run_simulation cfgA).events ∧
    (OverTag.annual 1).isAnnual = true ∧
    (120 : ℚ) ≤ (1 / 10 : ℚ) * (loopIter cfgA (12 * (0 / 12))).balance := by
  have h12 : cfgA.total_years_to_simulate * 12 = 12 := by norm_num [cfgA]
  have hmem : (⟨0, 120, .annual 1⟩ : OverpaymentEvent) ∈ (run_simulation cfgA).events := by
    simp only [run_simulation, h12, stateA_12]
    simp
  refine ⟨hmem, rfl, ?_⟩
  have := claim_C2_annual_cap cfgA ⟨0, 120, .annual 1⟩ hmem rfl
  simpa using this

/-- C2 (counterexample to the claim as stated): in cfgB, calendar year 1
(months 12-23) logs two annual-allowance events (10300 at month 12 and
62500/51 at month 19, after the month-18 end-of-fixed-period sweep reset
the once-per-year flag); their sum 587800/51 exceeds 10% of the balance
103000 at the year's first month. -/
theorem claim_C2_cex :
    ¬ (sumAmounts (annualEventsInYear (run_simulation cfgB) 1)
        ≤ (1 / 10 : ℚ) * (loopIter cfgB 12).balance) := by
  have h24 : cfgB.total_years_to_simulate * 12 = 24 := by norm_num [cfgB]
  simp only [run_simulation, h24, stateB_24, stateB_12]
  norm_num [annualEventsInYear, sumAmounts, OverTag.isAnnual, List.filter,
    show ((0:ℕ) == 1) = false from rfl, show ((1:ℕ) == 1) = true from rfl]


/-- C10: every monthly record's cumulative-overpayments field equals the
sum of the amounts of all events logged in months up to and including
that record's month (record index i is month i), and the summary
total_overpayments equals the sum of all event amounts of the run. -/
theorem claim_C10_cumulative (cfg : SimConfig) :
    (∀ i r, (run_simulation cfg).records[i]? = some r →
      r.cumOverpayments = sumAmounts ((run_simulation cfg).events.filter
        (fun e => decide (e.month ≤ i)))) ∧
    (run_simulation cfg).total_overpayments = sumAmounts (run_simulation cfg).events := by
  have key : ∀ n,
      (loopIter cfg n).cumOverpayments = sumAmounts (loopIter cfg n).events ∧
      (∀ e ∈ (loopIter cfg n).events, e.month < n) ∧
      ((loopIter cfg n).paidOff = false → (loopIter cfg n).records.length = n) ∧
      (∀ i r, (loopIter cfg n).records[i]? = some r →
        r.cumOverpayments = sumAmounts ((loopIter cfg n).events.filter
          (fun e => decide (e.month ≤ i)))) := by
    apply loopIter_invariant cfg (fun n st =>
      st.cumOverpayments = sumAmounts st.events ∧
      (∀ e ∈ st.events, e.month < n) ∧
      (st.paidOff = false → st.records.length = n) ∧
      (∀ i r, st.records[i]? = some r →
        r.cumOverpayments = sumAmounts (st.events.filter
          (fun e => decide (e.month ≤ i)))))
    · refine ⟨rfl, ?_, fun _ => rfl, ?_⟩
      · intro e he
        simp [initState] at he
      · intro i r hr
        simp [initState] at hr
    · intro n st hst
      obtain ⟨hA, hB, hC, hD⟩ := hst
      unfold simStep
      split
      · next hpo =>
        refine ⟨hA, fun e he => Nat.lt_succ_of_lt (hB e he), ?_, hD⟩
        intro hf
        simp [hf] at hpo
      · next hpo =>
        split
        · refine ⟨hA, fun e he => Nat.lt_succ_of_lt (hB e he), ?_, hD⟩
          intro hf
          simp at hf
        · next hbal =>
          have hpo' : st.paidOff = false := by
            revert hpo
            cases st.paidOff <;> simp
          have hlen := hC hpo'
          obtain ⟨news, hne, hnm, hnc⟩ := monthBody_cum_events cfg (schedOf cfg) n st
          refine ⟨?_, ?_, ?_, ?_⟩
          · rw [hnc, hne, sumAmounts_append, hA]
          · intro e he
            rw [hne] at he
            rcases List.mem_append.mp he with h | h
            · exact Nat.lt_succ_of_lt (hB e h)
            · rw [hnm e h]
              exact Nat.lt_succ_self n
          · intro _
            rw [monthBody_records_len, hlen]
          · intro i r hr
            by_cases hlt : i < st.records.length
            · rw [monthBody_records_keep cfg (schedOf cfg) n st i hlt] at hr
              have hold := hD i r hr
              rw [hne, List.filter_append]
              have hnil : news.filter (fun e => decide (e.month ≤ i)) = [] := by
                apply List.filter_eq_nil_iff.mpr
                intro e he
                rw [hnm e he]
                have hni : ¬ (n ≤ i) := by omega
                simp [hni]
              rw [hnil, List.append_nil]
              exact hold
            · have hi : i < st.records.length + 1 := by
                have h := (List.getElem?_eq_some.mp hr).1
                rw [monthBody_records_len] at h
                omega
              have hieq : i = st.records.length := by omega
              have hgl : (monthBody cfg (schedOf cfg) n st).records.getLast? = some r := by
                rw [List.getLast?_eq_getElem?, monthBody_records_len]
                have hx : st.records.length + 1 - 1 = i := by omega
                rw [hx]
                exact hr
              have hlast := monthBody_records_last cfg (schedOf cfg) n st r hgl
              rw [hlast.2.2, hnc, hA, hne]
              rw [List.filter_append]
              have hall1 : st.events.filter (fun e => decide (e.month ≤ i)) = st.events := by
                apply List.filter_eq_self.mpr
                intro e he
                have hm := hB e he
                have : e.month ≤ i := by omega
                simp [this]
              have hall2 : news.filter (fun e => decide (e.month ≤ i)) = news := by
                apply List.filter_eq_self.mpr
                intro e he
                rw [hnm e he]
                have : n ≤ i := by omega
                simp [this]
              rw [hall1, hall2, sumAmounts_append]
  constructor
  · intro i r hr
    simp only [run_simulation] at hr ⊢
    exact (key (cfg.total_years_to_simulate * 12)).2.2.2 i r hr
  · simp only [run_simulation]
    exact (key (cfg.total_years_to_simulate * 12)).1

theorem claim_C10_cumulative_witness :
    (run_simulation cfgA).total_overpayments = sumAmounts (run_simulation cfgA).events ∧
    (120 : ℚ) = sumAmounts ((run_simulation cfgA).events.filter
      (fun e => decide (e.month ≤ 0))) := by
  have h12 : cfgA.total_years_to_simulate * 12 = 12 := by norm_num [cfgA]
  have h0 : (run_simulation cfgA).records[0]? = some
      { balance := 980, savings := 11780, cumOverpayments := 120, yearsVal := 0,
        income := 3000, expenses := 1000, overpayment := 120,
        availableCash := 1900, mortgagePayment := 100 } := by
    simp only [run_simulation, h12, stateA_12]
    rfl
  exact ⟨(claim_C10_cumulative cfgA).2, (claim_C10_cumulative cfgA).1 0 _ h0⟩

end Mortgage
